import Mathlib

/-!
OSPF Graceful Restart (ospfd/ospf_gr.c, ospfd/ospf_gr.h).

A shallow embedding of the Grace-LSA codec, of the helper state machine and of
the restarting state machine of `ospf_gr.c`, followed by theorems about them.

Conventions of the embedding.

* Memory reached through `lsa->data` is a list of bytes.  A read outside the
  list is a fault (`gr_fault.out_of_bounds`), never an invented value.
* Where the C code casts a pointer to a `struct ospf_lsa` object to another
  structure type, the loads are from the bytes of that object, which are a list
  of bytes of their own.
* Unsigned C integers are `Nat` reduced modulo `2^w` where the C code truncates;
  `int32_t` and `int` are `Int`.
* An IPv4 address (`struct in_addr`) is the number whose big-endian octets are
  the four address bytes in memory.
* A nullable pointer is an `Option`.  Pointers that the C code dereferences
  without a test and that can be NULL give `gr_fault.null_deref`.
* Calls into the host daemon (thread library, NSM, ISM, LSA origination) are
  recorded, in program order, in a list of `gr_effect`.
* `zlog_*` calls have no effect on the state and are left out.
-/

namespace OspfGr

/-! ## Faults -/

/-- Abnormal termination of a C function of the module. -/
inductive gr_fault where
  /-- A load from `lsa->data` at an offset outside the buffer, or from the bytes
  of an object at an offset behind the mapped memory. -/
  | out_of_bounds (off : Nat)
  /-- A dereference of a NULL pointer. -/
  | null_deref
  /-- The iteration bound of the embedding was reached (in the parser this never
  happens, see `ospf_gr_parse_loop_bound`). -/
  | loop_bound
  deriving DecidableEq, Repr

/-! ## Constants of ospf_gr.h -/

abbrev FALSE : Int := 0
abbrev TRUE : Int := 1

abbrev OSPF_GRACE_TLV_HDR_SIZE : Nat := 4
abbrev OSPF_GRACE_TLV_GRACE_PERIOD : Nat := 1
abbrev OSPF_GRACE_TLV_RESTART_REASON : Nat := 2
abbrev OSPF_GRACE_TLV_INTERFACE_ADDR : Nat := 3

abbrev GR_REASON_UNKNOWN : Nat := 0
abbrev GR_REASON_SOFTWARE_RESTART : Nat := 1
abbrev GR_REASON_SOFTWARE_RELOAD : Nat := 2
abbrev GR_REASON_SWTC_TO_REDUNDANT_CNTRL_PROCESSOR : Nat := 3

abbrev OSPF_GR_NOT_RESTART : Nat := 1
abbrev OSPF_GR_PLANNED_RESTART : Nat := 2
abbrev OSPF_GR_UNPLANNED_RESTART : Nat := 3

abbrev OSPF_GR_NONE : Nat := 1
abbrev OSPF_GR_IN_PROGRESS : Nat := 2
abbrev OSPF_GR_COMPLETED : Nat := 3
abbrev OSPF_GR_TIMEOUT : Nat := 4
abbrev OSPF_GR_TOPOLOGY_CHNAGE : Nat := 5

abbrev OSPF_GR_NOT_HELPING : Nat := 1
abbrev OSPF_GR_HELPING : Nat := 2

abbrev OSPF_GR_ADJ_NONE : Nat := 0
abbrev OSPF_GR_ADJ_OK : Nat := 1
abbrev OSPF_GR_ADJ_INPRGRESS : Nat := 2
abbrev OSPF_GR_ADJ_NOK : Nat := 3
abbrev OSPF_GR_ADJ_MAX : Nat := 4

/-! ## Constants of ospf_gr.c -/

abbrev RSM_GrResInProgress : Nat := 1
abbrev RSM_GrResOK : Nat := 2
abbrev RSM_GrResNOK : Nat := 3
abbrev RSM_GrResMax : Nat := 4

abbrev OSPF_RSM_SM_MONITOR_INTERVAL : Nat := 10

/-- The `enum ospf_gr_event` of ospf_gr.c. -/
inductive ospf_gr_event where
  | RSM_GrExtend
  | RSM_GrExpiry
  | RSM_GrIntAdjComplete
  | RSM_GrNbrInconsistent
  | RSM_GrNoNbr
  deriving DecidableEq, Repr

/-! ## Constants and declarations of the host daemon

These are declared in headers of the daemon that are not part of the module. -/

/-- Modelled from the spec: the size of the LSA header that precedes the TLVs
("the 20-byte LSA header"); `OSPF_LSA_HEADER_SIZE` is declared in the host's
`ospf_lsa.h`. -/
abbrev OSPF_LSA_HEADER_SIZE : Nat := 20

/-- Modelled from the spec: the LSA type of a link-scope opaque LSA ("type 9");
declared in the host's `ospf_lsa.h`. -/
abbrev OSPF_OPAQUE_LINK_LSA : Nat := 9

/-- Modelled from the spec: the opaque type of a Grace-LSA ("opaque-type = 3");
declared in the host's `ospf_opaque.h`. -/
abbrev OPAQUE_TYPE_GRACE_LSA : Nat := 3

/-- Modelled from the spec: the Opaque-capable bit of the options octet;
`OSPF_OPTION_O` is declared in the host's `ospfd.h`. -/
abbrev OSPF_OPTION_O : Nat := 64

/-- Modelled from the spec: the first LSA type of the range "Router..AS-NSSA";
declared in the host's `ospf_lsa.h`. -/
abbrev OSPF_ROUTER_LSA : Nat := 1

/-- Modelled from the spec: the last LSA type of the range "Router(1)..AS-NSSA(7)";
declared in the host's `ospf_lsa.h`. -/
abbrev OSPF_AS_NSSA_LSA : Nat := 7

/-- Modelled from the spec: "MaxAge", the age that a flushed LSA carries;
`OSPF_LSA_MAXAGE` is declared in the host's `ospf_lsa.h` (3600 s in OSPFv2). -/
abbrev OSPF_LSA_MAXAGE : Nat := 3600

/-- Modelled from the spec: the type of a "PointToPoint" link of a Router-LSA;
`LSA_LINK_TYPE_POINTOPOINT` is declared in the host's `ospf_lsa.h`. -/
abbrev LSA_LINK_TYPE_POINTOPOINT : Nat := 1

/-- Modelled from the spec: the type of a "Transit" link of a Router-LSA;
`LSA_LINK_TYPE_TRANSIT` is declared in the host's `ospf_lsa.h`. -/
abbrev LSA_LINK_TYPE_TRANSIT : Nat := 2

/-- Modelled from the spec: the offset of the link-state ID in "the 20-byte LSA
header", the field `id` of the host's `struct lsa_header` (`ospf_lsa.h`), which
follows the 16-bit age, the options octet and the type octet. -/
abbrev LSA_HEADER_ID : Nat := 4

/-- Modelled from the spec: the offset of the advertising router in "the
20-byte LSA header", the field `adv_router` of the host's `struct lsa_header`,
which follows the link-state ID. -/
abbrev LSA_HEADER_ADV_ROUTER : Nat := 12

/-- Modelled from the spec: the offset of the 16-bit link count `links` in the
host's `struct router_lsa` (`ospf_lsa.h`): behind "the 20-byte LSA header", a
flags octet and a zero octet. -/
abbrev ROUTER_LSA_LINKS : Nat := 22

/-- Modelled from the spec: the offset of the array `link[]` in the host's
`struct router_lsa`. -/
abbrev ROUTER_LSA_LINK : Nat := 24

/-- Modelled from the spec: the size of an entry of `link[]` in the host's
`struct router_lsa`: "link ID" and "link data" of four bytes each, the type
octet, the TOS count and the 16-bit metric. -/
abbrev ROUTER_LSA_LINK_SIZE : Nat := 12

/-- Modelled from the spec: the offset of "link data" in an entry of `link[]`. -/
abbrev ROUTER_LSA_LINK_DATA : Nat := 4

/-- Modelled from the spec: the offset of the type octet in an entry of
`link[]`. -/
abbrev ROUTER_LSA_LINK_TYPE : Nat := 8

/-- Modelled from the spec: the offset of the array `routers[]`, "the list of
attached router IDs", in the host's `struct network_lsa` (`ospf_lsa.h`): behind
"the 20-byte LSA header" and the network mask. -/
abbrev NETWORK_LSA_ROUTERS : Nat := 24

/-- Modelled from the spec: `ROUNDUP (val, gran)` of the host's headers, "the
payload length rounded up to a multiple of 4 bytes" for `gran = 4`. -/
def ROUNDUP (val gran : Nat) : Nat := (val + (gran - 1)) / gran * gran

/-- Modelled from the spec: `SET_OPAQUE_LSID (type, id)` of the host's
`ospf_opaque.h`: "link-state ID has the high octet = opaque-type and low 24
bits" the opaque id. -/
def SET_OPAQUE_LSID (type id : Nat) : Nat := (type % 256) * 2 ^ 24 + id % 2 ^ 24

/-- Modelled from the spec: `GET_OPAQUE_TYPE (lsid)` of the host's
`ospf_opaque.h`, the high octet of a link-state ID. -/
def GET_OPAQUE_TYPE (lsid : Nat) : Nat := (lsid / 2 ^ 24) % 256

/-! ## Byte order and loads -/

/-- The two bytes in memory of `htons (v)`. -/
def htons (v : Nat) : List Nat := [v / 256 % 256, v % 256]

/-- The four bytes in memory of `htonl (v)`. -/
def htonl (v : Nat) : List Nat :=
  [v / 2 ^ 24 % 256, v / 2 ^ 16 % 256, v / 2 ^ 8 % 256, v % 256]

/-- The conversion of a `u_int32_t` to `int32_t`. -/
def to_int32 (v : Nat) : Int :=
  if v % 2 ^ 32 < 2 ^ 31 then (v % 2 ^ 32 : Nat) else (v % 2 ^ 32 : Nat) - 2 ^ 32

/-- The conversion of an `int32_t` or `int` to `u_int32_t`. -/
def to_uint32 (v : Int) : Nat := (v % 2 ^ 32).toNat

/-- The conversion of an `int` to `u_char`. -/
def to_uchar (v : Int) : Nat := (v % 256).toNat

/-- A one-byte load at offset `off` of the buffer. -/
def rd8 (data : List Nat) (off : Nat) : Except gr_fault Nat :=
  match data[off]? with
  | some b => .ok (b % 256)
  | none => .error (.out_of_bounds off)

/-- A load of a `u_int16_t` at `off`, passed through `ntohs`. -/
def rd16 (data : List Nat) (off : Nat) : Except gr_fault Nat := do
  let b0 ← rd8 data off
  let b1 ← rd8 data (off + 1)
  pure (256 * b0 + b1)

/-- A load of a `u_int16_t` at `off` that is not passed through `ntohs`: the
value in the byte order of the host. -/
def rd16_host (little_endian : Bool) (data : List Nat) (off : Nat) : Except gr_fault Nat :=
  if little_endian = true then do
    let b0 ← rd8 data off
    let b1 ← rd8 data (off + 1)
    pure (b0 + 256 * b1)
  else rd16 data off

/-- A load of a `u_int32_t` at `off`, passed through `ntohl`. -/
def rd32 (data : List Nat) (off : Nat) : Except gr_fault Nat := do
  let b0 ← rd8 data off
  let b1 ← rd8 data (off + 1)
  let b2 ← rd8 data (off + 2)
  let b3 ← rd8 data (off + 3)
  pure (2 ^ 24 * b0 + 2 ^ 16 * b1 + 2 ^ 8 * b2 + b3)

/-! ## TLV size arithmetic of ospf_gr.h

The argument is the value of `ntohs ((tlvh)->length)`. -/

/-- `OSPF_GRACE_TLV_BODY_SIZE(tlvh)`. -/
def OSPF_GRACE_TLV_BODY_SIZE (length : Nat) : Nat := ROUNDUP length 4

/-- `OSPF_GRACE_TLV_SIZE(tlvh)`. -/
def OSPF_GRACE_TLV_SIZE (length : Nat) : Nat :=
  OSPF_GRACE_TLV_HDR_SIZE + OSPF_GRACE_TLV_BODY_SIZE length

/-! ## Parsing a Grace-LSA -/

/-- The three cells `*grace_period`, `*if_addr` and `*reason` that
`ospf_gr_parse_grace_lsa` writes through its pointer arguments. -/
structure grace_lsa_out where
  grace_period : Nat
  if_addr : Nat
  reason : Nat
  deriving DecidableEq, Repr

/-- The body of the `switch (ntohs (tlvh->type))` of `ospf_gr_parse_grace_lsa`. -/
def ospf_gr_parse_tlv (data : List Nat) (tlvh : Nat) (type : Nat) (out : grace_lsa_out) :
    Except gr_fault grace_lsa_out :=
  if type = OSPF_GRACE_TLV_GRACE_PERIOD then do
    let v ← rd32 data (tlvh + OSPF_GRACE_TLV_HDR_SIZE)
    pure { out with grace_period := v }
  else if type = OSPF_GRACE_TLV_RESTART_REASON then do
    let v ← rd8 data (tlvh + OSPF_GRACE_TLV_HDR_SIZE)
    pure { out with reason := v }
  else if type = OSPF_GRACE_TLV_INTERFACE_ADDR then do
    let v ← rd32 data (tlvh + OSPF_GRACE_TLV_HDR_SIZE)
    pure { out with if_addr := v }
  else
    pure out

/-- The `for` loop of `ospf_gr_parse_grace_lsa`: `sum` and `total` are the
`u_int16_t` locals, `tlvh` is the offset of the current TLV header from `lsah`.
The first argument bounds the number of iterations. -/
def ospf_gr_parse_loop (data : List Nat) (total : Nat) :
    Nat → Nat → Nat → grace_lsa_out → Except gr_fault grace_lsa_out
  | 0, sum, tlvh, out =>
    if sum < total then do
      let _ ← rd16 data (tlvh + 2)
      .error .loop_bound
    else
      pure out
  | fuel + 1, sum, tlvh, out =>
    if sum < total then do
      -- sum += OSPF_GRACE_TLV_SIZE(tlvh);
      let length ← rd16 data (tlvh + 2)
      let sum1 := (sum + OSPF_GRACE_TLV_SIZE length) % 65536
      -- switch (ntohs(tlvh->type))
      let type ← rd16 data tlvh
      let out1 ← ospf_gr_parse_tlv data tlvh type out
      -- tlvh = OSPF_GRACE_TLV_HDR_NEXT (tlvh)
      let length1 ← rd16 data (tlvh + 2)
      ospf_gr_parse_loop data total fuel sum1 (tlvh + OSPF_GRACE_TLV_SIZE length1) out1
    else
      pure out

/-- The C function `ospf_gr_parse_grace_lsa`.  `lsah` is the buffer at the LSA
header; `out` holds the contents of the three result cells before the call. -/
def ospf_gr_parse_grace_lsa (lsah : Option (List Nat)) (out : grace_lsa_out) :
    Except gr_fault grace_lsa_out :=
  match lsah with
  | none => pure out
  | some data => do
    let length ← rd16 data 18
    let total := (length + 65536 - OSPF_LSA_HEADER_SIZE) % 65536
    ospf_gr_parse_loop data total data.length 0 OSPF_LSA_HEADER_SIZE out

/-! ## Data model (ospf_gr.h and the host structures the module uses) -/

/-- The callbacks that the module hands to the thread library. -/
inductive thread_func where
  | ospf_gr_grace_period_expiry
  | ospf_ins_restart_status
  | ospf_gr_restart_monitor
  | ospf_gr_no_nbr_monitor
  | ospf_gr_adjacency_consistency_check
  | ospf_adjacency_grace_period
  /-- A callback of the host daemon. -/
  | host
  deriving DecidableEq, Repr

/-- A `struct thread *` handle as returned by `thread_add_timer`: the callback
and the delay in seconds. -/
structure thread where
  func : thread_func
  timer : Nat
  deriving DecidableEq, Repr

/-- The `struct timeval` of the C library. -/
structure timeval where
  tv_sec : Int
  tv_usec : Int
  deriving DecidableEq, Repr

/-- The `struct ospf_gr_info` of ospf_gr.h. -/
structure ospf_gr_info where
  helper_enable : Int
  gr_enable : Int
  grace_period : Int
  strict_lsa_check : Int
  gr_status : Int
  start_time : timeval
  gr_exit_reason : Int
  gr_monitor_t : Option thread
  gr_expiry_t : Option thread
  deriving DecidableEq, Repr

/-- The `struct ospf_gr_nbr_info` of ospf_gr.h. -/
structure ospf_gr_nbr_info where
  helper_status : Nat
  start_time : timeval
  helper_exit_rsn : Nat
  grace_period : Nat
  helper_t : Option thread
  t_adja_check : Option thread
  deriving DecidableEq, Repr

/-- The neighbor states of the host's NSM (ospf_nsm.h); the module names only
`NSM_Full`. -/
inductive nsm_state where
  | NSM_DependUpon | NSM_Deleted | NSM_Down | NSM_Attempt | NSM_Init | NSM_TwoWay
  | NSM_ExStart | NSM_Exchange | NSM_Loading | NSM_Full
  deriving DecidableEq, Repr

/-- The NSM events that the module schedules. -/
inductive nsm_event where
  | NSM_InactivityTimer
  deriving DecidableEq, Repr

/-- The ISM events that the module executes. -/
inductive ism_event where
  | ISM_NeighborChange
  deriving DecidableEq, Repr

/-- The fields of the host's `struct ospf_neighbor` that the helper code uses.
`src` is the address under which the neighbor is entered in `oi->nbrs`;
`ls_rxmt` lists, for the LSA types `OSPF_MIN_LSA .. OSPF_MAX_LSA - 1` in order,
the pair `(ospf_lsdb_count, ospf_lsdb_count_self)` of the retransmission list. -/
structure ospf_neighbor where
  src : Nat
  router_id : Nat
  state : nsm_state
  t_inactivity : Option thread
  ls_rxmt : List (Nat × Nat)
  gr_helper : ospf_gr_nbr_info
  /-- The address `nbr->address.u.prefix4`. -/
  address : Nat := 0
  deriving DecidableEq, Repr

/-- The interface states of the host's ISM (ospf_ism.h). -/
inductive ism_state where
  | ISM_DependUpon | ISM_Down | ISM_Loopback | ISM_Waiting | ISM_PointToPoint | ISM_DROther
  | ISM_Backup | ISM_DR
  deriving DecidableEq, Repr

/-- A link of a Router-LSA as the specification speaks of it: link ID, link data
and link type. -/
structure router_lsa_link where
  link_id : Nat
  link_data : Nat
  type : Nat
  deriving DecidableEq, Repr

/-- The content of a Router-LSA as the specification speaks of it: the
advertising router and the links.  The module never loads it: see
`router_lsdb_entry`. -/
structure router_lsa where
  adv_router : Nat
  link : List router_lsa_link
  deriving DecidableEq, Repr

/-- The content of a Network-LSA as the specification speaks of it: the
link-state ID and the attached routers.  The module never loads it: see
`network_lsdb_entry`. -/
structure network_lsa where
  id : Nat
  routers : List Nat
  deriving DecidableEq, Repr

/-- A Router-LSA held by an LSDB: the `struct ospf_lsa` object that the LSDB
node points to.  `object` holds the bytes of that object itself as they lie in
memory, in the host's layout of `struct ospf_lsa`, followed by the bytes behind
it as far as memory is mapped; these are the bytes that the module loads, since
it casts the pointer to the object to `struct router_lsa *`.  `lsa` is the
content of the LSA, which lies elsewhere, behind the pointer `data` of the
object. -/
structure router_lsdb_entry where
  object : List Nat
  lsa : router_lsa
  deriving DecidableEq, Repr

/-- A Network-LSA held by an LSDB, as `router_lsdb_entry`: `object` holds the
bytes of the `struct ospf_lsa` object, which the module loads through its cast
to `struct network_lsa *`, and `lsa` the content of the LSA. -/
structure network_lsdb_entry where
  object : List Nat
  lsa : network_lsa
  deriving DecidableEq, Repr

/-- The fields of the host's `struct ospf_area` that the module uses:
`lsa_options` is the value of `LSA_OPTIONS_GET (area) | LSA_OPTIONS_NSSA_GET (area)`,
`router_lsa_self` is `area->router_lsa_self` (`none` for NULL), and
`router_lsdb` and `network_lsdb` list the entries of `ROUTER_LSDB (area)` and
`NETWORK_LSDB (area)` in the order of `LSDB_LOOP`.  `host_little_endian` is no
field of the C structure: it tells the byte order of the host, which decides
the value of the one 16-bit load that the module makes without `ntohs`. -/
structure ospf_area where
  area_id : Nat
  lsa_options : Nat
  router_lsa_self : Option router_lsdb_entry := none
  router_lsdb : List router_lsdb_entry := []
  network_lsdb : List network_lsdb_entry := []
  host_little_endian : Bool := true
  deriving DecidableEq, Repr

/-- The fields of the host's `struct ospf_lsa` that the module uses: `data` is
the buffer at `lsa->data` (`none` for NULL), `self` is the flag `OSPF_LSA_SELF`
and `LS_AGE` is the value of the host's `LS_AGE (lsa)`. -/
structure ospf_lsa where
  data : Option (List Nat)
  area : Option ospf_area
  self : Bool
  LS_AGE : Nat
  deriving DecidableEq, Repr

/-- The fields of the host's `struct ospf_interface` that the module uses:
`address` is `oi->address->u.prefix4`, `dr` is `DR (oi).s_addr`, `nbrs` lists
the neighbors held by the nodes of the table `oi->nbrs` in the order of
`route_top` / `route_next`, `state` is the ISM state, `gr_state` the resume
state (0 while idle), `gr_nonbr_monitor` the handle of the no-neighbor
watchdog, `v_wait` the value of `OSPF_IF_PARAM (oi, v_wait)` and
`network_lsa_self` is `oi->network_lsa_self` (`none` for NULL). -/
structure ospf_interface where
  address : Nat
  area : ospf_area
  dr : Nat
  nbrs : List ospf_neighbor
  state : ism_state := ism_state.ISM_Down
  gr_state : Nat := 0
  gr_nonbr_monitor : Option thread := none
  v_wait : Nat := 40
  network_lsa_self : Option ospf_lsa := none
  deriving DecidableEq, Repr

/-- The fields of the host's `struct ospf` that the module uses. -/
structure ospf where
  router_id : Nat
  gr_info : ospf_gr_info
  oiflist : List ospf_interface
  lsa_originate_count : Nat := 0
  deriving DecidableEq, Repr

/-- The fields of the host's `struct ospf_master` that the module uses: the
list of instances `om->ospf`, the flags `OSPF_GR_RESTART_IN_PROGRESS` and
`OSPF_GR_SHUTDOWN_IN_PROGRESS` of `om->options`, and the handle
`om->restart_status_t` of the pending instance-exit task. -/
structure ospf_master where
  ospf : List ospf
  gr_restart_in_progress : Bool
  gr_shutdown_in_progress : Bool
  restart_status_t : Option thread
  deriving DecidableEq, Repr

/-! ## Building a Grace-LSA -/

/-- The contents of a `struct stream` of the host library between its start
and its end pointer. -/
abbrev stream := List Nat

/-- The host library's `stream_put (s, src, size)`: append `size` bytes of the
memory at `src`. -/
def stream_put (s : stream) (src : List Nat) (size : Nat) : stream :=
  s ++ (src.take size).map (fun b => b % 256)

/-- The host library's `stream_get_endp (s)`. -/
def stream_get_endp (s : stream) : Nat := s.length

/-- The value of `ntohs` on a two-byte field in memory. -/
def ntohs (field : List Nat) : Nat := 256 * (field.getD 0 0 % 256) + field.getD 1 0 % 256

/-- The C function `ospf_gr_build_grace_tlv_header`. -/
def ospf_gr_build_grace_tlv_header (s : stream) (tlvh : List Nat) : stream :=
  stream_put s tlvh OSPF_GRACE_TLV_HDR_SIZE

/-- The C function `ospf_gr_grace_period_tlv`; `ospf` is `oi->ospf`. -/
def ospf_gr_grace_period_tlv (s : stream) (ospf : ospf) : stream :=
  let type := htons OSPF_GRACE_TLV_GRACE_PERIOD
  let length := htons 4
  let value := htonl (to_uint32 ospf.gr_info.grace_period)
  let s := ospf_gr_build_grace_tlv_header s (type ++ length)
  stream_put s value (OSPF_GRACE_TLV_BODY_SIZE (ntohs length))

/-- The three bytes that follow `gr_reason.value` in memory: one byte of
structure padding and two bytes past the end of the local variable. -/
structure reason_tail where
  b0 : Nat
  b1 : Nat
  b2 : Nat
  deriving DecidableEq, Repr

/-- The C function `ospf_gr_grace_restart_reason_tlv`; `gr_restart_rsn` is the
global variable.  The body size of the TLV is 4, so `stream_put` copies the
value and the three bytes behind it. -/
def ospf_gr_grace_restart_reason_tlv (s : stream) (gr_restart_rsn : Int) (tail : reason_tail) :
    stream :=
  let type := htons OSPF_GRACE_TLV_RESTART_REASON
  let length := htons 1
  let value := [to_uchar gr_restart_rsn]
  let s := ospf_gr_build_grace_tlv_header s (type ++ length)
  stream_put s (value ++ [tail.b0, tail.b1, tail.b2]) (OSPF_GRACE_TLV_BODY_SIZE (ntohs length))

/-- The C function `ospf_gr_grace_if_addr_tlv`. -/
def ospf_gr_grace_if_addr_tlv (s : stream) (oi : ospf_interface) : stream :=
  let type := htons OSPF_GRACE_TLV_INTERFACE_ADDR
  let length := htons 4
  let value := htonl oi.address
  let s := ospf_gr_build_grace_tlv_header s (type ++ length)
  stream_put s value (OSPF_GRACE_TLV_BODY_SIZE (ntohs length))

/-- The C function `ospf_gr_lsa_body_set`. -/
def ospf_gr_lsa_body_set (s : stream) (gr_restart_rsn : Int) (tail : reason_tail)
    (ospf : ospf) (oi : ospf_interface) : stream :=
  let s := ospf_gr_grace_period_tlv s ospf
  let s := ospf_gr_grace_restart_reason_tlv s gr_restart_rsn tail
  ospf_gr_grace_if_addr_tlv s oi

/-- Modelled from the spec: `lsa_header_set` of the host's ospf_lsa.c, which
appends the 20-byte LSA header: age 0, "options", "LSA type", "link-state ID",
"advertising router", the initial sequence number, and checksum and length
still zero. -/
def lsa_header_set (s : stream) (options type id router_id : Nat) : stream :=
  s ++ htons 0 ++ [options % 256, type % 256] ++ htonl id ++ htonl router_id
    ++ htonl 0x80000001 ++ htons 0 ++ htons 0

/-- The C function `ospf_gr_lsa_new` (the allocations succeed); `ospf` is
`area->ospf`, which is also `oi->ospf`. -/
def ospf_gr_lsa_new (gr_restart_rsn : Int) (tail : reason_tail) (ospf : ospf)
    (area : ospf_area) (oi : ospf_interface) : ospf_lsa :=
  let s : stream := []
  let options := (area.lsa_options ||| OSPF_OPTION_O) % 256
  let lsa_type := OSPF_OPAQUE_LINK_LSA
  let tmp := SET_OPAQUE_LSID OPAQUE_TYPE_GRACE_LSA 0
  let s := lsa_header_set s options lsa_type tmp ospf.router_id
  let s := ospf_gr_lsa_body_set s gr_restart_rsn tail ospf oi
  let length := stream_get_endp s % 65536
  -- lsah->length = htons (length);
  let lsah := s.take 18 ++ htons length ++ s.drop 20
  -- memcpy (new->data, lsah, length);
  { data := some (lsah.take length), area := some area, self := true, LS_AGE := 0 }

/-! ## Helper mode (RFC 3623 section 3) -/

/-- The calls of the module into the host daemon.  An interface is named by its
address, a neighbor by the address of its interface and its own `src`, an area
by its area id. -/
inductive gr_effect where
  | thread_cancel (t : thread)
  | thread_add_timer (func : thread_func) (oi : Nat) (nbr : Nat) (timer : Nat)
  /-- `OSPF_NSM_EVENT_SCHEDULE (nbr, event)`. -/
  | nsm_event_schedule (oi : Nat) (nbr : Nat) (event : nsm_event)
  /-- `OSPF_ISM_EVENT_EXECUTE (oi, event)`. -/
  | ism_event_execute (oi : Nat) (event : ism_event)
  | router_lsa_update_area (area : Nat)
  | network_lsa_update (oi : Nat)
  /-- `thread_add_timer (master, func, ospf, timer)` for an instance. -/
  | thread_add_timer_ospf (func : thread_func) (timer : Nat)
  /-- `thread_add_timer (master, func, oi, timer)` for an interface. -/
  | thread_add_timer_oi (func : thread_func) (oi : Nat) (timer : Nat)
  /-- `thread_add_event (master, func, om, 0)`. -/
  | thread_add_event_master (func : thread_func)
  /-- `thread_add_event (master, func, nbr, 0)` for a neighbor. -/
  | thread_add_event_nbr (func : thread_func) (oi : Nat) (nbr : Nat)
  /-- `ospf_lsa_install (area->ospf, oi, new)`. -/
  | lsa_install (oi : Nat) (lsa : ospf_lsa)
  /-- `ospf_flood_through_area (area, NULL, new)`. -/
  | flood_through_area (area : Nat) (lsa : ospf_lsa)
  /-- `ospf_lsa_flush_area (lsa, area)`. -/
  | lsa_flush_area (lsa : ospf_lsa) (area : Nat)
  deriving DecidableEq, Repr

/-- Modelled from the spec: `ospf_nbr_lookup_by_addr` of the host's
ospf_neighbor.c, the "neighbor lookup by the LSA's interface-address TLV ... on
the receiving interface": the neighbor entered in the table under `addr`, or
NULL. -/
def ospf_nbr_lookup_by_addr (nbrs : List ospf_neighbor) (addr : Nat) : Option ospf_neighbor :=
  nbrs.find? (fun n => n.src = addr)

/-- The stores through the pointer returned by `ospf_nbr_lookup_by_addr`: the
neighbor found under `addr` becomes `new`. -/
def nbr_store (addr : Nat) (new : ospf_neighbor) : List ospf_neighbor → List ospf_neighbor
  | [] => []
  | n :: rest => if n.src = addr then new :: rest else n :: nbr_store addr new rest

/-- The loop of `ospf_gr_ls_retransmit_isrefresh` over the slots of
`nbr->ls_rxmt`. -/
def ospf_gr_ls_retransmit_isrefresh_loop : List (Nat × Nat) → Bool
  | [] => false
  | (count, count_self) :: rest =>
    if count ≠ count_self then true else ospf_gr_ls_retransmit_isrefresh_loop rest

/-- The C function `ospf_gr_ls_retransmit_isrefresh`. -/
def ospf_gr_ls_retransmit_isrefresh (nbr : ospf_neighbor) : Bool :=
  ospf_gr_ls_retransmit_isrefresh_loop nbr.ls_rxmt

/-- The host's `OSPF_NSM_TIMER_OFF (X)`: cancel the timer if it is armed and
clear the handle. -/
def OSPF_NSM_TIMER_OFF (t : Option thread) : Option thread × List gr_effect :=
  (none,
    match t with
    | some th => [gr_effect.thread_cancel th]
    | none => [])

/-- The C function `ospf_gr_helper_exit_action`; `oi` is `nbr->oi`.  The
argument `nbr` is not NULL at any of the three call sites.  What the ISM does
when it executes `ISM_NeighborChange` is the host's business and is
represented by the recorded call alone. -/
def ospf_gr_helper_exit_action (oi : ospf_interface) (nbr : ospf_neighbor) :
    ospf_neighbor × List gr_effect :=
  let e1 : List gr_effect :=
    match nbr.gr_helper.helper_t with
    | some t => [gr_effect.thread_cancel t]
    | none => []
  let nbr1 : ospf_neighbor :=
    { nbr with gr_helper := { nbr.gr_helper with
        helper_t := none, helper_status := OSPF_GR_NOT_HELPING, grace_period := 0 } }
  let e2 : List gr_effect :=
    if nbr1.gr_helper.helper_exit_rsn = OSPF_GR_TIMEOUT ∨
        nbr1.gr_helper.helper_exit_rsn = OSPF_GR_TOPOLOGY_CHNAGE then
      [gr_effect.nsm_event_schedule oi.address nbr1.src nsm_event.NSM_InactivityTimer]
    else
      [gr_effect.ism_event_execute oi.address ism_event.ISM_NeighborChange]
  let e3 : List gr_effect := [gr_effect.router_lsa_update_area oi.area.area_id]
  let e4 : List gr_effect :=
    if oi.dr ≠ 0 then [gr_effect.network_lsa_update oi.address] else []
  (nbr1, e1 ++ e2 ++ e3 ++ e4)

/-- The C function `ospf_adjacency_grace_period`, the callback of the helper
timer; `nbr` is `THREAD_ARG (t)` and `oi` is `nbr->oi`. -/
def ospf_adjacency_grace_period (oi : ospf_interface) (nbr : ospf_neighbor) :
    ospf_neighbor × List gr_effect :=
  let nbr1 : ospf_neighbor :=
    { nbr with gr_helper := { nbr.gr_helper with
        helper_exit_rsn := OSPF_GR_TIMEOUT, helper_t := none } }
  ospf_gr_helper_exit_action oi nbr1

/-- The outcome of an LSDB hook: the return value, the interface `lsa->oi`
after the call and the calls made into the host. -/
structure hlpr_result where
  rc : Int
  oi : ospf_interface
  effects : List gr_effect
  deriving DecidableEq, Repr

/-- The C function `ospf_gr_hlpr_new_lsa`.  `helper_enable` is the global
variable, `now` the value of `recent_relative_time ()`, `locals` the contents
of the uninitialised locals `grace_period`, `if_addr`, `reason`, and `oi` the
interface `lsa->oi`. -/
def ospf_gr_hlpr_new_lsa (helper_enable : Int) (now : timeval) (locals : grace_lsa_out)
    (lsa : Option ospf_lsa) (oi : ospf_interface) : Except gr_fault hlpr_result :=
  if helper_enable = FALSE then pure ⟨0, oi, []⟩
  else match lsa with
  | none => pure ⟨-1, oi, []⟩
  | some lsa =>
    match lsa.data with
    | none => pure ⟨-1, oi, []⟩
    | some lsah => do
      let type ← rd8 lsah 3
      if type ≠ OSPF_OPAQUE_LINK_LSA then pure ⟨0, oi, []⟩
      else do
        let id ← rd32 lsah 4
        if GET_OPAQUE_TYPE id ≠ OPAQUE_TYPE_GRACE_LSA then pure ⟨0, oi, []⟩
        else do
          let out ← ospf_gr_parse_grace_lsa (some lsah) locals
          match ospf_nbr_lookup_by_addr oi.nbrs out.if_addr with
          | none => pure ⟨0, oi, []⟩
          | some nbr =>
            if nbr.gr_helper.helper_status = OSPF_GR_HELPING then pure ⟨0, oi, []⟩
            else if ¬ ((lsa.LS_AGE : Int) < to_int32 out.grace_period) then pure ⟨0, oi, []⟩
            else if nbr.state ≠ nsm_state.NSM_Full then pure ⟨0, oi, []⟩
            else if ospf_gr_ls_retransmit_isrefresh nbr then pure ⟨0, oi, []⟩
            else
              let off := OSPF_NSM_TIMER_OFF nbr.t_inactivity
              let nbr1 : ospf_neighbor :=
                { nbr with
                  t_inactivity := off.1
                  gr_helper := { nbr.gr_helper with
                    helper_status := OSPF_GR_HELPING
                    grace_period := out.grace_period
                    helper_exit_rsn := OSPF_GR_IN_PROGRESS
                    start_time := now
                    helper_t := some ⟨thread_func.ospf_adjacency_grace_period,
                      out.grace_period⟩ } }
              pure ⟨0, { oi with nbrs := nbr_store out.if_addr nbr1 oi.nbrs },
                off.2 ++ [gr_effect.thread_add_timer thread_func.ospf_adjacency_grace_period
                  oi.address nbr.src out.grace_period]⟩

/-- The C function `ospf_gr_hlpr_del_lsa`, with the same conventions as
`ospf_gr_hlpr_new_lsa`. -/
def ospf_gr_hlpr_del_lsa (locals : grace_lsa_out) (lsa : Option ospf_lsa)
    (oi : ospf_interface) : Except gr_fault hlpr_result :=
  match lsa with
  | none => pure ⟨0, oi, []⟩
  | some lsa =>
    match lsa.data with
    | none => pure ⟨0, oi, []⟩
    | some lsah => do
      let type ← rd8 lsah 3
      if type ≠ OSPF_OPAQUE_LINK_LSA then pure ⟨0, oi, []⟩
      else do
        let id ← rd32 lsah 4
        if GET_OPAQUE_TYPE id ≠ OPAQUE_TYPE_GRACE_LSA then pure ⟨0, oi, []⟩
        else do
          let out ← ospf_gr_parse_grace_lsa (some lsah) locals
          match ospf_nbr_lookup_by_addr oi.nbrs out.if_addr with
          | none => .error .null_deref
          | some nbr =>
            if nbr.gr_helper.helper_status = OSPF_GR_HELPING then
              let r := ospf_gr_helper_exit_action oi nbr
              let nbr2 : ospf_neighbor :=
                { r.1 with gr_helper := { r.1.gr_helper with
                    helper_exit_rsn := OSPF_GR_COMPLETED } }
              pure ⟨0, { oi with nbrs := nbr_store out.if_addr nbr2 oi.nbrs }, r.2⟩
            else pure ⟨0, oi, []⟩

/-- The inner loop of `ospf_gr_check_topology_change` over the neighbors of
the interface `oif`. -/
def ospf_gr_topology_change_nbrs (oif : ospf_interface) :
    List ospf_neighbor → List ospf_neighbor × List gr_effect
  | [] => ([], [])
  | nbr :: rest =>
    if nbr.gr_helper.helper_status = OSPF_GR_HELPING then
      let nbr1 : ospf_neighbor :=
        { nbr with gr_helper := { nbr.gr_helper with
            helper_exit_rsn := OSPF_GR_TOPOLOGY_CHNAGE } }
      let r := ospf_gr_helper_exit_action oif nbr1
      let rs := ospf_gr_topology_change_nbrs oif rest
      (r.1 :: rs.1, r.2 ++ rs.2)
    else
      let rs := ospf_gr_topology_change_nbrs oif rest
      (nbr :: rs.1, rs.2)

/-- The outer loop of `ospf_gr_check_topology_change` over `ospf->oiflist`. -/
def ospf_gr_topology_change_oifs : List ospf_interface → List ospf_interface × List gr_effect
  | [] => ([], [])
  | oif :: rest =>
    let r := ospf_gr_topology_change_nbrs oif oif.nbrs
    let rs := ospf_gr_topology_change_oifs rest
    ({ oif with nbrs := r.1 } :: rs.1, r.2 ++ rs.2)

/-- The outcome of `ospf_gr_check_topology_change`: the return value, the
instance `oi->ospf` after the call and the calls made into the host. -/
structure topology_result where
  rc : Int
  ospf : Option ospf
  effects : List gr_effect
  deriving DecidableEq, Repr

/-- The C function `ospf_gr_check_topology_change`.  `helper_enable` is the
global variable, `ospf_lsa_different` the host's comparison of two LSAs, and
`oi_ospf` the instance `oi->ospf`; of `oi` itself only the presence matters. -/
def ospf_gr_check_topology_change (helper_enable : Int)
    (ospf_lsa_different : ospf_lsa → ospf_lsa → Bool)
    (curr_lsa new_lsa : Option ospf_lsa) (oi : Option ospf_interface)
    (oi_ospf : Option ospf) : Except gr_fault topology_result :=
  match oi, new_lsa with
  | none, _ => pure ⟨0, oi_ospf, []⟩
  | _, none => pure ⟨0, oi_ospf, []⟩
  | some _, some new =>
    match oi_ospf with
    | none => pure ⟨0, oi_ospf, []⟩
    | some ospf =>
      if helper_enable = FALSE ∨ ospf.gr_info.gr_status ≠ (OSPF_GR_NOT_RESTART : Int) ∨
          ospf.gr_info.strict_lsa_check = FALSE then pure ⟨0, oi_ospf, []⟩
      else
        match new.data with
        | none => .error .null_deref
        | some lsah => do
          let type ← rd8 lsah 3
          if type < OSPF_ROUTER_LSA ∨ type > OSPF_AS_NSSA_LSA then pure ⟨0, oi_ospf, []⟩
          else
            let gr_exit : Bool :=
              match curr_lsa with
              | none => true
              | some curr => ospf_lsa_different curr new
            if gr_exit then
              let r := ospf_gr_topology_change_oifs ospf.oiflist
              pure ⟨0, some { ospf with oiflist := r.1 }, r.2⟩
            else pure ⟨0, oi_ospf, []⟩

/-! ## The helper handlers as a transition system -/

/-- The instance `st` after the stores to its `i`-th interface. -/
def set_oi (st : ospf) (i : Nat) (oi : ospf_interface) : ospf :=
  { st with oiflist := st.oiflist.set i oi }

/-- The interface `oi` after the stores to its `j`-th neighbor. -/
def set_nbr (oi : ospf_interface) (j : Nat) (nbr : ospf_neighbor) : ospf_interface :=
  { oi with nbrs := oi.nbrs.set j nbr }

/-- One call of a helper handler on the instance `st`: an LSDB install or
delete of an LSA received on the `i`-th interface, the expiry of the helper
timer of the `j`-th neighbor of the `i`-th interface, or an LSDB change. -/
inductive helper_step : ospf → ospf → Prop where
  | new_lsa (st : ospf) (i : Nat) (oi : ospf_interface) (helper_enable : Int) (now : timeval)
      (locals : grace_lsa_out) (lsa : Option ospf_lsa) (r : hlpr_result)
      (hi : st.oiflist.get? i = some oi)
      (hr : ospf_gr_hlpr_new_lsa helper_enable now locals lsa oi = .ok r) :
      helper_step st (set_oi st i r.oi)
  | del_lsa (st : ospf) (i : Nat) (oi : ospf_interface) (locals : grace_lsa_out)
      (lsa : Option ospf_lsa) (r : hlpr_result)
      (hi : st.oiflist.get? i = some oi)
      (hr : ospf_gr_hlpr_del_lsa locals lsa oi = .ok r) :
      helper_step st (set_oi st i r.oi)
  | timer (st : ospf) (i j : Nat) (oi : ospf_interface) (nbr : ospf_neighbor)
      (hi : st.oiflist.get? i = some oi) (hj : oi.nbrs.get? j = some nbr) :
      helper_step st (set_oi st i (set_nbr oi j (ospf_adjacency_grace_period oi nbr).1))
  | topology_change (st st1 : ospf) (helper_enable : Int)
      (ospf_lsa_different : ospf_lsa → ospf_lsa → Bool)
      (curr_lsa new_lsa : Option ospf_lsa) (oi : Option ospf_interface) (r : topology_result)
      (hr : ospf_gr_check_topology_change helper_enable ospf_lsa_different curr_lsa new_lsa oi
        (some st) = .ok r)
      (hst : r.ospf = some st1) :
      helper_step st st1

/-- The states that the helper handlers reach from `s0`. -/
def helper_reachable (s0 s : ospf) : Prop := Relation.ReflTransGen helper_step s0 s

/-- Every neighbor of the instance is NotHelping and has no helper timer. -/
def helper_idle (st : ospf) : Prop :=
  ∀ oi ∈ st.oiflist, ∀ nbr ∈ oi.nbrs,
    nbr.gr_helper.helper_status = OSPF_GR_NOT_HELPING ∧ nbr.gr_helper.helper_t = none

/-! ## Restarting mode (RFC 3623 section 2) -/

/-- The C function `ospf_gr_init_global_info`; `restart_in_progress` is the
flag `OSPF_GR_RESTART_IN_PROGRESS` of `om->options` and `now` the value of
`recent_relative_time ()`. -/
def ospf_gr_init_global_info (restart_in_progress : Bool) (now : timeval) (ospf : ospf) :
    OspfGr.ospf :=
  let gi : ospf_gr_info :=
    if restart_in_progress then
      { ospf.gr_info with
        gr_enable := FALSE
        gr_status := (OSPF_GR_PLANNED_RESTART : Int)
        start_time := now
        gr_exit_reason := (OSPF_GR_IN_PROGRESS : Int) }
    else
      { ospf.gr_info with
        gr_status := (OSPF_GR_NOT_RESTART : Int)
        start_time := ⟨0, 0⟩
        gr_exit_reason := (OSPF_GR_NONE : Int) }
  { ospf with gr_info := { gi with
      gr_enable := FALSE, grace_period := 0, strict_lsa_check := FALSE, gr_expiry_t := none } }

/-- The C function `ospf_chk_restart`, called with an instance that is not
NULL: the instance after the call and the calls made into the host. -/
def ospf_chk_restart (ospf : ospf) : OspfGr.ospf × List gr_effect :=
  if ospf.gr_info.gr_enable = TRUE ∧ ospf.gr_info.grace_period > 0 ∧
      ospf.gr_info.gr_status = (OSPF_GR_PLANNED_RESTART : Int) ∧
      ospf.gr_info.gr_exit_reason = (OSPF_GR_IN_PROGRESS : Int) ∧
      ospf.gr_info.gr_expiry_t = none then
    let expiry_t : thread :=
      ⟨thread_func.ospf_gr_grace_period_expiry, ospf.gr_info.grace_period.toNat⟩
    ({ ospf with gr_info := { ospf.gr_info with gr_expiry_t := some expiry_t } },
      [gr_effect.thread_add_timer_ospf thread_func.ospf_gr_grace_period_expiry
        ospf.gr_info.grace_period.toNat])
  else (ospf, [])

/-- The C function `ospf_gr_event_handle`; `gr_info` is `oi->ospf->gr_info`. -/
def ospf_gr_event_handle (event : ospf_gr_event) (gr_info : ospf_gr_info)
    (oi : ospf_interface) : ospf_gr_info × ospf_interface :=
  match event with
  | .RSM_GrExtend => (gr_info, { oi with gr_state := RSM_GrResOK })
  | .RSM_GrIntAdjComplete => (gr_info, { oi with gr_state := RSM_GrResOK })
  | .RSM_GrExpiry => (gr_info, { oi with gr_state := RSM_GrResNOK })
  | .RSM_GrNbrInconsistent =>
    ({ gr_info with gr_exit_reason := (OSPF_GR_TOPOLOGY_CHNAGE : Int) },
      { oi with gr_state := RSM_GrResNOK })
  | .RSM_GrNoNbr => (gr_info, { oi with gr_state := RSM_GrResNOK })

/-- The loop of `ospf_gr_grace_period_expiry` over `ospf->oiflist`. -/
def ospf_gr_grace_period_expiry_loop (gr_info : ospf_gr_info) :
    List ospf_interface → ospf_gr_info × List ospf_interface
  | [] => (gr_info, [])
  | oif :: rest =>
    let r := ospf_gr_event_handle ospf_gr_event.RSM_GrExpiry gr_info oif
    let rs := ospf_gr_grace_period_expiry_loop r.1 rest
    (rs.1, r.2 :: rs.2)

/-- The C function `ospf_gr_grace_period_expiry`, the callback of the grace
expiry timer; `ospf` is `THREAD_ARG (t)`. -/
def ospf_gr_grace_period_expiry (ospf : ospf) : OspfGr.ospf :=
  let r := ospf_gr_grace_period_expiry_loop ospf.gr_info ospf.oiflist
  { ospf with
    gr_info := { r.1 with gr_exit_reason := (OSPF_GR_TIMEOUT : Int) }
    oiflist := r.2 }

/-- The counting loop of `ospf_gr_restart_monitor`: the final values of
`okcnt`, `nokcnt` and `cnt`. -/
def ospf_gr_restart_monitor_count : List ospf_interface → Nat → Nat → Nat → Nat × Nat × Nat
  | [], okcnt, nokcnt, cnt => (okcnt, nokcnt, cnt)
  | oif :: rest, okcnt, nokcnt, cnt =>
    let nokcnt1 := if oif.gr_state = RSM_GrResNOK then nokcnt + 1 else nokcnt
    let okcnt1 := if oif.gr_state = RSM_GrResOK then okcnt + 1 else okcnt
    ospf_gr_restart_monitor_count rest okcnt1 nokcnt1 (cnt + 1)

/-- The outcome of `ospf_gr_restart_monitor`: the instance and the handle
`om->restart_status_t` after the call, and the calls made into the host. -/
structure monitor_result where
  ospf : ospf
  restart_status_t : Option thread
  effects : List gr_effect
  deriving DecidableEq, Repr

/-- The C function `ospf_gr_restart_monitor`, the callback of the monitor
timer; `ospf` is `THREAD_ARG (t)` and `restart_status_t` is
`om->restart_status_t`. -/
def ospf_gr_restart_monitor (restart_status_t : Option thread) (ospf : ospf) : monitor_result :=
  let c := ospf_gr_restart_monitor_count ospf.oiflist 0 0 0
  let okcnt := c.1
  let nokcnt := c.2.1
  let cnt := c.2.2
  if cnt = nokcnt + okcnt then
    let gi1 : ospf_gr_info := { ospf.gr_info with gr_status := (OSPF_GR_NOT_RESTART : Int) }
    let gi2 : ospf_gr_info :=
      if cnt = okcnt then { gi1 with gr_exit_reason := (OSPF_GR_COMPLETED : Int) } else gi1
    match restart_status_t with
    | none =>
      ⟨{ ospf with gr_info := gi2 }, some ⟨thread_func.ospf_ins_restart_status, 0⟩,
        [gr_effect.thread_add_event_master thread_func.ospf_ins_restart_status]⟩
    | some t => ⟨{ ospf with gr_info := gi2 }, some t, []⟩
  else
    ⟨ospf, restart_status_t,
      [gr_effect.thread_add_timer_ospf thread_func.ospf_gr_restart_monitor
        OSPF_RSM_SM_MONITOR_INTERVAL]⟩

/-- The outcome of the ISM hook: `oi->ospf->gr_info` and the interface after
the call, and the calls made into the host. -/
structure ism_change_result where
  gr_info : ospf_gr_info
  oi : ospf_interface
  effects : List gr_effect
  deriving DecidableEq, Repr

/-- The C function `ospf_gr_ism_change`, called with an interface that is not
NULL; `gr_info` is `oi->ospf->gr_info`.  The argument `old_state` is not used.
In the case `ISM_Down` the C code holds a comment in place of a statement.  The
delay of the watchdog is computed in the type of `v_wait`, `u_int32_t`, and so
reduced modulo 2^32. -/
def ospf_gr_ism_change (gr_info : ospf_gr_info) (oi : ospf_interface) : ism_change_result :=
  if gr_info.gr_status = (OSPF_GR_NOT_RESTART : Int) then ⟨gr_info, oi, []⟩
  else if oi.gr_state ≥ RSM_GrResInProgress then ⟨gr_info, oi, []⟩
  else
    match oi.state with
    | .ISM_PointToPoint | .ISM_DROther | .ISM_Waiting =>
      let oi1 : ospf_interface :=
        { oi with gr_state := RSM_GrResInProgress, gr_nonbr_monitor := none }
      let monitor_t : thread :=
        ⟨thread_func.ospf_gr_restart_monitor, OSPF_RSM_SM_MONITOR_INTERVAL⟩
      let m : ospf_gr_info × List gr_effect :=
        match gr_info.gr_monitor_t with
        | none =>
          ({ gr_info with gr_monitor_t := some monitor_t },
            [gr_effect.thread_add_timer_ospf thread_func.ospf_gr_restart_monitor
              OSPF_RSM_SM_MONITOR_INTERVAL])
        | some _ => (gr_info, [])
      -- 2*(OSPF_IF_PARAM (oi, v_wait)) is a product of 32-bit unsigned integers
      let delay := 2 * oi.v_wait % 2 ^ 32
      let nonbr_t : thread := ⟨thread_func.ospf_gr_no_nbr_monitor, delay⟩
      let w : ospf_interface × List gr_effect :=
        match oi1.gr_nonbr_monitor with
        | none =>
          ({ oi1 with gr_nonbr_monitor := some nonbr_t },
            [gr_effect.thread_add_timer_oi thread_func.ospf_gr_no_nbr_monitor oi.address delay])
        | some _ => (oi1, [])
      ⟨m.1, w.1, m.2 ++ w.2⟩
    | .ISM_Down => ⟨gr_info, oi, []⟩
    | _ => ⟨gr_info, oi, []⟩

/-- The C function `ospf_gr_nsm_change`, called with a neighbor that is not
NULL; `gr_info` is `nbr->oi->ospf->gr_info` and `oi` is `nbr->oi`. -/
def ospf_gr_nsm_change (gr_info : ospf_gr_info) (oi : ospf_interface) (nbr : ospf_neighbor) :
    ospf_neighbor × List gr_effect :=
  match nbr.state with
  | .NSM_Full =>
    if gr_info.gr_status ≠ (OSPF_GR_NOT_RESTART : Int) then
      let check_t : thread := ⟨thread_func.ospf_gr_adjacency_consistency_check, 0⟩
      ({ nbr with gr_helper := { nbr.gr_helper with t_adja_check := some check_t } },
        [gr_effect.thread_add_event_nbr thread_func.ospf_gr_adjacency_consistency_check
          oi.address nbr.src])
    else (nbr, [])
  | _ => (nbr, [])

/-! ### Leaving restarting mode (RFC 3623 section 2.3) -/

/-- The outcome of `ospf_gr_lsa_originate`: the return value, the instance
after the call and the calls made into the host. -/
structure originate_result where
  rc : Int
  ospf : ospf
  effects : List gr_effect
  deriving DecidableEq, Repr

/-- The store `new->data->ls_age = htons (OSPF_LSA_MAXAGE)`, after which the
host's `LS_AGE (new)` is MaxAge. -/
def set_ls_age_maxage (new : ospf_lsa) : ospf_lsa :=
  { new with
    data := new.data.map (fun d => htons OSPF_LSA_MAXAGE ++ d.drop 2)
    LS_AGE := OSPF_LSA_MAXAGE }

/-- The C function `ospf_gr_lsa_originate`, called with an interface that is
not NULL and has an area; `ospf` is `oi->ospf`, which is also `area->ospf`.
`install` tells whether the host's `ospf_lsa_install` accepts the LSA,
`gr_shutdown_in_progress` is the flag of `om->options`, `gr_restart_rsn` the
global variable and `tail` the bytes behind the reason value that
`ospf_gr_lsa_new` copies.  The allocations succeed and the debug output is
left out. -/
def ospf_gr_lsa_originate (install : ospf_interface → ospf_lsa → Bool)
    (gr_shutdown_in_progress : Bool) (gr_restart_rsn : Int) (tail : reason_tail)
    (ospf : ospf) (oi : ospf_interface) : originate_result :=
  if gr_shutdown_in_progress = false ∧ ospf.gr_info.gr_exit_reason = (OSPF_GR_NONE : Int) then
    ⟨-1, ospf, []⟩
  else
    let new := ospf_gr_lsa_new gr_restart_rsn tail ospf oi.area oi
    -- area->ospf->lsa_originate_count++ on a 32-bit unsigned counter
    let count := (ospf.lsa_originate_count + 1) % 2 ^ 32
    let ospf1 : OspfGr.ospf := { ospf with lsa_originate_count := count }
    let new1 :=
      if ospf.gr_info.gr_exit_reason ≠ (OSPF_GR_NONE : Int) then set_ls_age_maxage new else new
    if install oi new1 = false then
      ⟨-1, ospf1, [gr_effect.lsa_install oi.address new1]⟩
    else
      ⟨0, ospf1, [gr_effect.lsa_install oi.address new1,
        gr_effect.flood_through_area oi.area.area_id new1]⟩

/-- The calls that `ospf_gr_restart_exit_action` makes for one interface after
the Grace-LSA: the Router-LSA update for its area, then the Network-LSA update
if the interface has a DR, else the flush of its self-originated Network-LSA
if there is one. -/
def ospf_gr_restart_exit_lsas (oi : ospf_interface) : List gr_effect :=
  [gr_effect.router_lsa_update_area oi.area.area_id] ++
    (if oi.dr ≠ 0 then [gr_effect.network_lsa_update oi.address]
     else
      match oi.network_lsa_self with
      | some lsa => [gr_effect.lsa_flush_area lsa oi.area.area_id]
      | none => [])

/-- The loop of `ospf_gr_restart_exit_action` over `ospf->oiflist`. -/
def ospf_gr_restart_exit_action_loop (install : ospf_interface → ospf_lsa → Bool)
    (gr_shutdown_in_progress : Bool) (gr_restart_rsn : Int) (tail : reason_tail) :
    ospf → List ospf_interface → ospf × List gr_effect
  | ospf, [] => (ospf, [])
  | ospf, oi :: rest =>
    let r := ospf_gr_lsa_originate install gr_shutdown_in_progress gr_restart_rsn tail ospf oi
    let rs := ospf_gr_restart_exit_action_loop install gr_shutdown_in_progress gr_restart_rsn
      tail r.ospf rest
    (rs.1, r.effects ++ ospf_gr_restart_exit_lsas oi ++ rs.2)

/-- The outcome of `ospf_gr_restart_exit_action`: the instance and the global
`gr_restart_rsn` after the call, and the calls made into the host. -/
structure exit_action_result where
  ospf : ospf
  gr_restart_rsn : Int
  effects : List gr_effect
  deriving DecidableEq, Repr

/-- The C function `ospf_gr_restart_exit_action`. -/
def ospf_gr_restart_exit_action (install : ospf_interface → ospf_lsa → Bool)
    (gr_shutdown_in_progress : Bool) (gr_restart_rsn : Int) (tail : reason_tail)
    (ospf : ospf) : exit_action_result :=
  let r := ospf_gr_restart_exit_action_loop install gr_shutdown_in_progress gr_restart_rsn tail
    ospf ospf.oiflist
  ⟨r.1, (GR_REASON_UNKNOWN : Int), r.2⟩

/-- The second loop of `ospf_ins_restart_status` over `m->ospf`. -/
def ospf_ins_restart_status_loop (install : ospf_interface → ospf_lsa → Bool)
    (gr_shutdown_in_progress : Bool) (tail : reason_tail) :
    Int → List ospf → List ospf × Int × List gr_effect
  | gr_restart_rsn, [] => ([], gr_restart_rsn, [])
  | gr_restart_rsn, ospf :: rest =>
    let r := ospf_gr_restart_exit_action install gr_shutdown_in_progress gr_restart_rsn tail ospf
    let rs := ospf_ins_restart_status_loop install gr_shutdown_in_progress tail
      r.gr_restart_rsn rest
    (r.ospf :: rs.1, rs.2.1, r.effects ++ rs.2.2)

/-- The outcome of `ospf_ins_restart_status`: the master and the global
`gr_restart_rsn` after the call, and the calls made into the host. -/
structure restart_status_result where
  m : ospf_master
  gr_restart_rsn : Int
  effects : List gr_effect
  deriving DecidableEq, Repr

/-- Modelled from the spec: `ospf_unset_gr_restart` of the host's ospfd.c, which
does "reset the global restart in progress flag". -/
def ospf_unset_gr_restart (m : ospf_master) : ospf_master :=
  { m with gr_restart_in_progress := false }

/-- The C function `ospf_ins_restart_status`, the instance-exit task; `m` is
`THREAD_ARG (t)`. -/
def ospf_ins_restart_status (install : ospf_interface → ospf_lsa → Bool)
    (gr_restart_rsn : Int) (tail : reason_tail) (m : ospf_master) : restart_status_result :=
  let m1 : ospf_master := { m with restart_status_t := none }
  if m1.ospf.any (fun o => decide (o.gr_info.gr_exit_reason ≤ (OSPF_GR_IN_PROGRESS : Int))) then
    ⟨m1, gr_restart_rsn, []⟩
  else
    let m2 := ospf_unset_gr_restart m1
    let r := ospf_ins_restart_status_loop install m2.gr_shutdown_in_progress tail
      gr_restart_rsn m2.ospf
    ⟨{ m2 with ospf := r.1 }, r.2.1, r.2.2⟩

/-! ### The adjacency consistency check (RFC 3623 section 2.2)

The two tests walk an LSDB with `LSDB_LOOP`, which hands them pointers to
`struct ospf_lsa` objects, and cast such a pointer itself to
`struct router_lsa *` or `struct network_lsa *`.  Every load below is therefore
a load from the bytes of the `struct ospf_lsa` object, at the offset that the
field has in the structure named in the cast. -/

/-- The loop `for (i = 0; i < rlsa->links; i++)` of
`check_adj_pre_restart_router_lsa` over the bytes `object` behind `rlsa`:
`n` is the number of iterations left and `i` the loop index. -/
def check_adj_pre_restart_router_lsa_loop (object : List Nat) (nbr : ospf_neighbor) :
    Nat → Nat → Except gr_fault Nat
  | 0, _ => .ok OSPF_GR_ADJ_NOK
  | n + 1, i =>
    -- rlsa->link[i].type
    match rd8 object (ROUTER_LSA_LINK + ROUTER_LSA_LINK_SIZE * i + ROUTER_LSA_LINK_TYPE) with
    | .error e => .error e
    | .ok type =>
      if type = LSA_LINK_TYPE_POINTOPOINT then
        -- rlsa->link[i].link_id
        match rd32 object (ROUTER_LSA_LINK + ROUTER_LSA_LINK_SIZE * i) with
        | .error e => .error e
        | .ok link_id =>
          if link_id = nbr.router_id then .ok OSPF_GR_ADJ_OK
          else check_adj_pre_restart_router_lsa_loop object nbr n (i + 1)
      else check_adj_pre_restart_router_lsa_loop object nbr n (i + 1)

/-- The C function `check_adj_pre_restart_router_lsa`; `oi` is `nbr->oi`.  The
function casts `nbr->oi->area->router_lsa_self`, a pointer to a
`struct ospf_lsa`, to `struct router_lsa *` and loads `rlsa->links` through it
without a NULL test and without `ntohs`. -/
def check_adj_pre_restart_router_lsa (oi : ospf_interface) (nbr : ospf_neighbor) :
    Except gr_fault Nat :=
  match oi.area.router_lsa_self with
  | none => .error gr_fault.null_deref
  | some rlsa =>
    match rd16_host oi.area.host_little_endian rlsa.object ROUTER_LSA_LINKS with
    | .error e => .error e
    | .ok links => check_adj_pre_restart_router_lsa_loop rlsa.object nbr links 0

/-- The loop `for (i = 0; i < rlsa->links; i++)` of
`ospf_gr_examine_router_lsa` over the bytes `object` behind `rlsa`: `some ret`
when the loop leaves the function with `return ret`, `none` when it runs to its
end.  `n` is the number of iterations left and `i` the loop index. -/
def ospf_gr_examine_router_lsa_links (ospf : ospf) (oi : ospf_interface) (nbr : ospf_neighbor)
    (object : List Nat) : Nat → Nat → Except gr_fault (Option Nat)
  | 0, _ => .ok none
  | n + 1, i =>
    -- rlsa->link[i].type
    match rd8 object (ROUTER_LSA_LINK + ROUTER_LSA_LINK_SIZE * i + ROUTER_LSA_LINK_TYPE) with
    | .error e => .error e
    | .ok type =>
      if type = LSA_LINK_TYPE_POINTOPOINT then
        -- rlsa->link[i].link_id
        match rd32 object (ROUTER_LSA_LINK + ROUTER_LSA_LINK_SIZE * i) with
        | .error e => .error e
        | .ok link_id =>
          if link_id = ospf.router_id then
            (check_adj_pre_restart_router_lsa oi nbr).map some
          else ospf_gr_examine_router_lsa_links ospf oi nbr object n (i + 1)
      else if type = LSA_LINK_TYPE_TRANSIT then
        -- rlsa->link[i].link_data
        match rd32 object
            (ROUTER_LSA_LINK + ROUTER_LSA_LINK_SIZE * i + ROUTER_LSA_LINK_DATA) with
        | .error e => .error e
        | .ok link_data =>
          if link_data = nbr.address then
            -- rlsa->link[i].link_id
            match rd32 object (ROUTER_LSA_LINK + ROUTER_LSA_LINK_SIZE * i) with
            | .error e => .error e
            | .ok link_id =>
              if link_id = oi.dr then .ok (some OSPF_GR_ADJ_OK)
              else .ok (some OSPF_GR_ADJ_NOK)
          else ospf_gr_examine_router_lsa_links ospf oi nbr object n (i + 1)
      else ospf_gr_examine_router_lsa_links ospf oi nbr object n (i + 1)

/-- The `LSDB_LOOP` of `ospf_gr_examine_router_lsa` over the objects of the
Router-LSDB of the area; `rlsa = (struct router_lsa *) lsa` points to the
object itself, and `rlsa->links` is loaded without `ntohs`. -/
def ospf_gr_examine_router_lsa_loop (ospf : ospf) (oi : ospf_interface) (nbr : ospf_neighbor) :
    List router_lsdb_entry → Except gr_fault Nat
  | [] => .ok OSPF_GR_ADJ_OK
  | lsa :: rest =>
    -- rlsa->header.adv_router
    match rd32 lsa.object LSA_HEADER_ADV_ROUTER with
    | .error e => .error e
    | .ok adv_router =>
      if adv_router = nbr.router_id then
        match rd16_host oi.area.host_little_endian lsa.object ROUTER_LSA_LINKS with
        | .error e => .error e
        | .ok links =>
          match ospf_gr_examine_router_lsa_links ospf oi nbr lsa.object links 0 with
          | .error e => .error e
          | .ok (some ret) => .ok ret
          | .ok none => ospf_gr_examine_router_lsa_loop ospf oi nbr rest
      else ospf_gr_examine_router_lsa_loop ospf oi nbr rest

/-- The C function `ospf_gr_examine_router_lsa`; `oi` is `nbr->oi` and `ospf`
is `nbr->oi->ospf`. -/
def ospf_gr_examine_router_lsa (ospf : ospf) (oi : ospf_interface) (nbr : ospf_neighbor) :
    Except gr_fault Nat :=
  ospf_gr_examine_router_lsa_loop ospf oi nbr oi.area.router_lsdb

/-- The inner loop of `ospf_gr_examine_network_lsa` over the neighbor table
`nbr->oi->nbrs`, for the pointer `routers_id = &nlsa->routers[k]` into the
bytes `object`: the values of `match_count` and `match_found` after the loop.
Each comparison loads `*routers_id`.  Nodes of the table that hold no neighbor
are not modelled. -/
def ospf_gr_examine_network_lsa_nbrs (object : List Nat) (k : Nat) (nbr : ospf_neighbor) :
    List ospf_neighbor → Nat → Nat → Except gr_fault (Nat × Nat)
  | [], match_count, match_found => .ok (match_count, match_found)
  | n :: rest, match_count, match_found =>
    match rd32 object (NETWORK_LSA_ROUTERS + 4 * k) with
    | .error e => .error e
    | .ok r =>
      let match_count1 := if r = n.router_id then match_count + 1 else match_count
      let match_found1 := if r = nbr.router_id then 1 else match_found
      ospf_gr_examine_network_lsa_nbrs object k nbr rest match_count1 match_found1

/-- The loop `while (routers_id)` of `ospf_gr_examine_network_lsa`, entered
with `routers_id = &nlsa->routers[k]`: the values of `cnt`, `match_count` and
`match_found` after the loop.  The loop condition tests the pointer, which is
the address of an array element and never NULL, and the body contains no
`break` and no `return`, so no iteration leaves the loop; `fuel` bounds the
number of iterations the model follows. -/
def ospf_gr_examine_network_lsa_while (object : List Nat) (nbrs : List ospf_neighbor)
    (nbr : ospf_neighbor) : Nat → Nat → Nat → Nat → Nat → Except gr_fault (Nat × Nat × Nat)
  | 0, _, _, _, _ => .error gr_fault.loop_bound
  | fuel + 1, k, cnt, match_count, match_found =>
    match ospf_gr_examine_network_lsa_nbrs object k nbr nbrs match_count match_found with
    | .error e => .error e
    | .ok (match_count1, match_found1) =>
      ospf_gr_examine_network_lsa_while object nbrs nbr fuel (k + 1) (cnt + 1)
        match_count1 match_found1

/-- The `LSDB_LOOP` of `ospf_gr_examine_network_lsa` over the objects of the
Network-LSDB of the area; `nlsa = (struct network_lsa *) lsa` points to the
object itself.  The inner loop over the neighbor table uses the loop variable
`rn` of the `LSDB_LOOP` and leaves it NULL, so the step to the next object
after a matching one is a NULL dereference. -/
def ospf_gr_examine_network_lsa_loop (fuel : Nat) (ospf : ospf) (oi : ospf_interface)
    (nbr : ospf_neighbor) : List network_lsdb_entry → Nat → Nat → Nat → Except gr_fault Nat
  | [], _, _, _ => .ok OSPF_GR_ADJ_INPRGRESS
  | lsa :: rest, cnt, match_count, match_found =>
    -- nlsa->header.id
    match rd32 lsa.object LSA_HEADER_ID with
    | .error e => .error e
    | .ok id =>
      if id = ospf.router_id then
        match ospf_gr_examine_network_lsa_while lsa.object oi.nbrs nbr fuel 0 cnt
            match_count match_found with
        | .error e => .error e
        | .ok (cnt1, match_count1, match_found1) =>
          if cnt1 = match_count1 then .ok OSPF_GR_ADJ_OK
          else if match_found1 = 0 then .ok OSPF_GR_ADJ_NOK
          else .error gr_fault.null_deref
      else ospf_gr_examine_network_lsa_loop fuel ospf oi nbr rest cnt match_count match_found

/-- The C function `ospf_gr_examine_network_lsa`; `oi` is `nbr->oi` and `ospf`
is `nbr->oi->ospf`.  `fuel` bounds the iterations of the loop
`while (routers_id)`. -/
def ospf_gr_examine_network_lsa (fuel : Nat) (ospf : ospf) (oi : ospf_interface)
    (nbr : Option ospf_neighbor) : Except gr_fault Nat :=
  match nbr with
  | none => .ok 0
  | some n => ospf_gr_examine_network_lsa_loop fuel ospf oi n oi.area.network_lsdb 0 0 0

/-- The outcome of `ospf_gr_adjacency_consistency_check`: `oi->ospf->gr_info`
and the interface after the call, and the events handed to
`ospf_gr_event_handle`. -/
structure consistency_result where
  gr_info : ospf_gr_info
  oi : ospf_interface
  events : List ospf_gr_event
  deriving DecidableEq, Repr

/-- The call `ospf_gr_event_handle (event, oi)` as the consistency check makes
it. -/
def consistency_event (event : ospf_gr_event) (gr_info : ospf_gr_info) (oi : ospf_interface) :
    consistency_result :=
  ⟨(ospf_gr_event_handle event gr_info oi).1, (ospf_gr_event_handle event gr_info oi).2,
    [event]⟩

/-- The body of the C function `ospf_gr_adjacency_consistency_check` for a
neighbor that is not NULL, with the outcomes of the two calls
`ospf_gr_examine_router_lsa (nbr)` and `ospf_gr_examine_network_lsa (nbr)` as
arguments; `oi` is `nbr->oi` and `gr_info` is `oi->ospf->gr_info`. -/
def ospf_gr_adjacency_consistency_check_on (router network : Except gr_fault Nat)
    (gr_info : ospf_gr_info) (oi : ospf_interface) : Except gr_fault consistency_result :=
  if oi.dr = oi.address then
    match oi.area.router_lsa_self with
    | none => .ok (consistency_event ospf_gr_event.RSM_GrNbrInconsistent gr_info oi)
    | some _ =>
      match router with
      | .error e => .error e
      | .ok r =>
        if OSPF_GR_ADJ_OK = r then
          match network with
          | .error e => .error e
          | .ok ret =>
            if OSPF_GR_ADJ_NOK = ret then
              .ok (consistency_event ospf_gr_event.RSM_GrNbrInconsistent gr_info oi)
            else if OSPF_GR_ADJ_OK = ret then
              .ok (consistency_event ospf_gr_event.RSM_GrIntAdjComplete gr_info oi)
            else .ok ⟨gr_info, oi, []⟩
        else .ok ⟨gr_info, oi, []⟩
  else
    match router with
    | .error e => .error e
    | .ok r =>
      if OSPF_GR_ADJ_OK = r then
        .ok (consistency_event ospf_gr_event.RSM_GrIntAdjComplete gr_info oi)
      else .ok (consistency_event ospf_gr_event.RSM_GrNbrInconsistent gr_info oi)

/-- The C function `ospf_gr_adjacency_consistency_check`, the task that the NSM
hook posts for a neighbor; `nbr` is `THREAD_ARG (t)`, `oi` is `nbr->oi` and
`ospf` is `oi->ospf`.  With a NULL neighbor the function returns at once. -/
def ospf_gr_adjacency_consistency_check (fuel : Nat) (ospf : ospf) (oi : ospf_interface)
    (nbr : Option ospf_neighbor) : Except gr_fault consistency_result :=
  match nbr with
  | none => .ok ⟨ospf.gr_info, oi, []⟩
  | some n =>
    ospf_gr_adjacency_consistency_check_on (ospf_gr_examine_router_lsa ospf oi n)
      (ospf_gr_examine_network_lsa fuel ospf oi (some n)) ospf.gr_info oi

/-! ### The no-neighbor watchdog -/

/-- The outcome of `ospf_gr_no_nbr_monitor`: `oi->ospf->gr_info` and the
interface after the call, and the events handed to `ospf_gr_event_handle`. -/
structure no_nbr_result where
  gr_info : ospf_gr_info
  oi : ospf_interface
  events : List ospf_gr_event
  deriving DecidableEq, Repr

/-- The C function `ospf_gr_no_nbr_monitor`, the callback of the no-neighbor
watchdog, called with an interface that is not NULL; `gr_info` is
`oi->ospf->gr_info`.  `nbrs_null` tells whether the pointer `oi->nbrs` is NULL,
which is what the C code tests; the field `nbrs` of the embedding holds the
neighbors entered in the table when the table exists. -/
def ospf_gr_no_nbr_monitor (nbrs_null : Bool) (gr_info : ospf_gr_info) (oi : ospf_interface) :
    no_nbr_result :=
  if nbrs_null = true then
    let oi1 : ospf_interface := { oi with gr_nonbr_monitor := none }
    let r := ospf_gr_event_handle ospf_gr_event.RSM_GrNoNbr gr_info oi1
    ⟨r.1, r.2, [ospf_gr_event.RSM_GrNoNbr]⟩
  else ⟨gr_info, oi, []⟩

/-! ## The restarting handlers as a transition system -/

/-- Modelled from the spec: the configuration of the restarting role, which
lives in the host's command code: "The enable flag is set from the marker file
or configuration; grace period and strict-LSA-check are configured
separately." -/
def restart_configure (gr_enable grace_period : Int) (st : ospf) : ospf :=
  { st with gr_info := { st.gr_info with gr_enable := gr_enable, grace_period := grace_period } }

/-- The instance after `ospf_gr_ism_change` ran for its `i`-th interface `oi`. -/
def restart_ism_change (st : ospf) (i : Nat) (oi : ospf_interface) : ospf :=
  set_oi { st with gr_info := (ospf_gr_ism_change st.gr_info oi).gr_info } i
    (ospf_gr_ism_change st.gr_info oi).oi

/-- The instance after `ospf_gr_nsm_change` ran for the `j`-th neighbor `nbr`
of its `i`-th interface `oi`. -/
def restart_nsm_change (st : ospf) (i : Nat) (oi : ospf_interface) (j : Nat)
    (nbr : ospf_neighbor) : ospf :=
  set_oi st i (set_nbr oi j (ospf_gr_nsm_change st.gr_info oi nbr).1)

/-- The instance after `ospf_gr_event_handle (event, oi)` ran for its `i`-th
interface `oi`. -/
def restart_event (st : ospf) (i : Nat) (oi : ospf_interface) (event : ospf_gr_event) : ospf :=
  set_oi { st with gr_info := (ospf_gr_event_handle event st.gr_info oi).1 } i
    (ospf_gr_event_handle event st.gr_info oi).2

/-- The instance after `ospf_gr_no_nbr_monitor` ran for its `i`-th interface
`oi`. -/
def restart_no_nbr_monitor (st : ospf) (i : Nat) (oi : ospf_interface) (nbrs_null : Bool) :
    ospf :=
  set_oi { st with gr_info := (ospf_gr_no_nbr_monitor nbrs_null st.gr_info oi).gr_info } i
    (ospf_gr_no_nbr_monitor nbrs_null st.gr_info oi).oi

/-- One step of the restarting side on the instance `st`: a configuration
change, `ospf_chk_restart`, the ISM hook for an interface, the NSM hook for a
neighbor, a resume event on an interface, the monitor when its timer is set,
the grace expiry handler when its timer is set, the no-neighbor watchdog of an
interface when its timer is set (a neighbor table that is NULL holds no
neighbor).  A timer counts as set when its handle is; whether the timer behind
the handle is still pending is followed by `timed_step`. -/
inductive restart_step : ospf → ospf → Prop where
  | configure (st : ospf) (gr_enable grace_period : Int) :
      restart_step st (restart_configure gr_enable grace_period st)
  | chk_restart (st : ospf) : restart_step st (ospf_chk_restart st).1
  | ism_change (st : ospf) (i : Nat) (oi : ospf_interface)
      (hi : st.oiflist.get? i = some oi) :
      restart_step st (restart_ism_change st i oi)
  | nsm_change (st : ospf) (i j : Nat) (oi : ospf_interface) (nbr : ospf_neighbor)
      (hi : st.oiflist.get? i = some oi) (hj : oi.nbrs.get? j = some nbr) :
      restart_step st (restart_nsm_change st i oi j nbr)
  | event (st : ospf) (i : Nat) (oi : ospf_interface) (event : ospf_gr_event)
      (hi : st.oiflist.get? i = some oi) :
      restart_step st (restart_event st i oi event)
  | monitor (st : ospf) (restart_status_t : Option thread) (t : thread)
      (ht : st.gr_info.gr_monitor_t = some t) :
      restart_step st (ospf_gr_restart_monitor restart_status_t st).ospf
  | grace_period_expiry (st : ospf) (t : thread) (ht : st.gr_info.gr_expiry_t = some t) :
      restart_step st (ospf_gr_grace_period_expiry st)
  | no_nbr_monitor (st : ospf) (i : Nat) (oi : ospf_interface) (nbrs_null : Bool) (t : thread)
      (hi : st.oiflist.get? i = some oi) (ht : oi.gr_nonbr_monitor = some t)
      (hn : nbrs_null = true → oi.nbrs = []) :
      restart_step st (restart_no_nbr_monitor st i oi nbrs_null)

/-- The states that the restarting side reaches from `s0`. -/
def restart_reachable (s0 s : ospf) : Prop := Relation.ReflTransGen restart_step s0 s

/-! ### The grace expiry timer as a pending timer -/

/-- Modelled from the spec: the host's timer service, as the specification uses
it ("arm the grace expiry timer for `grace_period` seconds", "Grace expiry
timer. On fire: ...", "timers are cancelled explicitly"): a timer is pending
from the call that adds it until its callback runs or it is cancelled.
`pending` tells whether the grace expiry timer of the instance is pending
before the calls `effects`; the result tells it after them. -/
def expiry_pending_after (pending : Bool) : List gr_effect → Bool
  | [] => pending
  | gr_effect.thread_add_timer_ospf thread_func.ospf_gr_grace_period_expiry _ :: rest =>
    expiry_pending_after true rest
  | gr_effect.thread_cancel t :: rest =>
    if t.func = thread_func.ospf_gr_grace_period_expiry then expiry_pending_after false rest
    else expiry_pending_after pending rest
  | _ :: rest => expiry_pending_after pending rest

/-- An instance together with the state of its grace expiry timer in the host's
timer service. -/
structure restart_timed where
  ospf : ospf
  expiry_pending : Bool
  deriving DecidableEq, Repr

/-- One step of the restarting side with the grace expiry timer followed: the
steps of `restart_step`, where the grace expiry handler runs only while its
timer is pending and the timer is not pending afterwards, and where every other
handler leaves the timer as its calls into the host leave it. -/
inductive timed_step : restart_timed → restart_timed → Prop where
  | configure (s : restart_timed) (gr_enable grace_period : Int) :
      timed_step s ⟨restart_configure gr_enable grace_period s.ospf, s.expiry_pending⟩
  | chk_restart (s : restart_timed) :
      timed_step s ⟨(ospf_chk_restart s.ospf).1,
        expiry_pending_after s.expiry_pending (ospf_chk_restart s.ospf).2⟩
  | ism_change (s : restart_timed) (i : Nat) (oi : ospf_interface)
      (hi : s.ospf.oiflist.get? i = some oi) :
      timed_step s ⟨restart_ism_change s.ospf i oi,
        expiry_pending_after s.expiry_pending (ospf_gr_ism_change s.ospf.gr_info oi).effects⟩
  | nsm_change (s : restart_timed) (i j : Nat) (oi : ospf_interface) (nbr : ospf_neighbor)
      (hi : s.ospf.oiflist.get? i = some oi) (hj : oi.nbrs.get? j = some nbr) :
      timed_step s ⟨restart_nsm_change s.ospf i oi j nbr,
        expiry_pending_after s.expiry_pending (ospf_gr_nsm_change s.ospf.gr_info oi nbr).2⟩
  | event (s : restart_timed) (i : Nat) (oi : ospf_interface) (event : ospf_gr_event)
      (hi : s.ospf.oiflist.get? i = some oi) :
      timed_step s ⟨restart_event s.ospf i oi event, s.expiry_pending⟩
  | monitor (s : restart_timed) (restart_status_t : Option thread) (t : thread)
      (ht : s.ospf.gr_info.gr_monitor_t = some t) :
      timed_step s ⟨(ospf_gr_restart_monitor restart_status_t s.ospf).ospf,
        expiry_pending_after s.expiry_pending
          (ospf_gr_restart_monitor restart_status_t s.ospf).effects⟩
  | no_nbr_monitor (s : restart_timed) (i : Nat) (oi : ospf_interface) (nbrs_null : Bool)
      (t : thread) (hi : s.ospf.oiflist.get? i = some oi) (ht : oi.gr_nonbr_monitor = some t)
      (hn : nbrs_null = true → oi.nbrs = []) :
      timed_step s ⟨restart_no_nbr_monitor s.ospf i oi nbrs_null, s.expiry_pending⟩
  | grace_period_expiry (s : restart_timed) (hp : s.expiry_pending = true) :
      timed_step s ⟨ospf_gr_grace_period_expiry s.ospf, false⟩

/-- The states with timer that the restarting side reaches from `s0`. -/
def timed_reachable (s0 s : restart_timed) : Prop := Relation.ReflTransGen timed_step s0 s

/-! ## Well-formed Grace-LSA bodies

The vocabulary in which the statements about the parser are written: a TLV as
the spec's data model describes it, and the encoding of a sequence of TLVs. -/

/-- A TLV: its type, its length field and its value area (value and padding). -/
structure grace_tlv where
  type : Nat
  length : Nat
  value : List Nat
  deriving DecidableEq, Repr

/-- The bytes of a TLV: a 4-byte header, then the value area. -/
def grace_tlv.encode (t : grace_tlv) : List Nat :=
  htons t.type ++ htons t.length ++ t.value

/-- A TLV is well formed when type and length fit their 16-bit fields and the
value area has the length rounded up to a multiple of 4. -/
def grace_tlv.wf (t : grace_tlv) : Prop :=
  t.type < 65536 ∧ t.length < 65536 ∧ t.value.length = OSPF_GRACE_TLV_BODY_SIZE t.length

instance (t : grace_tlv) : Decidable t.wf := by
  unfold grace_tlv.wf
  infer_instance

/-- A TLV of one of the three types that the module knows. -/
def grace_tlv.known (t : grace_tlv) : Prop :=
  t.type = OSPF_GRACE_TLV_GRACE_PERIOD ∨ t.type = OSPF_GRACE_TLV_RESTART_REASON ∨
    t.type = OSPF_GRACE_TLV_INTERFACE_ADDR

instance (t : grace_tlv) : Decidable t.known := by
  unfold grace_tlv.known
  infer_instance

/-- The bytes of a sequence of TLVs. -/
def encode_tlvs : List grace_tlv → List Nat
  | [] => []
  | t :: ts => t.encode ++ encode_tlvs ts

/-- The big-endian number in the first four bytes of a value area. -/
def be32 (l : List Nat) : Nat :=
  2 ^ 24 * (l.getD 0 0 % 256) + 2 ^ 16 * (l.getD 1 0 % 256) + 2 ^ 8 * (l.getD 2 0 % 256)
    + l.getD 3 0 % 256

/-- What a TLV contributes to the result of the parse. -/
def grace_tlv.apply (out : grace_lsa_out) (t : grace_tlv) : grace_lsa_out :=
  if t.type = OSPF_GRACE_TLV_GRACE_PERIOD then { out with grace_period := be32 t.value }
  else if t.type = OSPF_GRACE_TLV_RESTART_REASON then { out with reason := t.value.getD 0 0 % 256 }
  else if t.type = OSPF_GRACE_TLV_INTERFACE_ADDR then { out with if_addr := be32 t.value }
  else out

/-- The Grace Period TLV (type 1, length 4) with value `gp`. -/
def tlv_grace_period (gp : Nat) : grace_tlv := ⟨OSPF_GRACE_TLV_GRACE_PERIOD, 4, htonl gp⟩

/-- The Restart Reason TLV (type 2, length 1) with value `r` and padding `p0 p1 p2`. -/
def tlv_restart_reason (r p0 p1 p2 : Nat) : grace_tlv :=
  ⟨OSPF_GRACE_TLV_RESTART_REASON, 1, [r, p0, p1, p2]⟩

/-- The Interface Address TLV (type 3, length 4) with value `a`. -/
def tlv_interface_addr (a : Nat) : grace_tlv := ⟨OSPF_GRACE_TLV_INTERFACE_ADDR, 4, htonl a⟩

/-! ## Vocabulary for the statements about helper entry -/

/-- The neighbor after helper entry: inactivity timer off, status Helping, the
advertised grace period recorded, exit reason InProgress, start time `now`, and
the helper timer armed for `gp` seconds. -/
def helper_entered (now : timeval) (gp : Nat) (nbr : ospf_neighbor) : ospf_neighbor :=
  { nbr with
    t_inactivity := none
    gr_helper := { nbr.gr_helper with
      helper_status := OSPF_GR_HELPING
      grace_period := gp
      helper_exit_rsn := OSPF_GR_IN_PROGRESS
      start_time := now
      helper_t := some ⟨thread_func.ospf_adjacency_grace_period, gp⟩ } }

/-- The interface after helper entry for its neighbor `nbr`, found under the
advertised interface address. -/
def helper_entered_oi (now : timeval) (out : grace_lsa_out) (oi : ospf_interface)
    (nbr : ospf_neighbor) : ospf_interface :=
  { oi with nbrs := nbr_store out.if_addr (helper_entered now out.grace_period nbr) oi.nbrs }

/-- Helper entry is taken by a call with outcome `r`: the neighbor found under
the advertised interface address is replaced by its entered form, its
inactivity timer is cancelled if it was armed, and the helper timer is added
for `out.grace_period` seconds. -/
def helper_entry_taken (now : timeval) (out : grace_lsa_out) (oi : ospf_interface)
    (r : hlpr_result) : Prop :=
  ∃ nbr, ospf_nbr_lookup_by_addr oi.nbrs out.if_addr = some nbr ∧
    r.oi = helper_entered_oi now out oi nbr ∧
    r.effects = (OSPF_NSM_TIMER_OFF nbr.t_inactivity).2 ++
      [gr_effect.thread_add_timer thread_func.ospf_adjacency_grace_period oi.address nbr.src
        out.grace_period]

/-- Helper entry is made by a call with outcome `r`, said without the stores of
the code: the neighbor table of the interface is `pre ++ nbr :: post` with
`nbr` the first neighbor entered under the advertised interface address; in
the outcome the table is `pre ++ entered :: post`, where `entered` is `nbr`
with status Helping, the advertised grace period, exit reason InProgress, start
time `now`, no inactivity timer and the helper timer set for the grace period;
the rest of the interface is as before; the calls into the host are the cancel
of the inactivity timer of `nbr` if it was set, then the add of the helper
timer for the grace period. -/
def helper_entry_made (now : timeval) (out : grace_lsa_out) (oi : ospf_interface)
    (r : hlpr_result) : Prop :=
  ∃ pre nbr post, oi.nbrs = pre ++ nbr :: post ∧ (∀ n ∈ pre, n.src ≠ out.if_addr) ∧
    nbr.src = out.if_addr ∧
    r.oi = { oi with nbrs := pre ++ helper_entered now out.grace_period nbr :: post } ∧
    r.effects = (match nbr.t_inactivity with
        | some t => [gr_effect.thread_cancel t]
        | none => []) ++
      [gr_effect.thread_add_timer thread_func.ospf_adjacency_grace_period oi.address nbr.src
        out.grace_period]

/-- The neighbor entered under `addr` in the interface `oi` is Helping for the
grace period `gp` since `now`: status Helping, grace period `gp`, exit reason
InProgress, start time `now`, no inactivity timer, helper timer set for `gp`
seconds. -/
def helping_in (now : timeval) (gp addr : Nat) (oi : ospf_interface) : Prop :=
  ∃ nbr, ospf_nbr_lookup_by_addr oi.nbrs addr = some nbr ∧
    nbr.gr_helper.helper_status = OSPF_GR_HELPING ∧
    nbr.gr_helper.grace_period = gp ∧
    nbr.gr_helper.helper_exit_rsn = OSPF_GR_IN_PROGRESS ∧
    nbr.gr_helper.start_time = now ∧
    nbr.t_inactivity = none ∧
    nbr.gr_helper.helper_t = some ⟨thread_func.ospf_adjacency_grace_period, gp⟩

/-- The preconditions (1), (2), (4), (6) and (7) of helper entry for the
neighbor `nbr`; `type` is the LSA type and `id` the link-state ID of the LSA. -/
def helper_entry_pre (helper_enable : Int) (type id : Nat) (nbr : ospf_neighbor) : Prop :=
  helper_enable ≠ FALSE ∧
  (type = OSPF_OPAQUE_LINK_LSA ∧ GET_OPAQUE_TYPE id = OPAQUE_TYPE_GRACE_LSA) ∧
  nbr.gr_helper.helper_status ≠ OSPF_GR_HELPING ∧
  nbr.state = nsm_state.NSM_Full ∧
  ∀ p ∈ nbr.ls_rxmt, p.1 = p.2

/-! ## Vocabulary for the statements about helper exit -/

/-- The neighbor after helper exit with reason `rsn`: helper timer handle
cleared, status NotHelping, grace period 0. -/
def helper_left (rsn : Nat) (nbr : ospf_neighbor) : ospf_neighbor :=
  { nbr with gr_helper := { nbr.gr_helper with
      helper_t := none, helper_status := OSPF_GR_NOT_HELPING, grace_period := 0,
      helper_exit_rsn := rsn } }

/-- The interface after the stores to the neighbor found under `addr`. -/
def stored_oi (oi : ospf_interface) (addr : Nat) (nbr : ospf_neighbor) : ospf_interface :=
  { oi with nbrs := nbr_store addr nbr oi.nbrs }

/-- The Network-LSA re-origination of helper exit: made when the interface has
a DR. -/
def network_lsa_effects (oi : ospf_interface) : List gr_effect :=
  if oi.dr ≠ 0 then [gr_effect.network_lsa_update oi.address] else []

/-- The neighbor after `ospf_gr_check_topology_change` has gone past it. -/
def topology_left (nbr : ospf_neighbor) : ospf_neighbor :=
  if nbr.gr_helper.helper_status = OSPF_GR_HELPING then helper_left OSPF_GR_TOPOLOGY_CHNAGE nbr
  else nbr

/-- The interface after `ospf_gr_check_topology_change` has gone past it. -/
def topology_left_oi (oif : ospf_interface) : ospf_interface :=
  { oif with nbrs := oif.nbrs.map topology_left }

/-- The two facts about a neighbor that every helper handler keeps: it is
Helping exactly when its helper timer handle is set, and while it is Helping
its exit reason is InProgress. -/
def helper_inv (nbr : ospf_neighbor) : Prop :=
  (nbr.gr_helper.helper_status = OSPF_GR_HELPING ↔ nbr.gr_helper.helper_t ≠ none) ∧
  (nbr.gr_helper.helper_status = OSPF_GR_HELPING →
    nbr.gr_helper.helper_exit_rsn = OSPF_GR_IN_PROGRESS)

/-- Every neighbor of every interface of the instance satisfies `helper_inv`. -/
def helper_inv_all (st : ospf) : Prop :=
  ∀ oi ∈ st.oiflist, ∀ nbr ∈ oi.nbrs, helper_inv nbr

/-- The strict-LSA-check condition of `ospf_gr_check_topology_change`. -/
def topology_change_cond (helper_enable : Int)
    (ospf_lsa_different : ospf_lsa → ospf_lsa → Bool) (curr_lsa : Option ospf_lsa)
    (new : ospf_lsa) (type : Nat) (st : ospf) : Prop :=
  helper_enable ≠ FALSE ∧ st.gr_info.strict_lsa_check ≠ FALSE ∧
  st.gr_info.gr_status = (OSPF_GR_NOT_RESTART : Int) ∧
  (OSPF_ROUTER_LSA ≤ type ∧ type ≤ OSPF_AS_NSSA_LSA) ∧
  (curr_lsa = none ∨ ∃ curr, curr_lsa = some curr ∧ ospf_lsa_different curr new = true)

/-! ## Vocabulary for the statements about restarting mode -/

/-- The interface after the ISM hook has started its resume: resume state
InProgress and the no-neighbor watchdog set for twice `v_wait` seconds, the
product taken modulo 2^32. -/
def ism_started_oi (oi : ospf_interface) : ospf_interface :=
  { oi with
    gr_state := RSM_GrResInProgress
    gr_nonbr_monitor := some ⟨thread_func.ospf_gr_no_nbr_monitor, 2 * oi.v_wait % 4294967296⟩ }

/-- The instance record with the monitor timer set for 10 s. -/
def monitor_armed (gr_info : ospf_gr_info) : ospf_gr_info :=
  { gr_info with gr_monitor_t := some ⟨thread_func.ospf_gr_restart_monitor, 10⟩ }

/-- The calls that leaving restarting mode makes for the interfaces of the
instance `o`, one interface after the other: the origination of the Grace-LSA
of the interface, then its Router-LSA and Network-LSA calls. -/
def restart_exit_sequence (install : ospf_interface → ospf_lsa → Bool)
    (gr_shutdown_in_progress : Bool) (gr_restart_rsn : Int) (tail : reason_tail) (o : ospf) :
    List ospf_interface → List gr_effect
  | [] => []
  | oi :: rest =>
    (ospf_gr_lsa_originate install gr_shutdown_in_progress gr_restart_rsn tail o oi).effects
      ++ ospf_gr_restart_exit_lsas oi
      ++ restart_exit_sequence install gr_shutdown_in_progress gr_restart_rsn tail o rest

/-- The Grace-LSA with age MaxAge that leaving restarting mode originates on
the interface `oi` of the instance `o`. -/
def maxage_grace_lsa (gr_restart_rsn : Int) (tail : reason_tail) (o : ospf)
    (oi : ospf_interface) : ospf_lsa :=
  set_ls_age_maxage (ospf_gr_lsa_new gr_restart_rsn tail o oi.area oi)

/-- A call that re-originates a Router-LSA or a Network-LSA. -/
def is_lsa_reorigination : gr_effect → Prop
  | .router_lsa_update_area _ => True
  | .network_lsa_update _ => True
  | _ => False

/-- In the sequence `effects` no Grace-LSA is flooded after a Router-LSA or
Network-LSA re-origination. -/
def grace_flood_first (effects : List gr_effect) : Prop :=
  ∀ pre post e, effects = pre ++ e :: post → is_lsa_reorigination e →
    ∀ a g, gr_effect.flood_through_area a g ∉ post

/-- The calls that the instance-exit task makes for the interface `oi` of the
instance `o`, in the words of the specification: the Grace-LSA with age MaxAge
is handed to the host for installation and, when the host accepts it, flooded
through the area; the Router-LSA of the area is re-originated; the Network-LSA
is re-originated if the interface has a DR, else the self-originated
Network-LSA is flushed if there is one. -/
def exit_calls_of_interface (install : ospf_interface → ospf_lsa → Bool) (gr_restart_rsn : Int)
    (tail : reason_tail) (o : ospf) (oi : ospf_interface) : List gr_effect :=
  [gr_effect.lsa_install oi.address (maxage_grace_lsa gr_restart_rsn tail o oi)]
    ++ (if install oi (maxage_grace_lsa gr_restart_rsn tail o oi) = true then
          [gr_effect.flood_through_area oi.area.area_id
            (maxage_grace_lsa gr_restart_rsn tail o oi)]
        else [])
    ++ [gr_effect.router_lsa_update_area oi.area.area_id]
    ++ (if oi.dr ≠ 0 then [gr_effect.network_lsa_update oi.address]
        else
          match oi.network_lsa_self with
          | some lsa => [gr_effect.lsa_flush_area lsa oi.area.area_id]
          | none => [])

/-- The calls of `exit_calls_of_interface` for the interfaces of a list, one
interface after the other. -/
def exit_calls_of_interfaces (install : ospf_interface → ospf_lsa → Bool) (gr_restart_rsn : Int)
    (tail : reason_tail) (o : ospf) : List ospf_interface → List gr_effect
  | [] => []
  | oi :: rest =>
    exit_calls_of_interface install gr_restart_rsn tail o oi
      ++ exit_calls_of_interfaces install gr_restart_rsn tail o rest

/-- The calls of `exit_calls_of_interfaces` for every interface of every
instance of a list.  The restart reason carried by the Grace-LSAs is the global
`gr_restart_rsn` for the first instance and Unknown for the later ones. -/
def exit_calls_of_instances (install : ospf_interface → ospf_lsa → Bool) (tail : reason_tail) :
    Int → List ospf → List gr_effect
  | _, [] => []
  | gr_restart_rsn, o :: rest =>
    exit_calls_of_interfaces install gr_restart_rsn tail o o.oiflist
      ++ exit_calls_of_instances install tail (GR_REASON_UNKNOWN : Int) rest

/-! ## Vocabulary for the statements about the consistency check -/

/-- The Network-LSA test in the words of the specification, for the attached
routers `L` of the matching Network-LSA, the neighbor table `N` and the
triggering neighbor `n`: AdjOK if every listed router is the router ID of a
neighbor in the table, else AdjNOK if the router ID of `n` is not listed, else
AdjInProgress. -/
def network_lsa_test (L : List Nat) (N : List ospf_neighbor) (n : ospf_neighbor) : Nat :=
  if L.all (fun r => N.any (fun nb => nb.router_id == r)) = true then OSPF_GR_ADJ_OK
  else if L.contains n.router_id = false then OSPF_GR_ADJ_NOK
  else OSPF_GR_ADJ_INPRGRESS

/-- No object of the Network-LSDB shows our router ID where the cast pointer
has the link-state ID. -/
def no_network_object_matches (ospf : ospf) (lsdb : List network_lsdb_entry) : Prop :=
  ∀ e ∈ lsdb, ∃ v, rd32 e.object LSA_HEADER_ID = .ok v ∧ v ≠ ospf.router_id

/-! ## Sample data -/

/-- A Grace-LSA as a restarting neighbor sends it: header of a link-scope opaque
LSA with opaque type 3 from router 1.1.1.1, then the three TLVs. -/
def sample_grace_lsa (gp a r age : Nat) : ospf_lsa :=
  { data := some ([0, 0, 66, 9, 3, 0, 0, 0, 1, 1, 1, 1, 128, 0, 0, 1, 0, 0, 0, 44]
      ++ encode_tlvs [tlv_grace_period gp, tlv_restart_reason r 0 0 0, tlv_interface_addr a])
    area := none
    self := false
    LS_AGE := age }

/-- A neighbor in state Full with an armed inactivity timer, an empty
retransmission list and a fresh helper record. -/
def sample_nbr (src : Nat) : ospf_neighbor :=
  { src := src
    router_id := 16843009
    state := nsm_state.NSM_Full
    t_inactivity := some ⟨thread_func.host, 40⟩
    ls_rxmt := [(0, 0), (2, 2)]
    gr_helper := ⟨OSPF_GR_NOT_HELPING, ⟨0, 0⟩, OSPF_GR_NONE, 0, none, none⟩ }

/-- An interface 10.0.0.1 in area 0 with DR 10.0.0.2 and two neighbors,
10.0.0.2 and 10.0.0.3. -/
def sample_oi : ospf_interface :=
  { address := 167772161
    area := { area_id := 0, lsa_options := 2 }
    dr := 167772162
    nbrs := [sample_nbr 167772162, sample_nbr 167772163] }

/-- An area 0. -/
def sample_far_area : ospf_area := { area_id := 0, lsa_options := 2 }

/-- An interface 192.168.1.1 without neighbors. -/
def sample_far_oi : ospf_interface :=
  { address := 3232235777, area := sample_far_area, dr := 0, nbrs := [] }

/-- An instance whose grace period holds the 32-bit value 2^32 - 1. -/
def sample_max_ospf : ospf :=
  { router_id := 16843009
    gr_info := ⟨1, 0, to_int32 4294967295, 0, 2, ⟨0, 0⟩, 2, none, none⟩
    oiflist := [] }

/-- An instance that is not restarting, with strict LSA checking on and the
interface `sample_oi`. -/
def sample_ospf : ospf :=
  { router_id := 33686018
    gr_info := ⟨1, 0, 0, 1, OSPF_GR_NOT_RESTART, ⟨0, 0⟩, OSPF_GR_NONE, none, none⟩
    oiflist := [sample_oi] }

/-- The neighbor 10.0.0.2 after helper entry with an advertised grace period
of 120 s. -/
def sample_helping_nbr : ospf_neighbor := helper_entered ⟨100, 0⟩ 120 (sample_nbr 167772162)

/-- The interface `sample_oi` after helper entry for the neighbor 10.0.0.2. -/
def sample_helping_oi : ospf_interface :=
  helper_entered_oi ⟨100, 0⟩ ⟨120, 167772162, 1⟩ sample_oi (sample_nbr 167772162)

/-- The instance `sample_ospf` after helper entry for the neighbor 10.0.0.2. -/
def sample_helping : ospf := set_oi sample_ospf 0 sample_helping_oi

/-- A Router-LSA header (LSA type 1) without a body. -/
def sample_router_lsa : ospf_lsa :=
  { data := some [0, 0, 2, 1, 1, 1, 1, 1, 1, 1, 1, 1, 128, 0, 0, 2, 0, 0, 0, 20]
    area := none
    self := false
    LS_AGE := 0 }

/-- An interface 10.0.1.1 in ISM state Waiting with idle resume state, without
a DR, with a self-originated Network-LSA from an earlier election. -/
def sample_up_oi : ospf_interface :=
  { address := 167772417
    area := sample_far_area
    dr := 0
    nbrs := [sample_nbr 167772418]
    state := ism_state.ISM_Waiting
    v_wait := 40
    network_lsa_self := some sample_router_lsa }

/-- An interface 10.0.2.1 in ISM state DROther with idle resume state and the
DR 10.0.2.2. -/
def sample_up_oi2 : ospf_interface :=
  { address := 167772673
    area := sample_far_area
    dr := 167772674
    nbrs := []
    state := ism_state.ISM_DROther
    v_wait := 40 }

/-- An instance right after `ospf_gr_init_global_info` with the restart flag
set, then configured with the restarting role enabled and a grace period of
120 s, with the interfaces `sample_up_oi` and `sample_up_oi2`. -/
def sample_restart_ospf : ospf :=
  { router_id := 33686018
    gr_info := ⟨1, TRUE, 120, 0, OSPF_GR_PLANNED_RESTART, ⟨5, 0⟩, OSPF_GR_IN_PROGRESS,
      none, none⟩
    oiflist := [sample_up_oi, sample_up_oi2] }

/-- The interface `sample_up_oi` with resume state NOK. -/
def sample_nok_oi : ospf_interface := { sample_up_oi with gr_state := RSM_GrResNOK }

/-- The interface `sample_up_oi2` with resume state NOK. -/
def sample_nok_oi2 : ospf_interface := { sample_up_oi2 with gr_state := RSM_GrResNOK }

/-- The instance `sample_restart_ospf` after its grace period has expired: both
interfaces NOK, exit reason Timeout, status NotRestart. -/
def sample_timeout_ospf : ospf :=
  { router_id := 33686018
    gr_info := ⟨1, TRUE, 120, 0, OSPF_GR_NOT_RESTART, ⟨5, 0⟩, OSPF_GR_TIMEOUT, none, none⟩
    oiflist := [sample_nok_oi, sample_nok_oi2] }

/-- The MaxAge Grace-LSA of the first interface of `sample_timeout_ospf`. -/
def sample_maxage_lsa : ospf_lsa :=
  maxage_grace_lsa 1 ⟨0, 0, 0⟩ sample_timeout_ospf sample_nok_oi

/-- The MaxAge Grace-LSA of the second interface of `sample_timeout_ospf`. -/
def sample_maxage_lsa2 : ospf_lsa :=
  maxage_grace_lsa 1 ⟨0, 0, 0⟩ sample_timeout_ospf sample_nok_oi2

/-- The instance `sample_restart_ospf` at its creation with the restart flag
set, before its configuration. -/
def sample_run_created : ospf := ospf_gr_init_global_info true ⟨5, 0⟩ sample_restart_ospf

/-- The created instance after its configuration and `ospf_chk_restart`. -/
def sample_run_armed : ospf :=
  (ospf_chk_restart (restart_configure TRUE 120 sample_run_created)).1

/-- The armed instance after the ISM hook ran for both interfaces. -/
def sample_run_started : ospf :=
  restart_ism_change (restart_ism_change sample_run_armed 0 sample_up_oi) 1 sample_up_oi2

/-- The started instance after IntAdjComplete on both interfaces. -/
def sample_run_resumed : ospf :=
  restart_event
    (restart_event sample_run_started 0 (ism_started_oi sample_up_oi)
      ospf_gr_event.RSM_GrIntAdjComplete)
    1 (ism_started_oi sample_up_oi2) ospf_gr_event.RSM_GrIntAdjComplete

/-- The resumed instance after the monitor ran. -/
def sample_run_monitored : ospf := (ospf_gr_restart_monitor none sample_run_resumed).ospf

/-- The interface `sample_up_oi` during its resume, gone down: resume state
InProgress, ISM state Down. -/
def sample_down_oi : ospf_interface := { ism_started_oi sample_up_oi with state := ism_state.ISM_Down }

/-- The instance `sample_restart_ospf` with the single interface
`sample_up_oi2`, which has no neighbor. -/
def sample_lonely_ospf : ospf := { sample_restart_ospf with oiflist := [sample_up_oi2] }

/-- The instance `sample_lonely_ospf` at its creation with the restart flag
set, before its configuration. -/
def sample_lonely_created : ospf := ospf_gr_init_global_info true ⟨5, 0⟩ sample_lonely_ospf

/-- The created instance after its configuration and `ospf_chk_restart`. -/
def sample_lonely_armed : ospf :=
  (ospf_chk_restart (restart_configure TRUE 120 sample_lonely_created)).1

/-- The armed instance after the ISM hook ran for its interface. -/
def sample_lonely_started : ospf := restart_ism_change sample_lonely_armed 0 sample_up_oi2

/-- The started instance after the no-neighbor watchdog of its interface fired
with `oi->nbrs` NULL. -/
def sample_lonely_alone : ospf :=
  restart_no_nbr_monitor sample_lonely_started 0 (ism_started_oi sample_up_oi2) true

/-- The instance after the monitor ran next. -/
def sample_lonely_monitored : ospf := (ospf_gr_restart_monitor none sample_lonely_alone).ospf

/-- The master with the instance `sample_lonely_monitored`, the restart flag
set and the instance-exit task posted by the monitor. -/
def sample_lonely_master : ospf_master :=
  { ospf := [sample_lonely_monitored]
    gr_restart_in_progress := true
    gr_shutdown_in_progress := false
    restart_status_t := (ospf_gr_restart_monitor none sample_lonely_alone).restart_status_t }

/-- A Grace-LSA without an interface-address TLV: the header of
`sample_grace_lsa` with length 36, then the grace period and the restart
reason. -/
def sample_grace_lsa_no_addr (gp r age : Nat) : ospf_lsa :=
  { data := some ([0, 0, 66, 9, 3, 0, 0, 0, 1, 1, 1, 1, 128, 0, 0, 1, 0, 0, 0, 36]
      ++ encode_tlvs [tlv_grace_period gp, tlv_restart_reason r 0 0 0])
    area := none
    self := false
    LS_AGE := age }

/-- The bytes of a `struct ospf_lsa` object as a 64-bit little-endian host lays
it out: the flags octet and seven octets of padding, the pointer `data`, the
two time stamps, three `int` counters and padding, the pointers `area`, `lsdb`
and `route`, the `int` `refresh_list` and padding, the pointer `oi`; 104 bytes.
The argument is one octet of the pointer `data`.  The sample takes the memory
behind the object as not mapped. -/
def sample_lsa_object (d : Nat) : List Nat :=
  [0, 0, 0, 0, 0, 0, 0, 0] ++ [0, d, 255, 192, 208, 85, 0, 0]
    ++ [5, 0, 0, 0, 0, 0, 0, 0] ++ [0, 0, 0, 0, 0, 0, 0, 0]
    ++ [5, 0, 0, 0, 0, 0, 0, 0] ++ [0, 0, 0, 0, 0, 0, 0, 0]
    ++ [1, 0, 0, 0] ++ [0, 0, 0, 0] ++ [0, 0, 0, 0] ++ [0, 0, 0, 0]
    ++ [0, 170, 255, 192, 208, 85, 0, 0] ++ [0, 187, 255, 192, 208, 85, 0, 0]
    ++ [0, 0, 0, 0, 0, 0, 0, 0]
    ++ [255, 255, 255, 255] ++ [0, 0, 0, 0]
    ++ [0, 0, 0, 0, 0, 0, 0, 0]

/-- The neighbor 10.0.1.2 with router ID 1.1.1.1, in state Full. -/
def sample_check_nbr : ospf_neighbor := { sample_nbr 167772418 with address := 167772418 }

/-- An area whose Network-LSDB holds one Network-LSA, with link-state ID
2.2.2.2 and the attached router 1.1.1.1. -/
def sample_net_area : ospf_area :=
  { area_id := 0
    lsa_options := 2
    router_lsa_self := some ⟨sample_lsa_object 16, ⟨33686018, [⟨16843009, 0, 1⟩]⟩⟩
    network_lsdb := [⟨sample_lsa_object 64, ⟨33686018, [16843009]⟩⟩] }

/-- An interface 10.0.1.1 in the area `sample_net_area`, DR itself, with the
neighbor 10.0.1.2 whose router ID is 1.1.1.1. -/
def sample_net_oi : ospf_interface :=
  { address := 167772417
    area := sample_net_area
    dr := 167772417
    nbrs := [sample_check_nbr] }

/-- The interface `sample_net_oi` with an empty neighbor table. -/
def sample_net_oi_empty : ospf_interface := { sample_net_oi with nbrs := [] }

/-- The instance `sample_restart_ospf` before a router ID has been selected:
router ID 0.0.0.0. -/
def sample_unset_ospf : ospf := { sample_restart_ospf with router_id := 0 }

/-! ## Theorems -/

theorem to_uint32_to_int32 (gp : Nat) (h : gp < 2 ^ 32) : to_uint32 (to_int32 gp) = gp := by
  unfold to_uint32 to_int32
  rw [Nat.mod_eq_of_lt h]
  split <;> omega

theorem to_uchar_small (r : Nat) (h : r ≤ 3) : to_uchar (r : Int) % 256 = r := by
  unfold to_uchar
  omega

/-! ### Loads from a concatenation -/

theorem rd8_append_right (pre l : List Nat) (k : Nat) (h : k < l.length) :
    rd8 (pre ++ l) (pre.length + k) = .ok (l[k] % 256) := by
  simp [rd8, List.getElem?_append_right, List.getElem?_eq_getElem h]

/-- A load inside the middle part of a buffer. -/
theorem rd8_mid (pre l post : List Nat) (k : Nat) (h : k < l.length) :
    rd8 (pre ++ (l ++ post)) (pre.length + k) = .ok (l[k] % 256) := by
  have h1 : k < (l ++ post).length := by simp; omega
  rw [rd8_append_right pre (l ++ post) k h1, List.getElem_append_left h]

theorem rd8_oob (data : List Nat) (off : Nat) (h : data.length ≤ off) :
    rd8 data off = .error (.out_of_bounds off) := by
  simp [rd8, List.getElem?_eq_none h]

theorem rd16_mid (pre l post : List Nat) (k : Nat) (h : k + 1 < l.length) :
    rd16 (pre ++ (l ++ post)) (pre.length + k)
      = .ok (256 * (l.getD k 0 % 256) + l.getD (k + 1) 0 % 256) := by
  have h0 : k < l.length := by omega
  simp only [rd16, bind, Except.bind, pure, Except.pure]
  rw [rd8_mid pre l post k h0, Nat.add_assoc, rd8_mid pre l post (k + 1) h]
  simp [List.getD_eq_getElem, h0, h]

theorem rd32_mid (pre l post : List Nat) (k : Nat) (h : k + 3 < l.length) :
    rd32 (pre ++ (l ++ post)) (pre.length + k)
      = .ok (2 ^ 24 * (l.getD k 0 % 256) + 2 ^ 16 * (l.getD (k + 1) 0 % 256)
          + 2 ^ 8 * (l.getD (k + 2) 0 % 256) + l.getD (k + 3) 0 % 256) := by
  have h0 : k < l.length := by omega
  have h1 : k + 1 < l.length := by omega
  have h2 : k + 2 < l.length := by omega
  simp only [rd32, bind, Except.bind, pure, Except.pure]
  rw [rd8_mid pre l post k h0, Nat.add_assoc, rd8_mid pre l post (k + 1) h1,
    Nat.add_assoc, rd8_mid pre l post (k + 2) h2, Nat.add_assoc, rd8_mid pre l post (k + 3) h]
  simp [List.getD_eq_getElem, h0, h1, h2, h]

theorem encode_length (t : grace_tlv) : t.encode.length = 4 + t.value.length := by
  simp [grace_tlv.encode, htons]
  omega

theorem rd_tlv_length (pre post : List Nat) (t : grace_tlv) (h : t.length < 65536) :
    rd16 (pre ++ (t.encode ++ post)) (pre.length + 2) = .ok t.length := by
  have hl : 2 + 1 < t.encode.length := by rw [encode_length]; omega
  rw [rd16_mid pre t.encode post 2 hl]
  simp [grace_tlv.encode, htons]
  omega

theorem rd_tlv_type (pre post : List Nat) (t : grace_tlv) (h : t.type < 65536) :
    rd16 (pre ++ (t.encode ++ post)) pre.length = .ok t.type := by
  have hl : 0 + 1 < t.encode.length := by rw [encode_length]; omega
  have := rd16_mid pre t.encode post 0 hl
  rw [Nat.add_zero] at this
  rw [this]
  simp [grace_tlv.encode, htons]
  omega

theorem encode_getD (t : grace_tlv) (k : Nat) : t.encode.getD (4 + k) 0 = t.value.getD k 0 := by
  rw [show 4 + k = k + 1 + 1 + 1 + 1 by omega]
  simp [grace_tlv.encode, htons, List.getD_eq_getElem?_getD]

theorem parse_tlv_mid (pre post : List Nat) (t : grace_tlv) (out : grace_lsa_out)
    (h : t.known → 4 ≤ t.value.length) :
    ospf_gr_parse_tlv (pre ++ (t.encode ++ post)) pre.length t.type out = .ok (t.apply out) := by
  unfold ospf_gr_parse_tlv grace_tlv.apply
  by_cases h1 : t.type = OSPF_GRACE_TLV_GRACE_PERIOD
  · have hv := h (Or.inl h1)
    have hl : 4 + 3 < t.encode.length := by rw [encode_length]; omega
    simp only [h1, if_true, bind, Except.bind, pure, Except.pure]
    rw [rd32_mid pre t.encode post 4 hl]
    simp only [Nat.add_assoc, encode_getD, be32]
    rw [show (4 : Nat) = 4 + 0 from rfl, encode_getD]
  · by_cases h2 : t.type = OSPF_GRACE_TLV_RESTART_REASON
    · have hv := h (Or.inr (Or.inl h2))
      have hl : 4 < t.encode.length := by rw [encode_length]; omega
      simp only [h2, if_true, bind, Except.bind, pure, Except.pure]
      rw [rd8_mid pre t.encode post 4 hl]
      have : t.encode[4] = t.value.getD 0 0 := by
        rw [← encode_getD t 0, List.getD_eq_getElem _ _ hl]
      simp [this]
    · by_cases h3 : t.type = OSPF_GRACE_TLV_INTERFACE_ADDR
      · have hv := h (Or.inr (Or.inr h3))
        have hl : 4 + 3 < t.encode.length := by rw [encode_length]; omega
        simp only [h3, if_true, bind, Except.bind, pure, Except.pure]
        rw [rd32_mid pre t.encode post 4 hl]
        simp only [Nat.add_assoc, encode_getD, be32]
        rw [show (4 : Nat) = 4 + 0 from rfl, encode_getD]
        simp
      · simp [h1, h2, h3, pure, Except.pure]

/-- The loop of the parser on a buffer that ends with a sequence of well-formed
TLVs consumes them one by one and stops at the end of the buffer. -/
theorem parse_loop_tlvs (total : Nat) (htotal : total < 65536) :
    ∀ (ts : List grace_tlv) (pre : List Nat) (fuel sum : Nat) (out : grace_lsa_out),
      (∀ t ∈ ts, t.wf ∧ (t.known → 1 ≤ t.length)) →
      sum + (encode_tlvs ts).length = total → ts.length ≤ fuel →
      ospf_gr_parse_loop (pre ++ encode_tlvs ts) total fuel sum pre.length out
        = .ok (ts.foldl grace_tlv.apply out) := by
  intro ts
  induction ts with
  | nil =>
    intro pre fuel sum out _ hsum _
    have hlt : ¬ sum < total := by simp [encode_tlvs] at hsum; omega
    cases fuel <;> simp [ospf_gr_parse_loop, hlt, pure, Except.pure]
  | cons t ts ih =>
    intro pre fuel sum out hwf hsum hfuel
    obtain ⟨⟨hty, hlen, hval⟩, hknown⟩ := hwf t (List.mem_cons_self t ts)
    have hrest : ∀ u ∈ ts, u.wf ∧ (u.known → 1 ≤ u.length) :=
      fun u hu => hwf u (List.mem_cons_of_mem t hu)
    cases fuel with
    | zero => simp at hfuel
    | succ f =>
      have hsize : OSPF_GRACE_TLV_SIZE t.length = t.encode.length := by
        rw [encode_length, hval]; rfl
      have hsum1 : sum + t.encode.length + (encode_tlvs ts).length = total := by
        simp [encode_tlvs] at hsum; omega
      have hpos : 4 ≤ t.encode.length := by rw [encode_length]; omega
      have hlt : sum < total := by omega
      have hv4 : t.known → 4 ≤ t.value.length := by
        intro hk
        have h1 := hknown hk
        rw [hval]
        unfold OSPF_GRACE_TLV_BODY_SIZE ROUNDUP
        omega
      have hmod : (sum + t.encode.length) % 65536 = sum + t.encode.length := by
        apply Nat.mod_eq_of_lt; omega
      have hdata : pre ++ encode_tlvs (t :: ts) = (pre ++ t.encode) ++ encode_tlvs ts := by
        simp [encode_tlvs]
      have key := ih (pre ++ t.encode) f (sum + t.encode.length) (t.apply out) hrest hsum1
        (by simpa using hfuel)
      simp only [ospf_gr_parse_loop, hlt, if_true, bind, Except.bind]
      simp only [encode_tlvs]
      rw [rd_tlv_length pre (encode_tlvs ts) t hlen, rd_tlv_type pre (encode_tlvs ts) t hty]
      simp only []
      rw [parse_tlv_mid pre (encode_tlvs ts) t out hv4]
      simp only [hsize, hmod]
      rw [← List.append_assoc, ← List.length_append]
      exact key

theorem encode_tlvs_length_ge (ts : List grace_tlv) : ts.length ≤ (encode_tlvs ts).length := by
  induction ts with
  | nil => simp [encode_tlvs]
  | cons t ts ih =>
    simp only [encode_tlvs, List.length_cons, List.length_append, encode_length]
    omega

theorem rd8_lt (data : List Nat) (off n : Nat) (h : rd8 data off = .ok n) : n < 256 := by
  unfold rd8 at h
  split at h
  · cases h; omega
  · cases h

theorem rd16_lt (data : List Nat) (off n : Nat) (h : rd16 data off = .ok n) : n < 65536 := by
  simp only [rd16, bind, Except.bind, pure, Except.pure] at h
  split at h
  · cases h
  · rename_i b0 h0
    split at h
    · cases h
    · rename_i b1 h1
      have := rd8_lt _ _ _ h0
      have := rd8_lt _ _ _ h1
      cases h
      omega

theorem rd16_hdr (hdr body : List Nat) (n : Nat) (hhdr : hdr.length = 20)
    (hlen : rd16 hdr 18 = .ok n) : rd16 (hdr ++ body) 18 = .ok n := by
  have h1 := rd16_mid [] hdr body 18 (by omega)
  have h2 := rd16_mid [] hdr [] 18 (by omega)
  simp only [List.nil_append, List.length_nil, Nat.zero_add, List.append_nil] at h1 h2
  rw [h1, ← h2, hlen]

/-- The parser on a 20-byte header followed by well-formed TLVs that fill the
declared length exactly: the result is the fold of the TLVs over the initial
contents of the result cells. -/
theorem parse_grace_lsa_tlvs (hdr : List Nat) (ts : List grace_tlv) (locals : grace_lsa_out)
    (hhdr : hdr.length = 20)
    (hlen : rd16 hdr 18 = .ok (20 + (encode_tlvs ts).length))
    (hwf : ∀ t ∈ ts, t.wf ∧ (t.known → 1 ≤ t.length)) :
    ospf_gr_parse_grace_lsa (some (hdr ++ encode_tlvs ts)) locals
      = .ok (ts.foldl grace_tlv.apply locals) := by
  have hfit := rd16_lt _ _ _ hlen
  have htot : (20 + (encode_tlvs ts).length + 65536 - OSPF_LSA_HEADER_SIZE) % 65536
      = (encode_tlvs ts).length := by
    show (20 + (encode_tlvs ts).length + 65536 - 20) % 65536 = _
    omega
  simp only [ospf_gr_parse_grace_lsa, bind, Except.bind]
  rw [rd16_hdr hdr _ _ hhdr hlen]
  simp only [htot]
  have key := parse_loop_tlvs (encode_tlvs ts).length (by omega) ts hdr
    (hdr ++ encode_tlvs ts).length 0 locals hwf (by omega)
    (by have := encode_tlvs_length_ge ts; simp; omega)
  rw [hhdr] at key
  exact key

theorem apply_unknown (out : grace_lsa_out) (t : grace_tlv) (h : ¬ t.known) :
    t.apply out = out := by
  unfold grace_tlv.known at h
  unfold grace_tlv.apply
  simp only [not_or] at h
  simp [h.1, h.2.1, h.2.2]

theorem foldl_apply_filter (ts : List grace_tlv) (out : grace_lsa_out) :
    ts.foldl grace_tlv.apply out
      = (ts.filter (fun t => decide t.known)).foldl grace_tlv.apply out := by
  induction ts generalizing out with
  | nil => rfl
  | cons t ts ih =>
    by_cases hk : t.known
    · simp [List.filter_cons, hk, ih]
    · simp [List.filter_cons, hk, ih, apply_unknown out t hk]

theorem be32_htonl (x : Nat) (h : x < 2 ^ 32) : be32 (htonl x) = x := by
  simp [be32, htonl]
  omega

theorem foldl_apply_three (out : grace_lsa_out) (gp a r p0 p1 p2 : Nat)
    (hgp : gp < 2 ^ 32) (ha : a < 2 ^ 32) (hr : r < 256) :
    [tlv_grace_period gp, tlv_restart_reason r p0 p1 p2, tlv_interface_addr a].foldl
      grace_tlv.apply out = ⟨gp, a, r⟩ := by
  simp [grace_tlv.apply, tlv_grace_period, tlv_restart_reason, tlv_interface_addr,
    be32_htonl gp hgp, be32_htonl a ha, Nat.mod_eq_of_lt hr]

theorem apply_comm_three (gp a r p0 p1 p2 : Nat) :
    ∀ x ∈ [tlv_grace_period gp, tlv_restart_reason r p0 p1 p2, tlv_interface_addr a],
    ∀ y ∈ [tlv_grace_period gp, tlv_restart_reason r p0 p1 p2, tlv_interface_addr a],
    ∀ z : grace_lsa_out, grace_tlv.apply (grace_tlv.apply z x) y
      = grace_tlv.apply (grace_tlv.apply z y) x := by
  intro x hx y hy z
  simp only [List.mem_cons, List.mem_singleton, List.not_mem_nil, or_false] at hx hy
  rcases hx with rfl | rfl | rfl <;> rcases hy with rfl | rfl | rfl <;>
    simp [grace_tlv.apply, tlv_grace_period, tlv_restart_reason, tlv_interface_addr]

/-- The parse of a well-formed Grace-LSA whose TLVs of known type are a
permutation of the three TLVs of the data model. -/
theorem parse_tlvs_perm (hdr : List Nat) (ts : List grace_tlv)
    (locals : grace_lsa_out) (gp a r p0 p1 p2 : Nat)
    (hhdr : hdr.length = 20)
    (hlen : rd16 hdr 18 = .ok (20 + (encode_tlvs ts).length))
    (hwf : ∀ t ∈ ts, t.wf)
    (hgp : gp < 2 ^ 32) (ha : a < 2 ^ 32) (hr : r < 256)
    (hknown : (ts.filter (fun t => decide t.known)).Perm
      [tlv_grace_period gp, tlv_restart_reason r p0 p1 p2, tlv_interface_addr a]) :
    ospf_gr_parse_grace_lsa (some (hdr ++ encode_tlvs ts)) locals = .ok ⟨gp, a, r⟩ := by
  have hwf1 : ∀ t ∈ ts, t.wf ∧ (t.known → 1 ≤ t.length) := by
    intro t ht
    refine ⟨hwf t ht, fun hk => ?_⟩
    have hmem : t ∈ ts.filter (fun t => decide t.known) := by
      simp [List.mem_filter, ht, hk]
    have := hknown.subset hmem
    simp only [List.mem_cons, List.mem_singleton, List.not_mem_nil, or_false] at this
    rcases this with rfl | rfl | rfl <;>
      simp [tlv_grace_period, tlv_restart_reason, tlv_interface_addr]
  rw [parse_grace_lsa_tlvs hdr ts locals hhdr hlen hwf1, foldl_apply_filter,
    ← List.Perm.foldl_eq' hknown.symm (apply_comm_three gp a r p0 p1 p2) locals,
    foldl_apply_three locals gp a r p0 p1 p2 hgp ha hr]

/-- C4: a well-formed Grace-LSA (a 20-byte header whose length field is 20 plus
the sum of the TLV sizes, then the TLVs) whose TLVs of known type are, in any
order, one Grace Period, one Restart Reason and one Interface Address TLV, with
TLVs of unknown type anywhere between them, parses to the values of those three
TLVs.  Every TLV occupies `4 + ROUNDUP length 4` bytes of the body, the step
by which the parser advances, and leaving out a TLV of unknown type gives the
same result. -/
theorem parse_order_independent (hdr : List Nat) (ts : List grace_tlv)
    (locals : grace_lsa_out) (gp a r p0 p1 p2 : Nat)
    (hhdr : hdr.length = 20)
    (hlen : rd16 hdr 18 = .ok (20 + (encode_tlvs ts).length))
    (hwf : ∀ t ∈ ts, t.wf)
    (hgp : gp < 2 ^ 32) (ha : a < 2 ^ 32) (hr : r < 256)
    (hknown : (ts.filter (fun t => decide t.known)).Perm
      [tlv_grace_period gp, tlv_restart_reason r p0 p1 p2, tlv_interface_addr a]) :
    ospf_gr_parse_grace_lsa (some (hdr ++ encode_tlvs ts)) locals = .ok ⟨gp, a, r⟩
      ∧ (∀ t ∈ ts, t.encode.length = OSPF_GRACE_TLV_SIZE t.length)
      ∧ (∀ (ts1 ts2 : List grace_tlv) (u : grace_tlv) (hdr1 : List Nat),
          ts = ts1 ++ u :: ts2 → ¬ u.known → hdr1.length = 20 →
          rd16 hdr1 18 = .ok (20 + (encode_tlvs (ts1 ++ ts2)).length) →
          ospf_gr_parse_grace_lsa (some (hdr1 ++ encode_tlvs (ts1 ++ ts2))) locals
            = .ok ⟨gp, a, r⟩) := by
  refine ⟨parse_tlvs_perm hdr ts locals gp a r p0 p1 p2 hhdr hlen hwf hgp ha hr hknown, ?_, ?_⟩
  · intro t ht
    rw [encode_length, (hwf t ht).2.2]
    rfl
  · intro ts1 ts2 u hdr1 hts hu hhdr1 hlen1
    subst hts
    refine parse_tlvs_perm hdr1 (ts1 ++ ts2) locals gp a r p0 p1 p2 hhdr1 hlen1 ?_ hgp ha hr ?_
    · intro t ht
      apply hwf t
      rcases List.mem_append.1 ht with h | h
      · exact List.mem_append_left _ h
      · exact List.mem_append_right _ (List.mem_cons_of_mem _ h)
    · have : (ts1 ++ u :: ts2).filter (fun t => decide t.known)
          = (ts1 ++ ts2).filter (fun t => decide t.known) := by
        simp [List.filter_append, List.filter_cons, hu]
      rw [← this]
      exact hknown

theorem parse_order_independent_witness :
    ospf_gr_parse_grace_lsa
      (some ((List.replicate 18 0 ++ [0, 56]) ++ encode_tlvs
        [⟨99, 2, [7, 7, 0, 0]⟩, tlv_interface_addr 167772161, tlv_restart_reason 1 0 0 0,
          ⟨7, 0, []⟩, tlv_grace_period 120]))
      ⟨0, 0, 0⟩ = .ok ⟨120, 167772161, 1⟩ :=
  (parse_order_independent (List.replicate 18 0 ++ [0, 56])
    [⟨99, 2, [7, 7, 0, 0]⟩, tlv_interface_addr 167772161, tlv_restart_reason 1 0 0 0,
      ⟨7, 0, []⟩, tlv_grace_period 120]
    ⟨0, 0, 0⟩ 120 167772161 1 0 0 0 (by decide) (by rfl) (by decide)
    (by norm_num) (by norm_num) (by norm_num) (by decide)).1

/-- The bytes that `ospf_gr_lsa_body_set` appends to the stream. -/
theorem lsa_body_set_bytes (s : stream) (r : Int) (tail : reason_tail) (st : ospf)
    (oi : ospf_interface) :
    ospf_gr_lsa_body_set s r tail st oi = s ++ encode_tlvs
      [tlv_grace_period (to_uint32 st.gr_info.grace_period),
        tlv_restart_reason (to_uchar r % 256) (tail.b0 % 256) (tail.b1 % 256) (tail.b2 % 256),
        tlv_interface_addr oi.address] := by
  simp [ospf_gr_lsa_body_set, ospf_gr_grace_period_tlv,
    ospf_gr_grace_restart_reason_tlv, ospf_gr_grace_if_addr_tlv, ospf_gr_build_grace_tlv_header,
    stream_put, htons, htonl, ntohs, OSPF_GRACE_TLV_BODY_SIZE, ROUNDUP, encode_tlvs,
    grace_tlv.encode, tlv_grace_period, tlv_restart_reason, tlv_interface_addr]

/-- The LSA that `ospf_gr_lsa_new` builds: a 20-byte header that declares the
length 44, carries the LSA type 9 and the opaque type 3, then the three TLVs. -/
theorem lsa_new_data (r : Int) (tail : reason_tail) (st : ospf) (area : ospf_area)
    (oi : ospf_interface) :
    ∃ hdr : List Nat, hdr.length = 20 ∧ rd16 hdr 18 = .ok 44 ∧
      (ospf_gr_lsa_new r tail st area oi).data = some (hdr ++ encode_tlvs
        [tlv_grace_period (to_uint32 st.gr_info.grace_period),
          tlv_restart_reason (to_uchar r % 256) (tail.b0 % 256) (tail.b1 % 256) (tail.b2 % 256),
          tlv_interface_addr oi.address]) := by
  refine ⟨[0, 0, (area.lsa_options ||| OSPF_OPTION_O) % 256 % 256, 9, 3, 0, 0, 0]
    ++ htonl st.router_id ++ [128, 0, 0, 1, 0, 0, 0, 44], by simp [htonl], ?_, ?_⟩
  · simp [rd16, rd8, htonl, bind, Except.bind, pure, Except.pure]
  · simp [ospf_gr_lsa_new, lsa_body_set_bytes, lsa_header_set, stream_get_endp, htons, htonl,
      SET_OPAQUE_LSID, encode_tlvs, grace_tlv.encode, tlv_grace_period, tlv_restart_reason,
      tlv_interface_addr]
    decide

/-- C1: for every grace period `gp < 2^32`, every interface address `a` and
every restart reason `r` in 0..3, parsing the LSA that `ospf_gr_lsa_new` builds
for an interface with address `a`, an instance whose grace period holds the
32-bit value `gp` and the global restart reason `r` yields exactly `(gp, a, r)`,
whatever the result cells held before. -/
theorem grace_lsa_round_trip (gp a r : Nat) (hgp : gp < 2 ^ 32) (ha : a < 2 ^ 32) (hr : r ≤ 3)
    (tail : reason_tail) (st : ospf) (area : ospf_area) (oi : ospf_interface)
    (locals : grace_lsa_out)
    (hperiod : st.gr_info.grace_period = to_int32 gp) (haddr : oi.address = a) :
    ospf_gr_parse_grace_lsa (ospf_gr_lsa_new (r : Int) tail st area oi).data locals
      = .ok ⟨gp, a, r⟩ := by
  obtain ⟨hdr, hhdr, hlen, hdata⟩ := lsa_new_data (r : Int) tail st area oi
  rw [hdata, hperiod, haddr, to_uint32_to_int32 gp hgp, to_uchar_small r hr]
  have hwf : ∀ t ∈ [tlv_grace_period gp,
      tlv_restart_reason r (tail.b0 % 256) (tail.b1 % 256) (tail.b2 % 256),
      tlv_interface_addr a], t.wf := by
    intro t ht
    simp only [List.mem_cons, List.mem_singleton, List.not_mem_nil, or_false] at ht
    rcases ht with rfl | rfl | rfl <;>
      (simp [grace_tlv.wf, tlv_grace_period, tlv_restart_reason, tlv_interface_addr, htonl,
        OSPF_GRACE_TLV_BODY_SIZE, ROUNDUP] <;> decide)
  have hfilter : ([tlv_grace_period gp,
      tlv_restart_reason r (tail.b0 % 256) (tail.b1 % 256) (tail.b2 % 256),
      tlv_interface_addr a].filter (fun t => decide t.known)).Perm
      [tlv_grace_period gp,
        tlv_restart_reason r (tail.b0 % 256) (tail.b1 % 256) (tail.b2 % 256),
        tlv_interface_addr a] := by
    simp [List.filter_cons, grace_tlv.known, tlv_grace_period, tlv_restart_reason,
      tlv_interface_addr]
  have hlen1 : rd16 hdr 18 = .ok (20 + (encode_tlvs [tlv_grace_period gp,
      tlv_restart_reason r (tail.b0 % 256) (tail.b1 % 256) (tail.b2 % 256),
      tlv_interface_addr a]).length) := by
    simpa [encode_tlvs, grace_tlv.encode, tlv_grace_period, tlv_restart_reason,
      tlv_interface_addr, htons, htonl] using hlen
  exact parse_tlvs_perm hdr _ locals gp a r _ _ _ hhdr hlen1 hwf hgp ha (by omega)
    hfilter

theorem grace_lsa_round_trip_witness :
    ospf_gr_parse_grace_lsa
      (ospf_gr_lsa_new ((2 : Nat) : Int) ⟨170, 187, 204⟩ sample_max_ospf sample_far_area
        sample_far_oi).data ⟨7, 7, 7⟩
      = .ok ⟨4294967295, 3232235777, 2⟩ :=
  grace_lsa_round_trip 4294967295 3232235777 2 (by norm_num) (by norm_num) (by norm_num)
    ⟨170, 187, 204⟩ sample_max_ospf sample_far_area sample_far_oi ⟨7, 7, 7⟩ rfl rfl

/-- C2: the body that `ospf_gr_lsa_body_set` appends is exactly the Grace Period
TLV (type 1, length 4), the Restart Reason TLV (type 2, length 1) and the
Interface Address TLV (type 3, length 4), in this order, each a 4-byte header
in network byte order followed by a value area of the length rounded up to a
multiple of 4; the body is 24 bytes, and the LSA that `ospf_gr_lsa_new` builds
is 44 bytes long, ends with this body and declares the length 44. -/
theorem grace_lsa_wire_layout (s : stream) (r : Int) (tail : reason_tail) (st : ospf)
    (area : ospf_area) (oi : ospf_interface) :
    ospf_gr_lsa_body_set s r tail st oi
        = s ++ ((htons 1 ++ htons 4 ++ htonl (to_uint32 st.gr_info.grace_period))
          ++ (htons 2 ++ htons 1 ++ [to_uchar r % 256, tail.b0 % 256, tail.b1 % 256, tail.b2 % 256])
          ++ (htons 3 ++ htons 4 ++ htonl oi.address))
      ∧ (htonl (to_uint32 st.gr_info.grace_period)).length = OSPF_GRACE_TLV_BODY_SIZE 4
      ∧ [to_uchar r % 256, tail.b0 % 256, tail.b1 % 256, tail.b2 % 256].length
          = OSPF_GRACE_TLV_BODY_SIZE 1
      ∧ (htonl oi.address).length = OSPF_GRACE_TLV_BODY_SIZE 4
      ∧ (ospf_gr_lsa_body_set s r tail st oi).length = s.length + 24
      ∧ ∃ data, (ospf_gr_lsa_new r tail st area oi).data = some data
          ∧ data.length = 20 + 24
          ∧ data.drop 20 = ospf_gr_lsa_body_set [] r tail st oi
          ∧ rd16 data 18 = .ok 44 := by
  have hbody := lsa_body_set_bytes s r tail st oi
  refine ⟨?_, by simp [htonl, OSPF_GRACE_TLV_BODY_SIZE, ROUNDUP],
    by simp [OSPF_GRACE_TLV_BODY_SIZE, ROUNDUP], by simp [htonl, OSPF_GRACE_TLV_BODY_SIZE, ROUNDUP],
    ?_, ?_⟩
  · rw [hbody]
    simp [encode_tlvs, grace_tlv.encode, tlv_grace_period, tlv_restart_reason,
      tlv_interface_addr]
  · rw [hbody]
    simp [encode_tlvs, grace_tlv.encode, tlv_grace_period, tlv_restart_reason,
      tlv_interface_addr, htons, htonl]
  · obtain ⟨hdr, hhdr, hlen, hdata⟩ := lsa_new_data r tail st area oi
    refine ⟨_, hdata, ?_, ?_, ?_⟩
    · simp [hhdr, encode_tlvs, grace_tlv.encode, tlv_grace_period, tlv_restart_reason,
        tlv_interface_addr, htons, htonl]
    · rw [lsa_body_set_bytes, ← hhdr]
      simp
    · exact rd16_hdr hdr _ _ hhdr hlen

/-! ### The iteration bound of the parser is never reached -/

theorem rd8_error (data : List Nat) (off : Nat) (e : gr_fault)
    (h : rd8 data off = .error e) : e ≠ .loop_bound := by
  unfold rd8 at h
  split at h
  · cases h
  · cases h; simp

theorem rd16_error (data : List Nat) (off : Nat) (e : gr_fault)
    (h : rd16 data off = .error e) : e ≠ .loop_bound := by
  simp only [rd16, bind, Except.bind, pure, Except.pure] at h
  cases h0 : rd8 data off with
  | error e0 => rw [h0] at h; cases h; exact rd8_error _ _ _ h0
  | ok b0 =>
    rw [h0] at h
    cases h1 : rd8 data (off + 1) with
    | error e1 => rw [h1] at h; cases h; exact rd8_error _ _ _ h1
    | ok b1 => rw [h1] at h; cases h

theorem rd32_error (data : List Nat) (off : Nat) (e : gr_fault)
    (h : rd32 data off = .error e) : e ≠ .loop_bound := by
  simp only [rd32, bind, Except.bind, pure, Except.pure] at h
  cases h0 : rd8 data off with
  | error e0 => rw [h0] at h; cases h; exact rd8_error _ _ _ h0
  | ok b0 =>
    rw [h0] at h
    cases h1 : rd8 data (off + 1) with
    | error e1 => rw [h1] at h; cases h; exact rd8_error _ _ _ h1
    | ok b1 =>
      rw [h1] at h
      cases h2 : rd8 data (off + 2) with
      | error e2 => rw [h2] at h; cases h; exact rd8_error _ _ _ h2
      | ok b2 =>
        rw [h2] at h
        cases h3 : rd8 data (off + 3) with
        | error e3 => rw [h3] at h; cases h; exact rd8_error _ _ _ h3
        | ok b3 => rw [h3] at h; cases h

theorem parse_tlv_error (data : List Nat) (tlvh type : Nat) (out : grace_lsa_out) (e : gr_fault)
    (h : ospf_gr_parse_tlv data tlvh type out = .error e) : e ≠ .loop_bound := by
  unfold ospf_gr_parse_tlv at h
  simp only [bind, Except.bind, pure, Except.pure] at h
  split at h
  · cases h0 : rd32 data (tlvh + OSPF_GRACE_TLV_HDR_SIZE) with
    | error e0 => rw [h0] at h; cases h; exact rd32_error _ _ _ h0
    | ok v => rw [h0] at h; cases h
  · split at h
    · cases h0 : rd8 data (tlvh + OSPF_GRACE_TLV_HDR_SIZE) with
      | error e0 => rw [h0] at h; cases h; exact rd8_error _ _ _ h0
      | ok v => rw [h0] at h; cases h
    · split at h
      · cases h0 : rd32 data (tlvh + OSPF_GRACE_TLV_HDR_SIZE) with
        | error e0 => rw [h0] at h; cases h; exact rd32_error _ _ _ h0
        | ok v => rw [h0] at h; cases h
      · cases h

theorem ospf_gr_parse_loop_bound (data : List Nat) (total : Nat) :
    ∀ (fuel sum tlvh : Nat) (out : grace_lsa_out), data.length ≤ tlvh + 4 * fuel + 2 →
      ospf_gr_parse_loop data total fuel sum tlvh out ≠ .error .loop_bound := by
  intro fuel
  induction fuel with
  | zero =>
    intro sum tlvh out h
    have h8 : rd8 data (tlvh + 2) = .error (.out_of_bounds (tlvh + 2)) :=
      rd8_oob data (tlvh + 2) (by omega)
    simp only [ospf_gr_parse_loop]
    split
    · simp [rd16, bind, Except.bind, h8]
    · simp [pure, Except.pure]
  | succ f ih =>
    intro sum tlvh out h
    simp only [ospf_gr_parse_loop]
    split
    · simp only [bind, Except.bind]
      cases h0 : rd16 data (tlvh + 2) with
      | error e0 =>
        intro hc
        cases hc
        exact rd16_error _ _ _ h0 rfl
      | ok length =>
        dsimp only
        cases h1 : rd16 data tlvh with
        | error e1 =>
          intro hc
          cases hc
          exact rd16_error _ _ _ h1 rfl
        | ok type =>
          dsimp only
          cases h2 : ospf_gr_parse_tlv data tlvh type out with
          | error e2 =>
            intro hc
            cases hc
            exact parse_tlv_error _ _ _ _ _ h2 rfl
          | ok out1 =>
            dsimp only
            refine ih _ _ out1 ?_
            have : OSPF_GRACE_TLV_SIZE length = 4 + OSPF_GRACE_TLV_BODY_SIZE length := rfl
            omega
    · simp [pure, Except.pure]

/-- The parser never stops at the iteration bound of the embedding: it returns
the result cells or faults on a load outside the buffer. -/
theorem ospf_gr_parse_grace_lsa_bound (lsah : Option (List Nat)) (locals : grace_lsa_out) :
    ospf_gr_parse_grace_lsa lsah locals ≠ .error .loop_bound := by
  cases lsah with
  | none => simp [ospf_gr_parse_grace_lsa, pure, Except.pure]
  | some data =>
    simp only [ospf_gr_parse_grace_lsa, bind, Except.bind]
    cases h0 : rd16 data 18 with
    | error e0 =>
      intro hc
      cases hc
      exact rd16_error _ _ _ h0 rfl
    | ok length =>
      exact ospf_gr_parse_loop_bound data _ _ _ _ _ (by omega)

/-- C3: the parser does load from offsets at or past the declared LSA length.
On a 22-byte LSA that declares the length 22 it loads the length field of a TLV
header at offset 22; on a 26-byte LSA that declares the length 26 and holds a
Grace Period TLV with two bytes of value it loads the value at offset 26; on a
20-byte LSA that declares the length 19 it loads a TLV header at offset 22.
Each of these loads is outside the buffer. -/
theorem parse_reads_past_declared_length :
    ospf_gr_parse_grace_lsa (some (List.replicate 18 0 ++ [0, 22] ++ [0, 1])) ⟨0, 0, 0⟩
        = .error (.out_of_bounds 22)
      ∧ ospf_gr_parse_grace_lsa
          (some (List.replicate 18 0 ++ [0, 26] ++ [0, 1, 0, 4, 0, 0])) ⟨0, 0, 0⟩
        = .error (.out_of_bounds 26)
      ∧ ospf_gr_parse_grace_lsa (some (List.replicate 18 0 ++ [0, 19])) ⟨0, 0, 0⟩
        = .error (.out_of_bounds 22) :=
  ⟨rfl, rfl, rfl⟩

/-! ### Helper entry -/

theorem isrefresh_loop_false (l : List (Nat × Nat)) :
    ospf_gr_ls_retransmit_isrefresh_loop l = false ↔ ∀ p ∈ l, p.1 = p.2 := by
  induction l with
  | nil => simp [ospf_gr_ls_retransmit_isrefresh_loop]
  | cons p l ih =>
    obtain ⟨c, cs⟩ := p
    by_cases h : c = cs
    · simp [ospf_gr_ls_retransmit_isrefresh_loop, h, ih]
    · simp [ospf_gr_ls_retransmit_isrefresh_loop, h]

/-- The call enters helper mode when the lookup succeeds, the preconditions
hold and the age is below the grace period read as an `int32_t`. -/
theorem hlpr_new_lsa_enter (helper_enable : Int) (now : timeval) (locals out : grace_lsa_out)
    (lsa : ospf_lsa) (oi : ospf_interface) (lsah : List Nat) (type id : Nat)
    (nbr : ospf_neighbor)
    (hdata : lsa.data = some lsah) (htype : rd8 lsah 3 = .ok type)
    (hid : rd32 lsah 4 = .ok id)
    (hparse : ospf_gr_parse_grace_lsa (some lsah) locals = .ok out)
    (hnbr : ospf_nbr_lookup_by_addr oi.nbrs out.if_addr = some nbr)
    (hpre : helper_entry_pre helper_enable type id nbr)
    (hage : (lsa.LS_AGE : Int) < to_int32 out.grace_period) :
    ospf_gr_hlpr_new_lsa helper_enable now locals (some lsa) oi
      = .ok ⟨0, helper_entered_oi now out oi nbr,
          (OSPF_NSM_TIMER_OFF nbr.t_inactivity).2 ++
            [gr_effect.thread_add_timer thread_func.ospf_adjacency_grace_period oi.address
              nbr.src out.grace_period]⟩ := by
  obtain ⟨h1, ⟨h2a, h2b⟩, h4, h6, h7⟩ := hpre
  have h7' : ospf_gr_ls_retransmit_isrefresh nbr = false :=
    (isrefresh_loop_false nbr.ls_rxmt).2 h7
  have hoff : (OSPF_NSM_TIMER_OFF nbr.t_inactivity).1 = none := by
    unfold OSPF_NSM_TIMER_OFF; cases nbr.t_inactivity <;> rfl
  simp only [ospf_gr_hlpr_new_lsa, h1, if_false, hdata, bind, Except.bind, htype, hid, hparse,
    hnbr, h2a, h2b, h4, hage, h6, h7', ne_eq, not_true_eq_false, not_false_eq_true,
    pure, Except.pure, hoff, helper_entered_oi, helper_entered]
  rfl

/-- The call changes nothing when the lookup fails, a precondition fails or the
age is not below the grace period read as an `int32_t`. -/
theorem hlpr_new_lsa_skip (helper_enable : Int) (now : timeval) (locals out : grace_lsa_out)
    (lsa : ospf_lsa) (oi : ospf_interface) (lsah : List Nat) (type id : Nat)
    (hdata : lsa.data = some lsah) (htype : rd8 lsah 3 = .ok type)
    (hid : rd32 lsah 4 = .ok id)
    (hparse : ospf_gr_parse_grace_lsa (some lsah) locals = .ok out)
    (hno : ¬ ∃ nbr, ospf_nbr_lookup_by_addr oi.nbrs out.if_addr = some nbr ∧
      helper_entry_pre helper_enable type id nbr ∧
      (lsa.LS_AGE : Int) < to_int32 out.grace_period) :
    ospf_gr_hlpr_new_lsa helper_enable now locals (some lsa) oi = .ok ⟨0, oi, []⟩ := by
  simp only [ospf_gr_hlpr_new_lsa, hdata, bind, Except.bind, htype, hid, hparse,
    pure, Except.pure]
  by_cases h1 : helper_enable = FALSE
  · simp [h1]
  · simp only [h1, if_false]
    by_cases h2a : type = OSPF_OPAQUE_LINK_LSA
    · simp only [h2a, ne_eq, not_true_eq_false, if_false]
      by_cases h2b : GET_OPAQUE_TYPE id = OPAQUE_TYPE_GRACE_LSA
      · simp only [h2b, ne_eq, not_true_eq_false, if_false]
        cases hnbr : ospf_nbr_lookup_by_addr oi.nbrs out.if_addr with
        | none => rfl
        | some nbr =>
          dsimp only
          by_cases h4 : nbr.gr_helper.helper_status = OSPF_GR_HELPING
          · simp [h4]
          · by_cases h5 : (lsa.LS_AGE : Int) < to_int32 out.grace_period
            · by_cases h6 : nbr.state = nsm_state.NSM_Full
              · cases h7 : ospf_gr_ls_retransmit_isrefresh nbr with
                | true => simp [h4, h5, h6]
                | false =>
                  exfalso
                  exact hno ⟨nbr, hnbr, ⟨h1, ⟨h2a, h2b⟩, h4, h6,
                    (isrefresh_loop_false nbr.ls_rxmt).1 h7⟩, h5⟩
              · simp [h4, h5, h6]
            · simp [h4, h5]
      · simp [h2b]
    · simp [h2a]

theorem to_int32_lt (age gp : Nat) (hgp : gp < 2 ^ 32) :
    (age : Int) < to_int32 gp ↔ gp < 2 ^ 31 ∧ age < gp := by
  unfold to_int32
  rw [Nat.mod_eq_of_lt hgp]
  split <;> omega

theorem helper_entry_taken_effects (now : timeval) (out : grace_lsa_out) (oi : ospf_interface)
    (r : hlpr_result) (h : helper_entry_taken now out oi r) : r.effects ≠ [] := by
  obtain ⟨nbr, _, _, he⟩ := h
  rw [he]
  simp

theorem nbr_store_split (addr : Nat) (new : ospf_neighbor) :
    ∀ (l : List ospf_neighbor) (nbr : ospf_neighbor),
      ospf_nbr_lookup_by_addr l addr = some nbr →
      ∃ pre post, l = pre ++ nbr :: post ∧ (∀ n ∈ pre, n.src ≠ addr) ∧ nbr.src = addr ∧
        nbr_store addr new l = pre ++ new :: post := by
  intro l
  induction l with
  | nil => intro nbr h; cases h
  | cons x l ih =>
    intro nbr h
    unfold ospf_nbr_lookup_by_addr at h
    by_cases hx : x.src = addr
    · have hd : (decide (x.src = addr)) = true := decide_eq_true hx
      rw [@List.find?_cons_of_pos _ (fun n => decide (n.src = addr)) x l hd] at h
      have e : x = nbr := Option.some.inj h
      subst e
      refine ⟨[], l, rfl, ?_, hx, ?_⟩
      · intro n hn; cases hn
      · simp only [nbr_store, if_pos hx, List.nil_append]
    · have hd : ¬ (decide (x.src = addr)) = true := by simpa using hx
      rw [@List.find?_cons_of_neg _ (fun n => decide (n.src = addr)) x l hd] at h
      obtain ⟨pre, post, e, hpre, hs, hst⟩ := ih nbr h
      refine ⟨x :: pre, post, by rw [e]; rfl, ?_, hs, ?_⟩
      · intro n hn
        rcases List.mem_cons.mp hn with h1 | h1
        · rw [h1]; exact hx
        · exact hpre n h1
      · simp only [nbr_store, if_neg hx, hst, List.cons_append]

theorem lookup_split (addr : Nat) (pre post : List ospf_neighbor) (nbr : ospf_neighbor)
    (hpre : ∀ n ∈ pre, n.src ≠ addr) (hs : nbr.src = addr) :
    ospf_nbr_lookup_by_addr (pre ++ nbr :: post) addr = some nbr := by
  unfold ospf_nbr_lookup_by_addr
  induction pre with
  | nil =>
    exact @List.find?_cons_of_pos _ (fun n => decide (n.src = addr)) nbr post
      (decide_eq_true hs)
  | cons x pre ih =>
    have hx : ¬ (decide (x.src = addr)) = true := by
      simpa using hpre x (List.mem_cons_self _ _)
    rw [List.cons_append,
      @List.find?_cons_of_neg _ (fun n => decide (n.src = addr)) x (pre ++ nbr :: post) hx]
    exact ih (fun n hn => hpre n (List.mem_cons_of_mem _ hn))

/-- C5: for an installed Grace-LSA that advertises a grace period of at most
1800 s, `ospf_gr_hlpr_new_lsa` returns 0, and it makes helper entry if and only
if helper_enable is set, the LSA is opaque-link with opaque type Grace, the
lookup succeeds, the neighbor is not Helping, the LSA age is below the grace
period, the neighbor is Full and every slot of its retransmission list has
count equal to count_self.  Helper entry means: in the neighbor table of the
outcome the neighbor found stands replaced, at its place, by itself with status
Helping, the advertised grace period, exit reason InProgress, start time `now`,
no inactivity timer and the helper timer set for the grace period, all other
neighbors and the rest of the interface being as before; the calls into the
host are the cancel of the inactivity timer if it was set and the add of the
helper timer; a lookup under the advertised address in the outcome finds a
Helping neighbor.  Otherwise the interface with all its neighbors is unchanged
and no call is made into the host. -/
theorem hlpr_new_lsa_entry_iff (helper_enable : Int) (now : timeval)
    (locals out : grace_lsa_out) (lsa : ospf_lsa) (oi : ospf_interface) (lsah : List Nat)
    (type id : Nat)
    (hdata : lsa.data = some lsah) (htype : rd8 lsah 3 = .ok type)
    (hid : rd32 lsah 4 = .ok id)
    (hparse : ospf_gr_parse_grace_lsa (some lsah) locals = .ok out)
    (hgp : out.grace_period ≤ 1800) :
    ∃ r, ospf_gr_hlpr_new_lsa helper_enable now locals (some lsa) oi = .ok r ∧ r.rc = 0 ∧
      (helper_entry_made now out oi r ↔
        ∃ nbr, ospf_nbr_lookup_by_addr oi.nbrs out.if_addr = some nbr ∧
          helper_entry_pre helper_enable type id nbr ∧ lsa.LS_AGE < out.grace_period) ∧
      (helper_entry_made now out oi r → helping_in now out.grace_period out.if_addr r.oi) ∧
      ((¬ ∃ nbr, ospf_nbr_lookup_by_addr oi.nbrs out.if_addr = some nbr ∧
          helper_entry_pre helper_enable type id nbr ∧ lsa.LS_AGE < out.grace_period) →
        r.oi = oi ∧ r.effects = []) := by
  have hlt : ∀ age : Nat, (age : Int) < to_int32 out.grace_period ↔ age < out.grace_period := by
    intro age
    rw [to_int32_lt age out.grace_period (by omega)]
    constructor
    · exact fun h => h.2
    · exact fun h => ⟨by omega, h⟩
  have hin : ∀ r : hlpr_result, helper_entry_made now out oi r →
      helping_in now out.grace_period out.if_addr r.oi := by
    rintro r ⟨pre, nbr, post, _, hpre, hs, hoi, _⟩
    refine ⟨helper_entered now out.grace_period nbr, ?_, rfl, rfl, rfl, rfl, rfl, rfl⟩
    rw [hoi]
    exact lookup_split out.if_addr pre post _ hpre hs
  by_cases hex : ∃ nbr, ospf_nbr_lookup_by_addr oi.nbrs out.if_addr = some nbr ∧
      helper_entry_pre helper_enable type id nbr ∧ lsa.LS_AGE < out.grace_period
  · obtain ⟨nbr, hnbr, hpre, hage⟩ := hex
    obtain ⟨pre, post, hl, hp, hs, hst⟩ :=
      nbr_store_split out.if_addr (helper_entered now out.grace_period nbr) oi.nbrs nbr hnbr
    have hmade : helper_entry_made now out oi
        ⟨0, helper_entered_oi now out oi nbr,
          (OSPF_NSM_TIMER_OFF nbr.t_inactivity).2 ++
            [gr_effect.thread_add_timer thread_func.ospf_adjacency_grace_period oi.address
              nbr.src out.grace_period]⟩ := by
      refine ⟨pre, nbr, post, hl, hp, hs, ?_, ?_⟩
      · show helper_entered_oi now out oi nbr = _
        unfold helper_entered_oi
        rw [hst]
      · show (OSPF_NSM_TIMER_OFF nbr.t_inactivity).2 ++ _ = _
        unfold OSPF_NSM_TIMER_OFF
        cases nbr.t_inactivity <;> rfl
    refine ⟨_, hlpr_new_lsa_enter helper_enable now locals out lsa oi lsah type id nbr hdata
      htype hid hparse hnbr hpre ((hlt _).2 hage), rfl, ?_, hin _, ?_⟩
    · exact ⟨fun _ => ⟨nbr, hnbr, hpre, hage⟩, fun _ => hmade⟩
    · intro hno
      exact absurd ⟨nbr, hnbr, hpre, hage⟩ hno
  · have hno : ¬ ∃ nbr, ospf_nbr_lookup_by_addr oi.nbrs out.if_addr = some nbr ∧
        helper_entry_pre helper_enable type id nbr ∧
        (lsa.LS_AGE : Int) < to_int32 out.grace_period := by
      rintro ⟨nbr, hnbr, hpre, hage⟩
      exact hex ⟨nbr, hnbr, hpre, (hlt _).1 hage⟩
    refine ⟨_, hlpr_new_lsa_skip helper_enable now locals out lsa oi lsah type id hdata
      htype hid hparse hno, rfl, ?_, hin _, ?_⟩
    · constructor
      · rintro ⟨_, _, _, _, _, _, _, he⟩
        have he' : ([] : List gr_effect) = _ := he
        simp at he'
      · intro h
        exact absurd h hex
    · intro _
      exact ⟨rfl, rfl⟩

theorem hlpr_new_lsa_entry_iff_witness :
    ∃ r, ospf_gr_hlpr_new_lsa 1 ⟨100, 0⟩ ⟨0, 0, 0⟩
        (some (sample_grace_lsa 120 167772162 1 5)) sample_oi = .ok r ∧ r.rc = 0 ∧
      (helper_entry_made ⟨100, 0⟩ ⟨120, 167772162, 1⟩ sample_oi r ↔
        ∃ nbr, ospf_nbr_lookup_by_addr sample_oi.nbrs
            (grace_lsa_out.mk 120 167772162 1).if_addr = some nbr ∧
          helper_entry_pre 1 9 50331648 nbr ∧
          (sample_grace_lsa 120 167772162 1 5).LS_AGE
            < (grace_lsa_out.mk 120 167772162 1).grace_period) ∧
      (helper_entry_made ⟨100, 0⟩ ⟨120, 167772162, 1⟩ sample_oi r →
        helping_in ⟨100, 0⟩ (grace_lsa_out.mk 120 167772162 1).grace_period
          (grace_lsa_out.mk 120 167772162 1).if_addr r.oi) ∧
      ((¬ ∃ nbr, ospf_nbr_lookup_by_addr sample_oi.nbrs
            (grace_lsa_out.mk 120 167772162 1).if_addr = some nbr ∧
          helper_entry_pre 1 9 50331648 nbr ∧
          (sample_grace_lsa 120 167772162 1 5).LS_AGE
            < (grace_lsa_out.mk 120 167772162 1).grace_period) →
        r.oi = sample_oi ∧ r.effects = []) :=
  hlpr_new_lsa_entry_iff 1 ⟨100, 0⟩ ⟨0, 0, 0⟩ ⟨120, 167772162, 1⟩
    (sample_grace_lsa 120 167772162 1 5) sample_oi _ 9 50331648 rfl rfl rfl rfl (by decide)

/-- C6 (as the code has it): with the lookup successful and the other
preconditions of helper entry satisfied, `ospf_gr_hlpr_new_lsa` takes helper
entry if and only if the LSA age is below the advertised grace period compared
as signed 32-bit integers, that is, if and only if the grace period is below
2^31 and the age is below it. -/
theorem hlpr_new_lsa_age_guard_signed (helper_enable : Int) (now : timeval)
    (locals out : grace_lsa_out) (lsa : ospf_lsa) (oi : ospf_interface) (lsah : List Nat)
    (type id : Nat) (nbr : ospf_neighbor)
    (hdata : lsa.data = some lsah) (htype : rd8 lsah 3 = .ok type)
    (hid : rd32 lsah 4 = .ok id)
    (hparse : ospf_gr_parse_grace_lsa (some lsah) locals = .ok out)
    (hgp : out.grace_period < 2 ^ 32)
    (hnbr : ospf_nbr_lookup_by_addr oi.nbrs out.if_addr = some nbr)
    (hpre : helper_entry_pre helper_enable type id nbr) :
    ∃ r, ospf_gr_hlpr_new_lsa helper_enable now locals (some lsa) oi = .ok r ∧
      (helper_entry_taken now out oi r ↔
        (out.grace_period < 2 ^ 31 ∧ lsa.LS_AGE < out.grace_period)) := by
  by_cases hage : (lsa.LS_AGE : Int) < to_int32 out.grace_period
  · refine ⟨_, hlpr_new_lsa_enter helper_enable now locals out lsa oi lsah type id nbr hdata
      htype hid hparse hnbr hpre hage, ?_⟩
    exact ⟨fun _ => (to_int32_lt _ _ hgp).1 hage, fun _ => ⟨nbr, hnbr, rfl, rfl⟩⟩
  · have hno : ¬ ∃ nbr, ospf_nbr_lookup_by_addr oi.nbrs out.if_addr = some nbr ∧
        helper_entry_pre helper_enable type id nbr ∧
        (lsa.LS_AGE : Int) < to_int32 out.grace_period := by
      rintro ⟨_, _, _, h⟩
      exact hage h
    refine ⟨_, hlpr_new_lsa_skip helper_enable now locals out lsa oi lsah type id hdata
      htype hid hparse hno, ?_⟩
    constructor
    · intro ht
      exact absurd rfl (helper_entry_taken_effects now out oi _ ht)
    · intro h
      exact absurd ((to_int32_lt _ _ hgp).2 h) hage

theorem hlpr_new_lsa_age_guard_signed_witness :
    ∃ r, ospf_gr_hlpr_new_lsa 1 ⟨7, 0⟩ ⟨0, 0, 0⟩
        (some (sample_grace_lsa 2147483647 167772163 2 3600)) sample_oi = .ok r ∧
      (helper_entry_taken ⟨7, 0⟩ ⟨2147483647, 167772163, 2⟩ sample_oi r ↔
        ((grace_lsa_out.mk 2147483647 167772163 2).grace_period < 2 ^ 31 ∧
          (sample_grace_lsa 2147483647 167772163 2 3600).LS_AGE
            < (grace_lsa_out.mk 2147483647 167772163 2).grace_period)) :=
  hlpr_new_lsa_age_guard_signed 1 ⟨7, 0⟩ ⟨0, 0, 0⟩ ⟨2147483647, 167772163, 2⟩
    (sample_grace_lsa 2147483647 167772163 2 3600) sample_oi _ 9 50331648
    (sample_nbr 167772163) rfl rfl rfl rfl (by norm_num) rfl
    ⟨by decide, ⟨rfl, rfl⟩, by decide, rfl, by decide⟩

/-- C6 (counterexample): the Grace-LSA advertises the grace period 2^31 and has
age 0, the neighbor 10.0.0.2 is found, is Full, is not Helping and has nothing
but self-originated LSAs to retransmit, helper_enable is set; the age is below
the grace period as unsigned integers, and the call does not take helper entry:
it returns with the interface unchanged. -/
theorem hlpr_new_lsa_age_guard_unsigned_fails :
    (sample_grace_lsa 2147483648 167772162 1 0).LS_AGE < 2147483648 ∧
      ospf_gr_parse_grace_lsa (sample_grace_lsa 2147483648 167772162 1 0).data ⟨0, 0, 0⟩
        = .ok ⟨2147483648, 167772162, 1⟩ ∧
      ospf_nbr_lookup_by_addr sample_oi.nbrs 167772162 = some (sample_nbr 167772162) ∧
      helper_entry_pre 1 9 50331648 (sample_nbr 167772162) ∧
      ospf_gr_hlpr_new_lsa 1 ⟨100, 0⟩ ⟨0, 0, 0⟩
        (some (sample_grace_lsa 2147483648 167772162 1 0)) sample_oi
        = .ok ⟨0, sample_oi, []⟩ ∧
      ¬ helper_entry_taken ⟨100, 0⟩ ⟨2147483648, 167772162, 1⟩ sample_oi ⟨0, sample_oi, []⟩ :=
  ⟨by decide, rfl, rfl, ⟨by decide, ⟨rfl, rfl⟩, by decide, rfl, by decide⟩, rfl,
    fun h => helper_entry_taken_effects _ _ _ _ h rfl⟩

/-! ### Helper exit -/

theorem exit_action_nbr (oi : ospf_interface) (nbr : ospf_neighbor) :
    (ospf_gr_helper_exit_action oi nbr).1 = helper_left nbr.gr_helper.helper_exit_rsn nbr := by
  rfl

theorem exit_action_effects (oi : ospf_interface) (nbr : ospf_neighbor) :
    (ospf_gr_helper_exit_action oi nbr).2 =
      (match nbr.gr_helper.helper_t with
        | some t => [gr_effect.thread_cancel t]
        | none => []) ++
      (if nbr.gr_helper.helper_exit_rsn = OSPF_GR_TIMEOUT ∨
          nbr.gr_helper.helper_exit_rsn = OSPF_GR_TOPOLOGY_CHNAGE then
        [gr_effect.nsm_event_schedule oi.address nbr.src nsm_event.NSM_InactivityTimer]
      else [gr_effect.ism_event_execute oi.address ism_event.ISM_NeighborChange]) ++
      [gr_effect.router_lsa_update_area oi.area.area_id] ++ network_lsa_effects oi := by
  rfl

/-- C8: when the helper timer fires, the neighbor afterwards has exit reason
Timeout, status NotHelping, grace period 0 and no helper timer handle, with its
other fields as before; the calls into the host are exactly: the NSM event
InactivityTimer scheduled on the neighbor, the Router-LSA update for the area
of the interface, and the Network-LSA update for the interface if and only if
its DR address is non-zero.  No ISM event is executed. -/
theorem adjacency_grace_period_timeout (oi : ospf_interface) (nbr : ospf_neighbor) :
    (ospf_adjacency_grace_period oi nbr).1 = helper_left OSPF_GR_TIMEOUT nbr
      ∧ (ospf_adjacency_grace_period oi nbr).1.gr_helper.helper_exit_rsn = OSPF_GR_TIMEOUT
      ∧ (ospf_adjacency_grace_period oi nbr).1.gr_helper.helper_status = OSPF_GR_NOT_HELPING
      ∧ (ospf_adjacency_grace_period oi nbr).1.gr_helper.grace_period = 0
      ∧ (ospf_adjacency_grace_period oi nbr).1.gr_helper.helper_t = none
      ∧ (ospf_adjacency_grace_period oi nbr).2 =
          [gr_effect.nsm_event_schedule oi.address nbr.src nsm_event.NSM_InactivityTimer,
            gr_effect.router_lsa_update_area oi.area.area_id] ++ network_lsa_effects oi
      ∧ (∀ a ev, gr_effect.ism_event_execute a ev ∉ (ospf_adjacency_grace_period oi nbr).2)
      ∧ (gr_effect.network_lsa_update oi.address ∈ (ospf_adjacency_grace_period oi nbr).2
          ↔ oi.dr ≠ 0) := by
  have he : (ospf_adjacency_grace_period oi nbr).2 =
      [gr_effect.nsm_event_schedule oi.address nbr.src nsm_event.NSM_InactivityTimer,
        gr_effect.router_lsa_update_area oi.area.area_id] ++ network_lsa_effects oi := by
    unfold ospf_adjacency_grace_period
    rw [exit_action_effects]
    simp
  refine ⟨rfl, rfl, rfl, rfl, rfl, he, ?_, ?_⟩
  · intro a ev
    rw [he]
    unfold network_lsa_effects
    split <;> simp
  · rw [he]
    unfold network_lsa_effects
    split <;> simp_all

/-! ### What the helper handlers keep -/

theorem helper_left_inv (rsn : Nat) (nbr : ospf_neighbor) : helper_inv (helper_left rsn nbr) := by
  simp [helper_inv, helper_left]

theorem helper_entered_inv (now : timeval) (gp : Nat) (nbr : ospf_neighbor) :
    helper_inv (helper_entered now gp nbr) := by
  simp [helper_inv, helper_entered]

theorem nbr_store_mem (addr : Nat) (new n : ospf_neighbor) (l : List ospf_neighbor)
    (h : n ∈ nbr_store addr new l) : n = new ∨ n ∈ l := by
  induction l with
  | nil => simp [nbr_store] at h
  | cons m l ih =>
    simp only [nbr_store] at h
    split at h
    · rcases List.mem_cons.1 h with h1 | h1
      · exact Or.inl h1
      · exact Or.inr (List.mem_cons_of_mem _ h1)
    · rcases List.mem_cons.1 h with h1 | h1
      · exact Or.inr (h1 ▸ List.mem_cons_self _ _)
      · rcases ih h1 with h2 | h2
        · exact Or.inl h2
        · exact Or.inr (List.mem_cons_of_mem _ h2)

theorem hlpr_new_lsa_shape (helper_enable : Int) (now : timeval) (locals : grace_lsa_out)
    (lsa : Option ospf_lsa) (oi : ospf_interface) (r : hlpr_result)
    (h : ospf_gr_hlpr_new_lsa helper_enable now locals lsa oi = .ok r) :
    r.oi = oi ∨ ∃ out nbr, r.oi = helper_entered_oi now out oi nbr := by
  unfold ospf_gr_hlpr_new_lsa at h
  simp only [bind, Except.bind, pure, Except.pure] at h
  repeat' split at h
  all_goals first
    | (cases h; exact Or.inl rfl)
    | (cases h; exact Or.inr ⟨_, _, rfl⟩)
    | cases h

theorem hlpr_del_lsa_shape (locals : grace_lsa_out)
    (lsa : Option ospf_lsa) (oi : ospf_interface) (r : hlpr_result)
    (h : ospf_gr_hlpr_del_lsa locals lsa oi = .ok r) :
    r.oi = oi ∨ ∃ addr rsn nbr, r.oi = stored_oi oi addr (helper_left rsn nbr) := by
  unfold ospf_gr_hlpr_del_lsa at h
  simp only [bind, Except.bind, pure, Except.pure] at h
  repeat' split at h
  all_goals first
    | (cases h; exact Or.inl rfl)
    | (cases h; exact Or.inr ⟨_, OSPF_GR_COMPLETED, _, rfl⟩)
    | cases h

theorem topology_change_nbrs_fst (oif : ospf_interface) (l : List ospf_neighbor) :
    (ospf_gr_topology_change_nbrs oif l).1 = l.map topology_left := by
  induction l with
  | nil => rfl
  | cons nbr l ih =>
    by_cases h : nbr.gr_helper.helper_status = OSPF_GR_HELPING
    · simp only [ospf_gr_topology_change_nbrs, h, if_true, List.map_cons, ih, topology_left]
      rfl
    · simp only [ospf_gr_topology_change_nbrs, h, if_false, List.map_cons, ih, topology_left]

theorem topology_change_oifs_fst (l : List ospf_interface) :
    (ospf_gr_topology_change_oifs l).1 = l.map topology_left_oi := by
  induction l with
  | nil => rfl
  | cons oif l ih =>
    simp only [ospf_gr_topology_change_oifs, List.map_cons, ih, topology_change_nbrs_fst,
      topology_left_oi]

theorem topology_change_nbrs_event (oif : ospf_interface) (l : List ospf_neighbor)
    (nbr : ospf_neighbor) (hmem : nbr ∈ l)
    (hh : nbr.gr_helper.helper_status = OSPF_GR_HELPING) :
    gr_effect.nsm_event_schedule oif.address nbr.src nsm_event.NSM_InactivityTimer
      ∈ (ospf_gr_topology_change_nbrs oif l).2 := by
  induction l with
  | nil => simp at hmem
  | cons n l ih =>
    rcases List.mem_cons.1 hmem with h1 | h1
    · subst h1
      simp only [ospf_gr_topology_change_nbrs, hh, if_true, exit_action_effects]
      simp
    · have := ih h1
      by_cases h : n.gr_helper.helper_status = OSPF_GR_HELPING
      · simp only [ospf_gr_topology_change_nbrs, h, if_true]
        exact List.mem_append_right _ this
      · simp only [ospf_gr_topology_change_nbrs, h, if_false]
        exact this

theorem topology_change_oifs_event (l : List ospf_interface) (oif : ospf_interface)
    (hoif : oif ∈ l) (nbr : ospf_neighbor) (hmem : nbr ∈ oif.nbrs)
    (hh : nbr.gr_helper.helper_status = OSPF_GR_HELPING) :
    gr_effect.nsm_event_schedule oif.address nbr.src nsm_event.NSM_InactivityTimer
      ∈ (ospf_gr_topology_change_oifs l).2 := by
  induction l with
  | nil => simp at hoif
  | cons o l ih =>
    simp only [ospf_gr_topology_change_oifs]
    rcases List.mem_cons.1 hoif with h1 | h1
    · subst h1
      exact List.mem_append_left _ (topology_change_nbrs_event oif oif.nbrs nbr hmem hh)
    · exact List.mem_append_right _ (ih h1)

theorem topology_left_inv (nbr : ospf_neighbor) (h : helper_inv nbr) :
    helper_inv (topology_left nbr) := by
  unfold topology_left
  split
  · exact helper_left_inv _ _
  · exact h

theorem topology_left_not_helping (nbr : ospf_neighbor) :
    (topology_left nbr).gr_helper.helper_status ≠ OSPF_GR_HELPING := by
  unfold topology_left
  split
  · simp [helper_left]
  · assumption

/-- The two outcomes of `ospf_gr_check_topology_change` on a present LSA whose
type can be loaded: every neighbor is passed through `topology_left` when the
strict-LSA-check condition holds, and nothing happens otherwise. -/
theorem check_topology_change_cases (helper_enable : Int)
    (ospf_lsa_different : ospf_lsa → ospf_lsa → Bool) (curr_lsa : Option ospf_lsa)
    (new : ospf_lsa) (oi : ospf_interface) (st : ospf) (lsah : List Nat) (type : Nat)
    (hdata : new.data = some lsah) (htype : rd8 lsah 3 = .ok type) :
    (topology_change_cond helper_enable ospf_lsa_different curr_lsa new type st →
      ospf_gr_check_topology_change helper_enable ospf_lsa_different curr_lsa (some new)
        (some oi) (some st)
        = .ok ⟨0, some { st with oiflist := st.oiflist.map topology_left_oi },
            (ospf_gr_topology_change_oifs st.oiflist).2⟩) ∧
    (¬ topology_change_cond helper_enable ospf_lsa_different curr_lsa new type st →
      ospf_gr_check_topology_change helper_enable ospf_lsa_different curr_lsa (some new)
        (some oi) (some st) = .ok ⟨0, some st, []⟩) := by
  constructor
  · rintro ⟨h1, h2, h3, ⟨h4, h5⟩, h6⟩
    have hty : ¬ (type < OSPF_ROUTER_LSA ∨ type > OSPF_AS_NSSA_LSA) := by omega
    simp only [ospf_gr_check_topology_change, h1, h2, h3, ne_eq, not_true_eq_false, or_self,
      if_false, hdata, bind, Except.bind, htype, hty, pure, Except.pure,
      topology_change_oifs_fst]
    rcases h6 with h6 | ⟨curr, h6, h7⟩
    · simp [h6]
    · simp [h6, h7]
  · intro hno
    simp only [ospf_gr_check_topology_change, hdata, bind, Except.bind, htype, pure,
      Except.pure]
    by_cases hc : helper_enable = FALSE ∨ st.gr_info.gr_status ≠ (OSPF_GR_NOT_RESTART : Int) ∨
        st.gr_info.strict_lsa_check = FALSE
    · simp only [hc, if_true]
    · simp only [hc, if_false]
      simp only [not_or, ne_eq, not_not] at hc
      by_cases hty : type < OSPF_ROUTER_LSA ∨ type > OSPF_AS_NSSA_LSA
      · simp only [hty, if_true]
      · simp only [hty, if_false]
        cases hcurr : curr_lsa with
        | none =>
          exfalso
          exact hno ⟨hc.1, hc.2.2, hc.2.1, by omega, Or.inl hcurr⟩
        | some curr =>
          cases hd : ospf_lsa_different curr new with
          | true =>
            exfalso
            exact hno ⟨hc.1, hc.2.2, hc.2.1, by omega, Or.inr ⟨curr, hcurr, hd⟩⟩
          | false => simp [hd]

theorem check_topology_change_shape (helper_enable : Int)
    (ospf_lsa_different : ospf_lsa → ospf_lsa → Bool) (curr_lsa new_lsa : Option ospf_lsa)
    (oi : Option ospf_interface) (st : ospf) (r : topology_result)
    (h : ospf_gr_check_topology_change helper_enable ospf_lsa_different curr_lsa new_lsa oi
      (some st) = .ok r) :
    r.ospf = some st ∨
      r.ospf = some { st with oiflist := st.oiflist.map topology_left_oi } := by
  unfold ospf_gr_check_topology_change at h
  simp only [bind, Except.bind, pure, Except.pure, topology_change_oifs_fst] at h
  repeat' split at h
  all_goals first
    | (cases h; exact Or.inl rfl)
    | (cases h; exact Or.inr rfl)
    | cases h

theorem helper_idle_inv (st : ospf) (h : helper_idle st) : helper_inv_all st := by
  intro oi hoi nbr hnbr
  obtain ⟨h1, h2⟩ := h oi hoi nbr hnbr
  simp [helper_inv, h1, h2]

theorem stored_inv (oi : ospf_interface) (addr : Nat) (new : ospf_neighbor)
    (hold : ∀ nbr ∈ oi.nbrs, helper_inv nbr) (hnew : helper_inv new) :
    ∀ nbr ∈ nbr_store addr new oi.nbrs, helper_inv nbr := by
  intro nbr hmem
  rcases nbr_store_mem addr new nbr oi.nbrs hmem with h | h
  · exact h ▸ hnew
  · exact hold nbr h

theorem set_oi_inv (st : ospf) (i : Nat) (oi : ospf_interface) (hst : helper_inv_all st)
    (hoi : ∀ nbr ∈ oi.nbrs, helper_inv nbr) : helper_inv_all (set_oi st i oi) := by
  intro o ho nbr hnbr
  rcases List.mem_or_eq_of_mem_set ho with h | h
  · exact hst o h nbr hnbr
  · subst h
    exact hoi nbr hnbr

/-- Every call of a helper handler keeps `helper_inv` for all neighbors. -/
theorem helper_step_inv (st st1 : ospf) (hstep : helper_step st st1)
    (hst : helper_inv_all st) : helper_inv_all st1 := by
  cases hstep with
  | new_lsa i oi helper_enable now locals lsa r hi hr =>
    have hoi := hst oi (List.get?_mem hi)
    apply set_oi_inv st i r.oi hst
    rcases hlpr_new_lsa_shape helper_enable now locals lsa oi r hr with h | ⟨out, nbr, h⟩
    · rw [h]; exact hoi
    · rw [h]
      exact stored_inv oi _ _ hoi (helper_entered_inv _ _ _)
  | del_lsa i oi locals lsa r hi hr =>
    have hoi := hst oi (List.get?_mem hi)
    apply set_oi_inv st i r.oi hst
    rcases hlpr_del_lsa_shape locals lsa oi r hr with h | ⟨addr, rsn, nbr, h⟩
    · rw [h]; exact hoi
    · rw [h]
      exact stored_inv oi _ _ hoi (helper_left_inv _ _)
  | timer i j oi nbr hi hj =>
    have hoi := hst oi (List.get?_mem hi)
    apply set_oi_inv st i _ hst
    intro n hn
    rcases List.mem_or_eq_of_mem_set hn with h | h
    · exact hoi n h
    · rw [h]
      exact helper_left_inv OSPF_GR_TIMEOUT nbr
  | topology_change _ helper_enable ospf_lsa_different curr_lsa new_lsa oi r hr hst1 =>
    rcases check_topology_change_shape helper_enable ospf_lsa_different curr_lsa new_lsa oi st
      r hr with h | h
    · rw [hst1] at h
      cases h
      exact hst
    · rw [hst1] at h
      cases h
      intro o ho nbr hnbr
      obtain ⟨o0, ho0, rfl⟩ := List.mem_map.1 ho
      obtain ⟨n0, hn0, rfl⟩ := List.mem_map.1 hnbr
      exact topology_left_inv n0 (hst o0 ho0 n0 hn0)

theorem helper_reachable_inv (s0 s : ospf) (h0 : helper_idle s0)
    (hr : helper_reachable s0 s) : helper_inv_all s := by
  induction hr with
  | refl => exact helper_idle_inv s0 h0
  | tail _ hstep ih => exact helper_step_inv _ _ hstep ih

/-- C10: starting from an instance whose neighbors are all NotHelping with no
helper timer, after any sequence of calls of `ospf_gr_hlpr_new_lsa`,
`ospf_gr_hlpr_del_lsa`, `ospf_adjacency_grace_period` and
`ospf_gr_check_topology_change`, every neighbor is Helping if and only if its
helper timer handle `helper_t` is set. -/
theorem helper_status_iff_timer (s0 s : ospf) (h0 : helper_idle s0)
    (hr : helper_reachable s0 s) :
    ∀ oi ∈ s.oiflist, ∀ nbr ∈ oi.nbrs,
      (nbr.gr_helper.helper_status = OSPF_GR_HELPING ↔ nbr.gr_helper.helper_t ≠ none) :=
  fun oi hoi nbr hnbr => (helper_reachable_inv s0 s h0 hr oi hoi nbr hnbr).1

theorem sample_idle : helper_idle sample_ospf := by
  unfold helper_idle
  decide

theorem sample_helping_reachable : helper_reachable sample_ospf sample_helping :=
  Relation.ReflTransGen.single
    (helper_step.new_lsa sample_ospf 0 sample_oi 1 ⟨100, 0⟩ ⟨0, 0, 0⟩
      (some (sample_grace_lsa 120 167772162 1 5))
      ⟨0, sample_helping_oi,
        [gr_effect.thread_cancel ⟨thread_func.host, 40⟩,
          gr_effect.thread_add_timer thread_func.ospf_adjacency_grace_period 167772161
            167772162 120]⟩
      rfl rfl)

theorem helper_status_iff_timer_witness :
    (sample_helping_nbr.gr_helper.helper_status = OSPF_GR_HELPING ↔
        sample_helping_nbr.gr_helper.helper_t ≠ none) ∧
      ((sample_nbr 167772163).gr_helper.helper_status = OSPF_GR_HELPING ↔
        (sample_nbr 167772163).gr_helper.helper_t ≠ none) :=
  ⟨helper_status_iff_timer sample_ospf sample_helping sample_idle sample_helping_reachable
      sample_helping_oi (by decide) sample_helping_nbr (by decide),
    helper_status_iff_timer sample_ospf sample_helping sample_idle sample_helping_reachable
      sample_helping_oi (by decide) (sample_nbr 167772163) (by decide)⟩

/-- C7: in a state that the helper handlers reach from an idle instance, when
`ospf_gr_hlpr_del_lsa` is called with a Grace-LSA whose interface address finds
the neighbor `nbr` on the receiving interface: if `nbr` is Helping, its helper
timer is armed and is cancelled, `nbr` ends NotHelping with grace period 0, no
timer handle and exit reason Completed, the ISM event NeighborChange is
executed on the receiving interface, the Router-LSA (and with a DR the
Network-LSA) is updated and no NSM event is scheduled; if `nbr` is not Helping,
nothing changes and no call is made into the host. -/
theorem hlpr_del_lsa_completed (s0 s : ospf) (h0 : helper_idle s0)
    (hr : helper_reachable s0 s) (oi : ospf_interface) (hoi : oi ∈ s.oiflist)
    (locals out : grace_lsa_out) (lsa : ospf_lsa) (lsah : List Nat) (id : Nat)
    (nbr : ospf_neighbor)
    (hdata : lsa.data = some lsah) (htype : rd8 lsah 3 = .ok OSPF_OPAQUE_LINK_LSA)
    (hid : rd32 lsah 4 = .ok id) (hgrace : GET_OPAQUE_TYPE id = OPAQUE_TYPE_GRACE_LSA)
    (hparse : ospf_gr_parse_grace_lsa (some lsah) locals = .ok out)
    (hnbr : ospf_nbr_lookup_by_addr oi.nbrs out.if_addr = some nbr) :
    (nbr.gr_helper.helper_status = OSPF_GR_HELPING →
      ∃ t, nbr.gr_helper.helper_t = some t ∧
        ospf_gr_hlpr_del_lsa locals (some lsa) oi
          = .ok ⟨0, stored_oi oi out.if_addr (helper_left OSPF_GR_COMPLETED nbr),
              [gr_effect.thread_cancel t,
                gr_effect.ism_event_execute oi.address ism_event.ISM_NeighborChange,
                gr_effect.router_lsa_update_area oi.area.area_id] ++ network_lsa_effects oi⟩ ∧
        ∀ a b ev, gr_effect.nsm_event_schedule a b ev ∉
          [gr_effect.thread_cancel t,
            gr_effect.ism_event_execute oi.address ism_event.ISM_NeighborChange,
            gr_effect.router_lsa_update_area oi.area.area_id] ++ network_lsa_effects oi) ∧
    (nbr.gr_helper.helper_status ≠ OSPF_GR_HELPING →
      ospf_gr_hlpr_del_lsa locals (some lsa) oi = .ok ⟨0, oi, []⟩) := by
  have hmem : nbr ∈ oi.nbrs := List.mem_of_find?_eq_some hnbr
  obtain ⟨hiff, hrsn⟩ := helper_reachable_inv s0 s h0 hr oi hoi nbr hmem
  constructor
  · intro hh
    have ht := hiff.1 hh
    have hrs := hrsn hh
    cases hto : nbr.gr_helper.helper_t with
    | none => exact absurd hto ht
    | some t =>
      refine ⟨t, rfl, ?_, ?_⟩
      · simp only [ospf_gr_hlpr_del_lsa, hdata, bind, Except.bind, htype, hid, hgrace, hparse,
          hnbr, hh, ne_eq, not_true_eq_false, if_false, if_true, pure, Except.pure,
          exit_action_effects, hto, hrs]
        rfl
      · intro a b ev
        unfold network_lsa_effects
        split <;> simp
  · intro hh
    simp only [ospf_gr_hlpr_del_lsa, hdata, bind, Except.bind, htype, hid, hgrace, hparse,
      hnbr, hh, ne_eq, not_true_eq_false, if_false, pure, Except.pure]

theorem hlpr_del_lsa_completed_witness :
    (sample_helping_nbr.gr_helper.helper_status = OSPF_GR_HELPING →
      ∃ t, sample_helping_nbr.gr_helper.helper_t = some t ∧
        ospf_gr_hlpr_del_lsa ⟨0, 0, 0⟩ (some (sample_grace_lsa 120 167772162 1 3600))
            sample_helping_oi
          = .ok ⟨0, stored_oi sample_helping_oi (grace_lsa_out.mk 120 167772162 1).if_addr
                (helper_left OSPF_GR_COMPLETED sample_helping_nbr),
              [gr_effect.thread_cancel t,
                gr_effect.ism_event_execute sample_helping_oi.address
                  ism_event.ISM_NeighborChange,
                gr_effect.router_lsa_update_area sample_helping_oi.area.area_id]
                ++ network_lsa_effects sample_helping_oi⟩ ∧
        ∀ a b ev, gr_effect.nsm_event_schedule a b ev ∉
          [gr_effect.thread_cancel t,
            gr_effect.ism_event_execute sample_helping_oi.address
              ism_event.ISM_NeighborChange,
            gr_effect.router_lsa_update_area sample_helping_oi.area.area_id]
            ++ network_lsa_effects sample_helping_oi) ∧
    (sample_helping_nbr.gr_helper.helper_status ≠ OSPF_GR_HELPING →
      ospf_gr_hlpr_del_lsa ⟨0, 0, 0⟩ (some (sample_grace_lsa 120 167772162 1 3600))
        sample_helping_oi = .ok ⟨0, sample_helping_oi, []⟩) :=
  hlpr_del_lsa_completed sample_ospf sample_helping sample_idle sample_helping_reachable
    sample_helping_oi (by decide) ⟨0, 0, 0⟩ ⟨120, 167772162, 1⟩
    (sample_grace_lsa 120 167772162 1 3600) _ 50331648 sample_helping_nbr
    rfl rfl rfl rfl rfl rfl

/-- C9: on a present new LSA whose type can be loaded, if helper_enable and
strict_lsa_check are set, the instance status is NotRestart, the type of the
new LSA lies in 1..7 and the stored copy is absent or differs from the new LSA,
then `ospf_gr_check_topology_change` returns with every neighbor of every
interface passed through `topology_left`: afterwards no neighbor is Helping,
every neighbor that was Helping is NotHelping with exit reason TopologyChange
and has the NSM event InactivityTimer scheduled, and every neighbor that was
not Helping is unchanged.  If one of the conditions fails, the call returns
with the instance unchanged and no call into the host. -/
theorem check_topology_change_strict (helper_enable : Int)
    (ospf_lsa_different : ospf_lsa → ospf_lsa → Bool) (curr_lsa : Option ospf_lsa)
    (new : ospf_lsa) (oi : ospf_interface) (st : ospf) (lsah : List Nat) (type : Nat)
    (hdata : new.data = some lsah) (htype : rd8 lsah 3 = .ok type) :
    (topology_change_cond helper_enable ospf_lsa_different curr_lsa new type st →
      ∃ st1 effects,
        ospf_gr_check_topology_change helper_enable ospf_lsa_different curr_lsa (some new)
          (some oi) (some st) = .ok ⟨0, some st1, effects⟩ ∧
        st1 = { st with oiflist := st.oiflist.map topology_left_oi } ∧
        (∀ oif ∈ st1.oiflist, ∀ nbr ∈ oif.nbrs,
          nbr.gr_helper.helper_status ≠ OSPF_GR_HELPING) ∧
        (∀ oif ∈ st.oiflist, ∀ nbr ∈ oif.nbrs,
          nbr.gr_helper.helper_status = OSPF_GR_HELPING →
            topology_left nbr = helper_left OSPF_GR_TOPOLOGY_CHNAGE nbr ∧
            (topology_left nbr).gr_helper.helper_status = OSPF_GR_NOT_HELPING ∧
            (topology_left nbr).gr_helper.helper_exit_rsn = OSPF_GR_TOPOLOGY_CHNAGE ∧
            gr_effect.nsm_event_schedule oif.address nbr.src nsm_event.NSM_InactivityTimer
              ∈ effects) ∧
        (∀ nbr : ospf_neighbor, nbr.gr_helper.helper_status ≠ OSPF_GR_HELPING →
          topology_left nbr = nbr)) ∧
    (¬ topology_change_cond helper_enable ospf_lsa_different curr_lsa new type st →
      ospf_gr_check_topology_change helper_enable ospf_lsa_different curr_lsa (some new)
        (some oi) (some st) = .ok ⟨0, some st, []⟩) := by
  obtain ⟨hyes, hno⟩ := check_topology_change_cases helper_enable ospf_lsa_different curr_lsa
    new oi st lsah type hdata htype
  refine ⟨fun hc => ⟨_, _, hyes hc, rfl, ?_, ?_, ?_⟩, hno⟩
  · intro oif hoif nbr hnbr
    obtain ⟨o0, _, rfl⟩ := List.mem_map.1 hoif
    obtain ⟨n0, _, rfl⟩ := List.mem_map.1 hnbr
    exact topology_left_not_helping n0
  · intro oif hoif nbr hnbr hh
    have h1 : topology_left nbr = helper_left OSPF_GR_TOPOLOGY_CHNAGE nbr := by
      simp [topology_left, hh]
    exact ⟨h1, by rw [h1]; rfl, by rw [h1]; rfl,
      topology_change_oifs_event st.oiflist oif hoif nbr hnbr hh⟩
  · intro nbr hh
    simp [topology_left, hh]

theorem check_topology_change_strict_witness :
    ∃ st1 effects,
      ospf_gr_check_topology_change 1 (fun _ _ => true) none (some sample_router_lsa)
        (some sample_helping_oi) (some sample_helping) = .ok ⟨0, some st1, effects⟩ ∧
      st1 = { sample_helping with oiflist := sample_helping.oiflist.map topology_left_oi } ∧
      (∀ oif ∈ st1.oiflist, ∀ nbr ∈ oif.nbrs,
        nbr.gr_helper.helper_status ≠ OSPF_GR_HELPING) ∧
      (∀ oif ∈ sample_helping.oiflist, ∀ nbr ∈ oif.nbrs,
        nbr.gr_helper.helper_status = OSPF_GR_HELPING →
          topology_left nbr = helper_left OSPF_GR_TOPOLOGY_CHNAGE nbr ∧
          (topology_left nbr).gr_helper.helper_status = OSPF_GR_NOT_HELPING ∧
          (topology_left nbr).gr_helper.helper_exit_rsn = OSPF_GR_TOPOLOGY_CHNAGE ∧
          gr_effect.nsm_event_schedule oif.address nbr.src nsm_event.NSM_InactivityTimer
            ∈ effects) ∧
      (∀ nbr : ospf_neighbor, nbr.gr_helper.helper_status ≠ OSPF_GR_HELPING →
        topology_left nbr = nbr) :=
  (check_topology_change_strict 1 (fun _ _ => true) none sample_router_lsa sample_helping_oi
    sample_helping _ 1 rfl rfl).1
    ⟨by decide, by decide, by decide, by decide, Or.inl rfl⟩

/-! ### Resume events, grace expiry and the monitor -/

/-- C11: for every interface and every prior resume state,
`ospf_gr_event_handle` sets the resume state to OK on IntAdjComplete and on
Extend and to NOK on Expiry, NbrInconsistent and NoNbr, leaving the other
fields of the interface as they were; NbrInconsistent also sets the instance
exit reason to TopologyChange and leaves the rest of the instance record
(the status included) as it was; the other four events leave the instance
record unchanged. -/
theorem event_handle_table (gr_info : ospf_gr_info) (oi : ospf_interface) :
    ospf_gr_event_handle .RSM_GrIntAdjComplete gr_info oi
        = (gr_info, { oi with gr_state := RSM_GrResOK })
      ∧ ospf_gr_event_handle .RSM_GrExtend gr_info oi
        = (gr_info, { oi with gr_state := RSM_GrResOK })
      ∧ ospf_gr_event_handle .RSM_GrExpiry gr_info oi
        = (gr_info, { oi with gr_state := RSM_GrResNOK })
      ∧ ospf_gr_event_handle .RSM_GrNoNbr gr_info oi
        = (gr_info, { oi with gr_state := RSM_GrResNOK })
      ∧ ospf_gr_event_handle .RSM_GrNbrInconsistent gr_info oi
        = ({ gr_info with gr_exit_reason := (OSPF_GR_TOPOLOGY_CHNAGE : Int) },
            { oi with gr_state := RSM_GrResNOK })
      ∧ (ospf_gr_event_handle .RSM_GrNbrInconsistent gr_info oi).1.gr_status
        = gr_info.gr_status :=
  ⟨rfl, rfl, rfl, rfl, rfl, rfl⟩

theorem grace_period_expiry_loop_eq (gr_info : ospf_gr_info) (l : List ospf_interface) :
    ospf_gr_grace_period_expiry_loop gr_info l
      = (gr_info, l.map (fun oi => { oi with gr_state := RSM_GrResNOK })) := by
  induction l with
  | nil => rfl
  | cons oi l ih =>
    simp only [ospf_gr_grace_period_expiry_loop, ospf_gr_event_handle, ih, List.map_cons]

/-- C13: when the grace expiry timer fires, every interface of the instance has
resume state NOK afterwards, whatever its prior state, with its other fields
as before, and the instance exit reason is Timeout, whatever its prior value,
with the rest of the instance record as before. -/
theorem grace_period_expiry_all_nok (st : ospf) :
    (ospf_gr_grace_period_expiry st).oiflist
        = st.oiflist.map (fun oi => { oi with gr_state := RSM_GrResNOK })
      ∧ (∀ oi ∈ (ospf_gr_grace_period_expiry st).oiflist, oi.gr_state = RSM_GrResNOK)
      ∧ (ospf_gr_grace_period_expiry st).oiflist.length = st.oiflist.length
      ∧ (ospf_gr_grace_period_expiry st).gr_info.gr_exit_reason = (OSPF_GR_TIMEOUT : Int)
      ∧ (ospf_gr_grace_period_expiry st).gr_info
        = { st.gr_info with gr_exit_reason := (OSPF_GR_TIMEOUT : Int) } := by
  have h : (ospf_gr_grace_period_expiry st).oiflist
      = st.oiflist.map (fun oi => { oi with gr_state := RSM_GrResNOK }) := by
    simp only [ospf_gr_grace_period_expiry, grace_period_expiry_loop_eq]
  refine ⟨h, ?_, ?_, ?_, ?_⟩
  · intro oi hoi
    rw [h] at hoi
    obtain ⟨o, _, rfl⟩ := List.mem_map.1 hoi
    rfl
  · rw [h]; simp
  · simp only [ospf_gr_grace_period_expiry, grace_period_expiry_loop_eq]
  · simp only [ospf_gr_grace_period_expiry, grace_period_expiry_loop_eq]

theorem restart_monitor_count_eq (l : List ospf_interface) (okcnt nokcnt cnt : Nat) :
    ospf_gr_restart_monitor_count l okcnt nokcnt cnt
      = (okcnt + l.countP (fun oi => decide (oi.gr_state = RSM_GrResOK)),
          nokcnt + l.countP (fun oi => decide (oi.gr_state = RSM_GrResNOK)),
          cnt + l.length) := by
  induction l generalizing okcnt nokcnt cnt with
  | nil => simp [ospf_gr_restart_monitor_count]
  | cons oi l ih =>
    simp only [ospf_gr_restart_monitor_count, ih, List.countP_cons, List.length_cons]
    by_cases h1 : oi.gr_state = RSM_GrResOK <;> by_cases h2 : oi.gr_state = RSM_GrResNOK <;>
      simp [h1, h2] <;> omega

theorem countP_disjoint {α : Type} (p q : α → Bool)
    (hd : ∀ x, ¬ (p x = true ∧ q x = true)) (l : List α) :
    l.countP p + l.countP q ≤ l.length
      ∧ (l.length = l.countP p + l.countP q ↔ ∀ x ∈ l, q x = true ∨ p x = true) := by
  induction l with
  | nil => simp
  | cons x l ih =>
    obtain ⟨hle, hiff⟩ := ih
    have hx := hd x
    cases hp : p x <;> cases hq : q x
    · simp only [List.countP_cons, hp, hq, List.length_cons, List.mem_cons, forall_eq_or_imp]
      simp
      omega
    · simp only [List.countP_cons, hp, hq, List.length_cons, List.mem_cons, forall_eq_or_imp]
      simp only [if_true, ← hiff]
      simp
      omega
    · simp only [List.countP_cons, hp, hq, List.length_cons, List.mem_cons, forall_eq_or_imp]
      simp only [if_true, ← hiff]
      simp
      omega
    · exact absurd ⟨hp, hq⟩ hx

theorem count_ok_nok (l : List ospf_interface) :
    l.length = l.countP (fun oi => decide (oi.gr_state = RSM_GrResNOK))
        + l.countP (fun oi => decide (oi.gr_state = RSM_GrResOK))
      ↔ ∀ oi ∈ l, oi.gr_state = RSM_GrResOK ∨ oi.gr_state = RSM_GrResNOK := by
  have h := (countP_disjoint (fun oi : ospf_interface => decide (oi.gr_state = RSM_GrResNOK))
    (fun oi => decide (oi.gr_state = RSM_GrResOK))
    (by
      intro x hx
      simp only [decide_eq_true_eq] at hx
      have := hx.1.symm.trans hx.2
      exact absurd this (by decide)) l).2
  rw [h]
  simp

theorem count_ok_all (l : List ospf_interface) :
    l.length = l.countP (fun oi => decide (oi.gr_state = RSM_GrResOK))
      ↔ ∀ oi ∈ l, oi.gr_state = RSM_GrResOK := by
  rw [eq_comm, List.countP_eq_length]
  simp

/-- C12: if every interface of the instance has resume state OK or NOK,
`ospf_gr_restart_monitor` sets the status to NotRestart, sets the exit reason
to Completed when every interface is OK and leaves it unchanged otherwise,
leaves the rest of the instance as it was, and posts the instance-exit task
only if none is pending; if some interface has another resume state, it
changes nothing in the instance, posts no exit task and adds the monitor timer
again for 10 s. -/
theorem restart_monitor_step (t : Option thread) (st : ospf) :
    ((∀ oi ∈ st.oiflist, oi.gr_state = RSM_GrResOK ∨ oi.gr_state = RSM_GrResNOK) →
        (ospf_gr_restart_monitor t st).ospf.gr_info.gr_status = (OSPF_GR_NOT_RESTART : Int)
        ∧ ((∀ oi ∈ st.oiflist, oi.gr_state = RSM_GrResOK) →
            (ospf_gr_restart_monitor t st).ospf = { st with gr_info := { st.gr_info with
              gr_status := (OSPF_GR_NOT_RESTART : Int),
              gr_exit_reason := (OSPF_GR_COMPLETED : Int) } })
        ∧ ((¬ ∀ oi ∈ st.oiflist, oi.gr_state = RSM_GrResOK) →
            (ospf_gr_restart_monitor t st).ospf = { st with gr_info := { st.gr_info with
              gr_status := (OSPF_GR_NOT_RESTART : Int) } })
        ∧ (t = none →
            (ospf_gr_restart_monitor t st).restart_status_t
                = some ⟨thread_func.ospf_ins_restart_status, 0⟩
              ∧ (ospf_gr_restart_monitor t st).effects
                = [gr_effect.thread_add_event_master thread_func.ospf_ins_restart_status])
        ∧ (∀ pending, t = some pending →
            (ospf_gr_restart_monitor t st).restart_status_t = some pending
              ∧ (ospf_gr_restart_monitor t st).effects = []))
      ∧ ((¬ ∀ oi ∈ st.oiflist, oi.gr_state = RSM_GrResOK ∨ oi.gr_state = RSM_GrResNOK) →
        (ospf_gr_restart_monitor t st).ospf = st
        ∧ (ospf_gr_restart_monitor t st).restart_status_t = t
        ∧ (ospf_gr_restart_monitor t st).effects
          = [gr_effect.thread_add_timer_ospf thread_func.ospf_gr_restart_monitor 10]) := by
  have hdone := count_ok_nok st.oiflist
  have hok := count_ok_all st.oiflist
  have hunf : ospf_gr_restart_monitor t st =
      if st.oiflist.length
          = st.oiflist.countP (fun oi => decide (oi.gr_state = RSM_GrResNOK))
            + st.oiflist.countP (fun oi => decide (oi.gr_state = RSM_GrResOK)) then
        match t with
        | none =>
          ⟨{ st with gr_info :=
              if st.oiflist.length
                  = st.oiflist.countP (fun oi => decide (oi.gr_state = RSM_GrResOK)) then
                { st.gr_info with gr_status := (OSPF_GR_NOT_RESTART : Int),
                                  gr_exit_reason := (OSPF_GR_COMPLETED : Int) }
              else { st.gr_info with gr_status := (OSPF_GR_NOT_RESTART : Int) } },
            some ⟨thread_func.ospf_ins_restart_status, 0⟩,
            [gr_effect.thread_add_event_master thread_func.ospf_ins_restart_status]⟩
        | some x =>
          ⟨{ st with gr_info :=
              if st.oiflist.length
                  = st.oiflist.countP (fun oi => decide (oi.gr_state = RSM_GrResOK)) then
                { st.gr_info with gr_status := (OSPF_GR_NOT_RESTART : Int),
                                  gr_exit_reason := (OSPF_GR_COMPLETED : Int) }
              else { st.gr_info with gr_status := (OSPF_GR_NOT_RESTART : Int) } },
            some x, []⟩
      else
        ⟨st, t, [gr_effect.thread_add_timer_ospf thread_func.ospf_gr_restart_monitor 10]⟩ := by
    simp only [ospf_gr_restart_monitor, restart_monitor_count_eq, Nat.zero_add]
  rw [hunf]
  constructor
  · intro hall
    rw [if_pos (hdone.2 hall)]
    by_cases hallok : ∀ oi ∈ st.oiflist, oi.gr_state = RSM_GrResOK
    · cases t with
      | none =>
        dsimp only
        rw [if_pos (hok.2 hallok)]
        refine ⟨rfl, fun _ => rfl, fun h => absurd hallok h, fun _ => ⟨rfl, rfl⟩, ?_⟩
        intro _ hp
        cases hp
      | some x =>
        dsimp only
        rw [if_pos (hok.2 hallok)]
        refine ⟨rfl, fun _ => rfl, fun h => absurd hallok h, ?_, ?_⟩
        · intro hp
          cases hp
        · intro _ hp
          cases hp
          exact ⟨rfl, rfl⟩
    · have hc2 : ¬ st.oiflist.length
          = st.oiflist.countP (fun oi => decide (oi.gr_state = RSM_GrResOK)) :=
        fun h => hallok (hok.1 h)
      cases t with
      | none =>
        dsimp only
        rw [if_neg hc2]
        refine ⟨rfl, fun h => absurd h hallok, fun _ => rfl, fun _ => ⟨rfl, rfl⟩, ?_⟩
        intro _ hp
        cases hp
      | some x =>
        dsimp only
        rw [if_neg hc2]
        refine ⟨rfl, fun h => absurd h hallok, fun _ => rfl, ?_, ?_⟩
        · intro hp
          cases hp
        · intro _ hp
          cases hp
          exact ⟨rfl, rfl⟩
  · intro hnot
    rw [if_neg (fun h => hnot (hdone.1 h))]
    exact ⟨rfl, rfl, rfl⟩

/-! ### The ISM hook -/

/-- C15 (as the code has it): for an interface of an instance whose status is
not NotRestart, whose resume state is idle and whose ISM state is PointToPoint,
DROther or Waiting, `ospf_gr_ism_change` sets the resume state to InProgress,
adds the instance monitor timer for 10 s if its handle is not set, and adds the
no-neighbor watchdog of the interface for twice `v_wait` seconds, the product
taken in 32-bit unsigned arithmetic, which is `2 * v_wait` when `v_wait` is
below 2^31; these timers are its only calls into the host, so it originates no
Grace-LSA.  For an interface whose resume state is not idle, or whose instance
is NotRestart, the hook changes nothing. -/
theorem ism_change_interface_up (gr_info : ospf_gr_info) (oi : ospf_interface) :
    (gr_info.gr_status ≠ (OSPF_GR_NOT_RESTART : Int) → oi.gr_state = 0 →
      (oi.state = ism_state.ISM_PointToPoint ∨ oi.state = ism_state.ISM_DROther ∨
        oi.state = ism_state.ISM_Waiting) →
      (ospf_gr_ism_change gr_info oi).oi
          = ism_started_oi oi
        ∧ (gr_info.gr_monitor_t = none →
            (ospf_gr_ism_change gr_info oi).gr_info
                = monitor_armed gr_info
              ∧ (ospf_gr_ism_change gr_info oi).effects
                = [gr_effect.thread_add_timer_ospf thread_func.ospf_gr_restart_monitor 10,
                    gr_effect.thread_add_timer_oi thread_func.ospf_gr_no_nbr_monitor oi.address
                      (2 * oi.v_wait % 4294967296)])
        ∧ (∀ t, gr_info.gr_monitor_t = some t →
            (ospf_gr_ism_change gr_info oi).gr_info = gr_info
              ∧ (ospf_gr_ism_change gr_info oi).effects
                = [gr_effect.thread_add_timer_oi thread_func.ospf_gr_no_nbr_monitor oi.address
                      (2 * oi.v_wait % 4294967296)])
        ∧ (oi.v_wait < 2147483648 → 2 * oi.v_wait % 4294967296 = 2 * oi.v_wait)
        ∧ (∀ a lsa, gr_effect.lsa_install a lsa ∉ (ospf_gr_ism_change gr_info oi).effects
            ∧ gr_effect.flood_through_area a lsa ∉ (ospf_gr_ism_change gr_info oi).effects))
      ∧ ((oi.gr_state ≠ 0 ∨ gr_info.gr_status = (OSPF_GR_NOT_RESTART : Int)) →
        ospf_gr_ism_change gr_info oi = ⟨gr_info, oi, []⟩) := by
  constructor
  · intro hst hidle hism
    have hge : ¬ oi.gr_state ≥ RSM_GrResInProgress := by rw [hidle]; decide
    have hst1 : ¬ gr_info.gr_status = (OSPF_GR_NOT_RESTART : Int) := hst
    have hw : oi.v_wait < 2147483648 → 2 * oi.v_wait % 4294967296 = 2 * oi.v_wait := by
      intro h
      exact Nat.mod_eq_of_lt (by omega)
    cases hm : gr_info.gr_monitor_t with
    | none =>
      have e : ospf_gr_ism_change gr_info oi
          = ⟨monitor_armed gr_info, ism_started_oi oi,
              [gr_effect.thread_add_timer_ospf thread_func.ospf_gr_restart_monitor 10,
                gr_effect.thread_add_timer_oi thread_func.ospf_gr_no_nbr_monitor oi.address
                  (2 * oi.v_wait % 4294967296)]⟩ := by
        unfold ospf_gr_ism_change
        rw [if_neg hst1, if_neg hge]
        obtain ⟨a, ar, d, n, ist, g, mo, v, nl⟩ := oi
        obtain ⟨he, ge, gp, sl, gs, stt, er, mt, et⟩ := gr_info
        simp only at hism hm
        subst hm
        rcases hism with h | h | h <;> subst h <;> rfl
      rw [e]
      refine ⟨rfl, fun _ => ⟨rfl, rfl⟩, ?_, hw, ?_⟩
      · intro t ht
        cases ht
      · intro a lsa
        simp
    | some t =>
      have e : ospf_gr_ism_change gr_info oi
          = ⟨gr_info, ism_started_oi oi,
              [gr_effect.thread_add_timer_oi thread_func.ospf_gr_no_nbr_monitor oi.address
                  (2 * oi.v_wait % 4294967296)]⟩ := by
        unfold ospf_gr_ism_change
        rw [if_neg hst1, if_neg hge]
        obtain ⟨a, ar, d, n, ist, g, mo, v, nl⟩ := oi
        obtain ⟨he, ge, gp, sl, gs, stt, er, mt, et⟩ := gr_info
        simp only at hism hm
        subst hm
        rcases hism with h | h | h <;> subst h <;> rfl
      rw [e]
      refine ⟨rfl, ?_, ?_, hw, ?_⟩
      · intro ht
        cases ht
      · intro t1 _
        exact ⟨rfl, rfl⟩
      · intro a lsa
        simp
  · intro h
    unfold ospf_gr_ism_change
    rcases h with h | h
    · have hge : oi.gr_state ≥ RSM_GrResInProgress := by
        show 1 ≤ oi.gr_state
        omega
      rw [if_pos hge]
      split <;> rfl
    · rw [if_pos h]

/-- C15 (counterexample): the interface 10.0.1.1 of a restarting instance is
idle and in ISM state Waiting; `ospf_gr_ism_change` adds the two timers and
makes no other call into the host: no Grace-LSA is installed or flooded. -/
theorem ism_change_originates_nothing :
    sample_restart_ospf.gr_info.gr_status ≠ (OSPF_GR_NOT_RESTART : Int)
      ∧ sample_up_oi.gr_state = 0
      ∧ sample_up_oi.state = ism_state.ISM_Waiting
      ∧ (ospf_gr_ism_change sample_restart_ospf.gr_info sample_up_oi).effects
        = [gr_effect.thread_add_timer_ospf thread_func.ospf_gr_restart_monitor 10,
            gr_effect.thread_add_timer_oi thread_func.ospf_gr_no_nbr_monitor 167772417 80]
      ∧ ¬ ∃ a lsa, gr_effect.lsa_install a lsa
            ∈ (ospf_gr_ism_change sample_restart_ospf.gr_info sample_up_oi).effects
          ∨ gr_effect.flood_through_area a lsa
            ∈ (ospf_gr_ism_change sample_restart_ospf.gr_info sample_up_oi).effects := by
  refine ⟨by decide, rfl, rfl, rfl, ?_⟩
  rintro ⟨a, lsa, h | h⟩ <;> simp [show (ospf_gr_ism_change sample_restart_ospf.gr_info
    sample_up_oi).effects
      = [gr_effect.thread_add_timer_ospf thread_func.ospf_gr_restart_monitor 10,
          gr_effect.thread_add_timer_oi thread_func.ospf_gr_no_nbr_monitor 167772417 80]
      from rfl] at h

/-! ### Leaving restarting mode -/

theorem lsa_new_same (rsn : Int) (tail : reason_tail) (o o1 : ospf) (area : ospf_area)
    (oi : ospf_interface) (h1 : o1.router_id = o.router_id) (h2 : o1.gr_info = o.gr_info) :
    ospf_gr_lsa_new rsn tail o1 area oi = ospf_gr_lsa_new rsn tail o area oi := by
  simp only [ospf_gr_lsa_new, ospf_gr_lsa_body_set, ospf_gr_grace_period_tlv, h1, h2]

theorem originate_same (install : ospf_interface → ospf_lsa → Bool) (sh : Bool) (rsn : Int)
    (tail : reason_tail) (o o1 : ospf) (oi : ospf_interface)
    (h1 : o1.router_id = o.router_id) (h2 : o1.gr_info = o.gr_info) :
    (ospf_gr_lsa_originate install sh rsn tail o1 oi).effects
      = (ospf_gr_lsa_originate install sh rsn tail o oi).effects := by
  unfold ospf_gr_lsa_originate
  rw [lsa_new_same rsn tail o o1 oi.area oi h1 h2, h2]
  dsimp only
  split_ifs <;> rfl

theorem originate_keeps (install : ospf_interface → ospf_lsa → Bool) (sh : Bool) (rsn : Int)
    (tail : reason_tail) (o : ospf) (oi : ospf_interface) :
    (ospf_gr_lsa_originate install sh rsn tail o oi).ospf.router_id = o.router_id
      ∧ (ospf_gr_lsa_originate install sh rsn tail o oi).ospf.gr_info = o.gr_info
      ∧ (ospf_gr_lsa_originate install sh rsn tail o oi).ospf.oiflist = o.oiflist := by
  unfold ospf_gr_lsa_originate
  dsimp only
  split_ifs <;> exact ⟨rfl, rfl, rfl⟩

theorem restart_exit_loop_eq (install : ospf_interface → ospf_lsa → Bool) (sh : Bool)
    (rsn : Int) (tail : reason_tail) (o : ospf) :
    ∀ (l : List ospf_interface) (o1 : ospf), o1.router_id = o.router_id →
      o1.gr_info = o.gr_info → o1.oiflist = o.oiflist →
      (ospf_gr_restart_exit_action_loop install sh rsn tail o1 l).2
          = restart_exit_sequence install sh rsn tail o l
        ∧ (ospf_gr_restart_exit_action_loop install sh rsn tail o1 l).1.router_id = o.router_id
        ∧ (ospf_gr_restart_exit_action_loop install sh rsn tail o1 l).1.gr_info = o.gr_info
        ∧ (ospf_gr_restart_exit_action_loop install sh rsn tail o1 l).1.oiflist = o.oiflist := by
  intro l
  induction l with
  | nil =>
    intro o1 h1 h2 h3
    exact ⟨rfl, h1, h2, h3⟩
  | cons oi l ih =>
    intro o1 h1 h2 h3
    obtain ⟨k1, k2, k3⟩ := originate_keeps install sh rsn tail o1 oi
    obtain ⟨e, r1, r2, r3⟩ := ih (ospf_gr_lsa_originate install sh rsn tail o1 oi).ospf
      (k1.trans h1) (k2.trans h2) (k3.trans h3)
    refine ⟨?_, r1, r2, r3⟩
    simp only [ospf_gr_restart_exit_action_loop, restart_exit_sequence, e,
      originate_same install sh rsn tail o o1 oi h1 h2]

/-- C17 (counterexample): an instance with two interfaces leaves restarting
mode with exit reason Timeout; the Router-LSA update made for the first
interface comes before the flooding of the MaxAge Grace-LSA on the second
interface. -/
theorem restart_exit_router_before_grace :
    sample_timeout_ospf.gr_info.gr_exit_reason = (OSPF_GR_TIMEOUT : Int)
      ∧ (ospf_gr_restart_exit_action (fun _ _ => true) false 1 ⟨0, 0, 0⟩
          sample_timeout_ospf).effects
        = [gr_effect.lsa_install 167772417 sample_maxage_lsa,
            gr_effect.flood_through_area 0 sample_maxage_lsa,
            gr_effect.router_lsa_update_area 0,
            gr_effect.lsa_flush_area sample_router_lsa 0,
            gr_effect.lsa_install 167772673 sample_maxage_lsa2,
            gr_effect.flood_through_area 0 sample_maxage_lsa2,
            gr_effect.router_lsa_update_area 0,
            gr_effect.network_lsa_update 167772673]
      ∧ ¬ grace_flood_first (ospf_gr_restart_exit_action (fun _ _ => true) false 1 ⟨0, 0, 0⟩
          sample_timeout_ospf).effects := by
  have he : (ospf_gr_restart_exit_action (fun _ _ => true) false 1 ⟨0, 0, 0⟩
      sample_timeout_ospf).effects
        = [gr_effect.lsa_install 167772417 sample_maxage_lsa,
            gr_effect.flood_through_area 0 sample_maxage_lsa]
          ++ gr_effect.router_lsa_update_area 0
            :: [gr_effect.lsa_flush_area sample_router_lsa 0,
                gr_effect.lsa_install 167772673 sample_maxage_lsa2,
                gr_effect.flood_through_area 0 sample_maxage_lsa2,
                gr_effect.router_lsa_update_area 0,
                gr_effect.network_lsa_update 167772673] := by
    rfl
  refine ⟨rfl, he, ?_⟩
  intro h
  exact h _ _ _ he trivial 0 sample_maxage_lsa2
    (List.mem_cons_of_mem _ (List.mem_cons_of_mem _ (List.mem_cons_self _ _)))

/-! ### The instance-exit task -/

theorem originate_exit (install : ospf_interface → ospf_lsa → Bool) (sh : Bool) (rsn : Int)
    (tail : reason_tail) (o : ospf) (oi : ospf_interface)
    (hne : o.gr_info.gr_exit_reason ≠ (OSPF_GR_NONE : Int)) :
    (ospf_gr_lsa_originate install sh rsn tail o oi).effects ++ ospf_gr_restart_exit_lsas oi
      = exit_calls_of_interface install rsn tail o oi := by
  unfold ospf_gr_lsa_originate exit_calls_of_interface ospf_gr_restart_exit_lsas maxage_grace_lsa
  rw [if_neg (fun h => hne h.2)]
  dsimp only
  rw [if_pos hne]
  cases hi : install oi (set_ls_age_maxage (ospf_gr_lsa_new rsn tail o oi.area oi)) <;> simp

theorem restart_exit_sequence_eq (install : ospf_interface → ospf_lsa → Bool) (sh : Bool)
    (rsn : Int) (tail : reason_tail) (o : ospf)
    (hne : o.gr_info.gr_exit_reason ≠ (OSPF_GR_NONE : Int)) (l : List ospf_interface) :
    restart_exit_sequence install sh rsn tail o l
      = exit_calls_of_interfaces install rsn tail o l := by
  induction l with
  | nil => rfl
  | cons oi l ih =>
    simp only [restart_exit_sequence, exit_calls_of_interfaces, ih,
      originate_exit install sh rsn tail o oi hne]

theorem ins_restart_status_loop_eq (install : ospf_interface → ospf_lsa → Bool) (sh : Bool)
    (tail : reason_tail) (l : List ospf) :
    (∀ o ∈ l, o.gr_info.gr_exit_reason ≠ (OSPF_GR_NONE : Int)) →
    ∀ rsn : Int, (ospf_ins_restart_status_loop install sh tail rsn l).2.2
      = exit_calls_of_instances install tail rsn l := by
  induction l with
  | nil => intro _ _; rfl
  | cons o l ih =>
    intro h rsn
    have ho := h o (List.mem_cons_self _ _)
    have hl := ih (fun x hx => h x (List.mem_cons_of_mem _ hx))
    have e1 : (ospf_gr_restart_exit_action install sh rsn tail o).effects
        = exit_calls_of_interfaces install rsn tail o o.oiflist := by
      have := (restart_exit_loop_eq install sh rsn tail o o.oiflist o rfl rfl rfl).1
      rw [restart_exit_sequence_eq install sh rsn tail o ho] at this
      exact this
    have e2 : (ospf_gr_restart_exit_action install sh rsn tail o).gr_restart_rsn
        = (GR_REASON_UNKNOWN : Int) := rfl
    simp only [ospf_ins_restart_status_loop, exit_calls_of_instances, e1, e2, hl]

theorem maxage_grace_lsa_age (rsn : Int) (tail : reason_tail) (o : ospf) (oi : ospf_interface) :
    (maxage_grace_lsa rsn tail o oi).LS_AGE = OSPF_LSA_MAXAGE
      ∧ ∃ d, (maxage_grace_lsa rsn tail o oi).data = some d
          ∧ rd16 d 0 = .ok OSPF_LSA_MAXAGE := by
  refine ⟨rfl, _, rfl, ?_⟩
  rfl

theorem exit_calls_of_interfaces_append (install : ospf_interface → ospf_lsa → Bool)
    (rsn : Int) (tail : reason_tail) (o : ospf) (pre post : List ospf_interface) :
    exit_calls_of_interfaces install rsn tail o (pre ++ post)
      = exit_calls_of_interfaces install rsn tail o pre
        ++ exit_calls_of_interfaces install rsn tail o post := by
  induction pre with
  | nil => rfl
  | cons oi pre ih =>
    show exit_calls_of_interface install rsn tail o oi
        ++ exit_calls_of_interfaces install rsn tail o (pre ++ post) = _
    rw [ih]
    simp only [exit_calls_of_interfaces, List.append_assoc]

/-- C17 (as the code has it): when an instance leaves restarting mode with
exit reason Timeout or TopologyChange, the calls of
`ospf_gr_restart_exit_action` are made interface by interface in list order.
For each interface they are, in this order: the install of the Grace-LSA of
the interface with age MaxAge, its flooding through the area when the host has
accepted it, the Router-LSA update of the area, and the Network-LSA update if
the interface has a DR, else the flush of its self-originated Network-LSA if
there is one.  All calls of the interfaces before it in the list come first and
all calls of the interfaces behind it come after: the Grace-LSA of an interface
precedes the Router-LSA and Network-LSA calls of the same interface, not those
of earlier interfaces. -/
theorem restart_exit_action_order (install : ospf_interface → ospf_lsa → Bool) (sh : Bool)
    (rsn : Int) (tail : reason_tail) (o : ospf)
    (hr : o.gr_info.gr_exit_reason = (OSPF_GR_TIMEOUT : Int)
      ∨ o.gr_info.gr_exit_reason = (OSPF_GR_TOPOLOGY_CHNAGE : Int)) :
    ∀ pre oi post, o.oiflist = pre ++ oi :: post →
      (ospf_gr_restart_exit_action install sh rsn tail o).effects
          = exit_calls_of_interfaces install rsn tail o pre
            ++ ([gr_effect.lsa_install oi.address (maxage_grace_lsa rsn tail o oi)]
              ++ (if install oi (maxage_grace_lsa rsn tail o oi) = true then
                    [gr_effect.flood_through_area oi.area.area_id
                      (maxage_grace_lsa rsn tail o oi)]
                  else [])
              ++ [gr_effect.router_lsa_update_area oi.area.area_id]
              ++ (if oi.dr ≠ 0 then [gr_effect.network_lsa_update oi.address]
                  else
                    match oi.network_lsa_self with
                    | some lsa => [gr_effect.lsa_flush_area lsa oi.area.area_id]
                    | none => []))
            ++ exit_calls_of_interfaces install rsn tail o post
        ∧ (maxage_grace_lsa rsn tail o oi).LS_AGE = OSPF_LSA_MAXAGE
        ∧ ∃ d, (maxage_grace_lsa rsn tail o oi).data = some d
            ∧ rd16 d 0 = .ok OSPF_LSA_MAXAGE := by
  intro pre oi post hl
  have hne : o.gr_info.gr_exit_reason ≠ (OSPF_GR_NONE : Int) := by
    rcases hr with e | e <;> rw [e] <;> decide
  have he : (ospf_gr_restart_exit_action install sh rsn tail o).effects
      = exit_calls_of_interfaces install rsn tail o o.oiflist := by
    have := (restart_exit_loop_eq install sh rsn tail o o.oiflist o rfl rfl rfl).1
    rw [restart_exit_sequence_eq install sh rsn tail o hne] at this
    exact this
  refine ⟨?_, maxage_grace_lsa_age rsn tail o oi⟩
  rw [he, hl, exit_calls_of_interfaces_append]
  simp only [exit_calls_of_interfaces, exit_calls_of_interface, List.append_assoc]

theorem restart_exit_action_order_witness :
    (sample_timeout_ospf.gr_info.gr_exit_reason = (OSPF_GR_TIMEOUT : Int)
        ∨ sample_timeout_ospf.gr_info.gr_exit_reason = (OSPF_GR_TOPOLOGY_CHNAGE : Int))
      ∧ sample_timeout_ospf.oiflist = [sample_nok_oi] ++ sample_nok_oi2 :: []
      ∧ (ospf_gr_restart_exit_action (fun _ _ => true) false 1 ⟨0, 0, 0⟩
            sample_timeout_ospf).effects
          = exit_calls_of_interfaces (fun _ _ => true) 1 ⟨0, 0, 0⟩ sample_timeout_ospf
              [sample_nok_oi]
            ++ ([gr_effect.lsa_install sample_nok_oi2.address
                  (maxage_grace_lsa 1 ⟨0, 0, 0⟩ sample_timeout_ospf sample_nok_oi2)]
              ++ (if (fun _ _ => true) sample_nok_oi2
                      (maxage_grace_lsa 1 ⟨0, 0, 0⟩ sample_timeout_ospf sample_nok_oi2) = true then
                    [gr_effect.flood_through_area sample_nok_oi2.area.area_id
                      (maxage_grace_lsa 1 ⟨0, 0, 0⟩ sample_timeout_ospf sample_nok_oi2)]
                  else [])
              ++ [gr_effect.router_lsa_update_area sample_nok_oi2.area.area_id]
              ++ (if sample_nok_oi2.dr ≠ 0 then
                    [gr_effect.network_lsa_update sample_nok_oi2.address]
                  else
                    match sample_nok_oi2.network_lsa_self with
                    | some lsa => [gr_effect.lsa_flush_area lsa sample_nok_oi2.area.area_id]
                    | none => []))
            ++ exit_calls_of_interfaces (fun _ _ => true) 1 ⟨0, 0, 0⟩ sample_timeout_ospf []
        ∧ (maxage_grace_lsa 1 ⟨0, 0, 0⟩ sample_timeout_ospf sample_nok_oi2).LS_AGE
            = OSPF_LSA_MAXAGE
        ∧ ∃ d, (maxage_grace_lsa 1 ⟨0, 0, 0⟩ sample_timeout_ospf sample_nok_oi2).data = some d
            ∧ rd16 d 0 = .ok OSPF_LSA_MAXAGE :=
  ⟨Or.inl rfl, rfl,
    restart_exit_action_order (fun _ _ => true) false 1 ⟨0, 0, 0⟩ sample_timeout_ospf
      (Or.inl rfl) [sample_nok_oi] sample_nok_oi2 [] rfl⟩

/-- C16: when `ospf_ins_restart_status` runs and every instance's exit reason
is Completed, Timeout or TopologyChange, it clears the restart-in-progress flag
and makes, for every interface of every instance in list order, exactly these
calls: the Grace-LSA with age MaxAge is handed to the host for installation
(and flooded when the host accepts it), the Router-LSA of the interface's area
is re-originated, and the Network-LSA is re-originated if the interface has a
DR, else the self-originated Network-LSA is flushed if there is one.  The
originated LSA has `LS_AGE` MaxAge and the age field of its header holds
MaxAge.  When some instance's exit reason is None or InProgress the task makes
no call and changes nothing but its own handle, so the flag stays as it was. -/
theorem ins_restart_status_exit (install : ospf_interface → ospf_lsa → Bool) (rsn : Int)
    (tail : reason_tail) (m : ospf_master) :
    ((∀ o ∈ m.ospf, o.gr_info.gr_exit_reason = (OSPF_GR_COMPLETED : Int)
          ∨ o.gr_info.gr_exit_reason = (OSPF_GR_TIMEOUT : Int)
          ∨ o.gr_info.gr_exit_reason = (OSPF_GR_TOPOLOGY_CHNAGE : Int)) →
        (ospf_ins_restart_status install rsn tail m).m.gr_restart_in_progress = false
          ∧ (ospf_ins_restart_status install rsn tail m).m.restart_status_t = none
          ∧ (ospf_ins_restart_status install rsn tail m).effects
              = exit_calls_of_instances install tail rsn m.ospf)
      ∧ (∀ (rsn1 : Int) (o : ospf) (oi : ospf_interface),
          (maxage_grace_lsa rsn1 tail o oi).LS_AGE = OSPF_LSA_MAXAGE
            ∧ ∃ d, (maxage_grace_lsa rsn1 tail o oi).data = some d
                ∧ rd16 d 0 = .ok OSPF_LSA_MAXAGE)
      ∧ ((∃ o ∈ m.ospf, o.gr_info.gr_exit_reason = (OSPF_GR_NONE : Int)
            ∨ o.gr_info.gr_exit_reason = (OSPF_GR_IN_PROGRESS : Int)) →
          ospf_ins_restart_status install rsn tail m
            = ⟨{ m with restart_status_t := none }, rsn, []⟩) := by
  refine ⟨?_, fun rsn1 o oi => maxage_grace_lsa_age rsn1 tail o oi, ?_⟩
  · intro h
    have hany : (m.ospf.any
        (fun o => decide (o.gr_info.gr_exit_reason ≤ (OSPF_GR_IN_PROGRESS : Int)))) = false := by
      rw [List.any_eq_false]
      intro o ho
      have := h o ho
      simp only [decide_eq_true_eq]
      rcases this with e | e | e <;> rw [e] <;> decide
    have hne : ∀ o ∈ m.ospf, o.gr_info.gr_exit_reason ≠ (OSPF_GR_NONE : Int) := by
      intro o ho
      rcases h o ho with e | e | e <;> rw [e] <;> decide
    unfold ospf_ins_restart_status
    dsimp only
    rw [hany]
    refine ⟨rfl, rfl, ?_⟩
    exact ins_restart_status_loop_eq install _ tail m.ospf hne rsn
  · intro h
    obtain ⟨o, ho, hr⟩ := h
    have hany : (m.ospf.any
        (fun o => decide (o.gr_info.gr_exit_reason ≤ (OSPF_GR_IN_PROGRESS : Int)))) = true := by
      rw [List.any_eq_true]
      refine ⟨o, ho, ?_⟩
      simp only [decide_eq_true_eq]
      rcases hr with e | e
      · rw [e]; decide
      · rw [e]
    unfold ospf_ins_restart_status
    dsimp only
    rw [hany]
    rfl

/-! ### The adjacency consistency check -/

/-- C19: the consistency check hands exactly these events to
`ospf_gr_event_handle`.  Case A, the DR of the interface is the interface's own
address: NbrInconsistent if the area has no self Router-LSA; else, if the
Router-LSA test returns AdjOK, IntAdjComplete when the Network-LSA test returns
AdjOK, NbrInconsistent when it returns AdjNOK and no event when it returns
AdjInProgress; no event when the Router-LSA test returns another value than
AdjOK.  Case B, not DR: IntAdjComplete if the Router-LSA test returns AdjOK,
else NbrInconsistent.  The function is this dispatch applied to the outcomes of
`ospf_gr_examine_router_lsa` and `ospf_gr_examine_network_lsa`. -/
theorem consistency_check_dispatch (gr_info : ospf_gr_info) (oi : ospf_interface)
    (network : Except gr_fault Nat) (r : Nat) :
    (oi.dr = oi.address →
        (oi.area.router_lsa_self = none →
          ∀ router, ospf_gr_adjacency_consistency_check_on router network gr_info oi
            = .ok (consistency_event ospf_gr_event.RSM_GrNbrInconsistent gr_info oi))
        ∧ (oi.area.router_lsa_self ≠ none →
            ospf_gr_adjacency_consistency_check_on (.ok OSPF_GR_ADJ_OK) (.ok OSPF_GR_ADJ_OK)
                gr_info oi
              = .ok (consistency_event ospf_gr_event.RSM_GrIntAdjComplete gr_info oi)
            ∧ ospf_gr_adjacency_consistency_check_on (.ok OSPF_GR_ADJ_OK) (.ok OSPF_GR_ADJ_NOK)
                gr_info oi
              = .ok (consistency_event ospf_gr_event.RSM_GrNbrInconsistent gr_info oi)
            ∧ ospf_gr_adjacency_consistency_check_on (.ok OSPF_GR_ADJ_OK)
                (.ok OSPF_GR_ADJ_INPRGRESS) gr_info oi
              = .ok ⟨gr_info, oi, []⟩
            ∧ (r ≠ OSPF_GR_ADJ_OK →
                ospf_gr_adjacency_consistency_check_on (.ok r) network gr_info oi
                  = .ok ⟨gr_info, oi, []⟩)))
      ∧ (oi.dr ≠ oi.address →
          ospf_gr_adjacency_consistency_check_on (.ok OSPF_GR_ADJ_OK) network gr_info oi
              = .ok (consistency_event ospf_gr_event.RSM_GrIntAdjComplete gr_info oi)
            ∧ (r ≠ OSPF_GR_ADJ_OK →
                ospf_gr_adjacency_consistency_check_on (.ok r) network gr_info oi
                  = .ok (consistency_event ospf_gr_event.RSM_GrNbrInconsistent gr_info oi)))
      ∧ (∀ (fuel : Nat) (o : ospf) (nbr : ospf_neighbor),
          ospf_gr_adjacency_consistency_check fuel o oi (some nbr)
            = ospf_gr_adjacency_consistency_check_on (ospf_gr_examine_router_lsa o oi nbr)
                (ospf_gr_examine_network_lsa fuel o oi (some nbr)) o.gr_info oi)
      ∧ (∀ ev, (consistency_event ev gr_info oi).events = [ev]
          ∧ (consistency_event ev gr_info oi).gr_info = (ospf_gr_event_handle ev gr_info oi).1
          ∧ (consistency_event ev gr_info oi).oi = (ospf_gr_event_handle ev gr_info oi).2) := by
  refine ⟨fun hdr => ⟨?_, ?_⟩, fun hdr => ?_, fun _ _ _ => rfl, fun _ => ⟨rfl, rfl, rfl⟩⟩
  · intro hs router
    unfold ospf_gr_adjacency_consistency_check_on
    rw [if_pos hdr, hs]
  · intro hs
    obtain ⟨self, hself⟩ := Option.ne_none_iff_exists'.mp hs
    have hA : ∀ (x : Nat) (nw : Except gr_fault Nat),
        ospf_gr_adjacency_consistency_check_on (.ok x) nw gr_info oi
          = if OSPF_GR_ADJ_OK = x then
              match nw with
              | .error e => .error e
              | .ok ret =>
                if OSPF_GR_ADJ_NOK = ret then
                  .ok (consistency_event ospf_gr_event.RSM_GrNbrInconsistent gr_info oi)
                else if OSPF_GR_ADJ_OK = ret then
                  .ok (consistency_event ospf_gr_event.RSM_GrIntAdjComplete gr_info oi)
                else .ok ⟨gr_info, oi, []⟩
            else .ok ⟨gr_info, oi, []⟩ := by
      intro x nw
      unfold ospf_gr_adjacency_consistency_check_on
      rw [if_pos hdr, hself]
    refine ⟨?_, ?_, ?_, ?_⟩
    · rw [hA]; rfl
    · rw [hA]; rfl
    · rw [hA]; rfl
    · intro hr
      rw [hA, if_neg (fun h => hr h.symm)]
  · have hB : ∀ (x : Nat) (nw : Except gr_fault Nat),
        ospf_gr_adjacency_consistency_check_on (.ok x) nw gr_info oi
          = if OSPF_GR_ADJ_OK = x then
              .ok (consistency_event ospf_gr_event.RSM_GrIntAdjComplete gr_info oi)
            else .ok (consistency_event ospf_gr_event.RSM_GrNbrInconsistent gr_info oi) := by
      intro x nw
      unfold ospf_gr_adjacency_consistency_check_on
      rw [if_neg hdr]
    refine ⟨?_, ?_⟩
    · rw [hB]; rfl
    · intro hr
      rw [hB, if_neg (fun h => hr h.symm)]

/-! ### The grace expiry timer along the runs of the restarting side -/

theorem ism_change_keeps_expiry (gr_info : ospf_gr_info) (oi : ospf_interface) :
    (ospf_gr_ism_change gr_info oi).gr_info.gr_expiry_t = gr_info.gr_expiry_t := by
  unfold ospf_gr_ism_change
  split_ifs
  · rfl
  · rfl
  · cases oi.state <;> cases gr_info.gr_monitor_t <;> rfl

theorem event_handle_keeps_expiry (ev : ospf_gr_event) (gr_info : ospf_gr_info)
    (oi : ospf_interface) :
    (ospf_gr_event_handle ev gr_info oi).1.gr_expiry_t = gr_info.gr_expiry_t := by
  cases ev <;> rfl

theorem restart_monitor_keeps_expiry (t : Option thread) (st : ospf) :
    (ospf_gr_restart_monitor t st).ospf.gr_info.gr_expiry_t = st.gr_info.gr_expiry_t
      ∧ ∀ x, gr_effect.thread_cancel x ∉ (ospf_gr_restart_monitor t st).effects := by
  unfold ospf_gr_restart_monitor
  dsimp only
  split_ifs <;> cases t <;> simp

theorem chk_restart_keeps_expiry (st : ospf) (h : st.gr_info.gr_expiry_t ≠ none) :
    (ospf_chk_restart st).1.gr_info.gr_expiry_t ≠ none := by
  unfold ospf_chk_restart
  split_ifs
  · simp
  · exact h

theorem no_nbr_monitor_keeps_expiry (nbrs_null : Bool) (gr_info : ospf_gr_info)
    (oi : ospf_interface) :
    (ospf_gr_no_nbr_monitor nbrs_null gr_info oi).gr_info.gr_expiry_t = gr_info.gr_expiry_t := by
  cases nbrs_null <;> rfl

theorem restart_step_keeps_expiry (s s1 : ospf) (hstep : restart_step s s1)
    (h : s.gr_info.gr_expiry_t ≠ none) : s1.gr_info.gr_expiry_t ≠ none := by
  cases hstep with
  | configure gr_enable grace_period => exact h
  | chk_restart => exact chk_restart_keeps_expiry s h
  | ism_change i oi hi =>
    show (ospf_gr_ism_change s.gr_info oi).gr_info.gr_expiry_t ≠ none
    rw [ism_change_keeps_expiry]; exact h
  | nsm_change i j oi nbr hi hj => exact h
  | event i oi ev hi =>
    show (ospf_gr_event_handle ev s.gr_info oi).1.gr_expiry_t ≠ none
    rw [event_handle_keeps_expiry]; exact h
  | monitor rs t ht =>
    rw [(restart_monitor_keeps_expiry rs s).1]; exact h
  | grace_period_expiry t ht =>
    show (ospf_gr_grace_period_expiry_loop s.gr_info s.oiflist).1.gr_expiry_t ≠ none
    rw [grace_period_expiry_loop_eq]; exact h
  | no_nbr_monitor i oi nbrs_null t hi ht hn =>
    show (ospf_gr_no_nbr_monitor nbrs_null s.gr_info oi).gr_info.gr_expiry_t ≠ none
    rw [no_nbr_monitor_keeps_expiry]; exact h

theorem restart_reachable_keeps_expiry (s s1 : ospf) (hr : restart_reachable s s1)
    (h : s.gr_info.gr_expiry_t ≠ none) : s1.gr_info.gr_expiry_t ≠ none := by
  induction hr with
  | refl => exact h
  | tail _ hstep ih => exact restart_step_keeps_expiry _ _ hstep ih

theorem sample_run_reachable : restart_reachable sample_run_created sample_run_monitored := by
  have h1 : restart_step sample_run_created (restart_configure TRUE 120 sample_run_created) :=
    restart_step.configure _ _ _
  have h2 : restart_step (restart_configure TRUE 120 sample_run_created) sample_run_armed :=
    restart_step.chk_restart _
  have h3 : restart_step sample_run_armed (restart_ism_change sample_run_armed 0 sample_up_oi) :=
    restart_step.ism_change _ 0 sample_up_oi rfl
  have h4 : restart_step (restart_ism_change sample_run_armed 0 sample_up_oi)
      sample_run_started :=
    restart_step.ism_change _ 1 sample_up_oi2 rfl
  have h5 : restart_step sample_run_started
      (restart_event sample_run_started 0 (ism_started_oi sample_up_oi)
        ospf_gr_event.RSM_GrIntAdjComplete) :=
    restart_step.event _ 0 _ _ rfl
  have h6 : restart_step
      (restart_event sample_run_started 0 (ism_started_oi sample_up_oi)
        ospf_gr_event.RSM_GrIntAdjComplete) sample_run_resumed :=
    restart_step.event _ 1 _ _ rfl
  have h7 : restart_step sample_run_resumed sample_run_monitored :=
    restart_step.monitor _ none ⟨thread_func.ospf_gr_restart_monitor, 10⟩ rfl
  exact ((((((Relation.ReflTransGen.single h1).tail h2).tail h3).tail h4).tail h5).tail
    h6).tail h7

/-- C14 (the code differs): the monitor never touches the grace expiry timer and
cancels no timer.  In the run shown, an instance is created with the restart
flag set, configured, armed by `ospf_chk_restart`, both interfaces come up and
complete their adjacencies, and the monitor sets the status to NotRestart with
exit reason Completed; the grace expiry timer is still set for 120 s, and when
it fires both interfaces go from OK to NOK and the exit reason goes from
Completed to Timeout. -/
theorem monitor_leaves_grace_timer_armed :
    restart_reachable sample_run_created sample_run_monitored
      ∧ sample_run_monitored.gr_info.gr_status = (OSPF_GR_NOT_RESTART : Int)
      ∧ sample_run_monitored.gr_info.gr_exit_reason = (OSPF_GR_COMPLETED : Int)
      ∧ sample_run_monitored.oiflist.map (fun oi => oi.gr_state) = [RSM_GrResOK, RSM_GrResOK]
      ∧ sample_run_monitored.gr_info.gr_expiry_t
          = some ⟨thread_func.ospf_gr_grace_period_expiry, 120⟩
      ∧ restart_step sample_run_monitored (ospf_gr_grace_period_expiry sample_run_monitored)
      ∧ (ospf_gr_grace_period_expiry sample_run_monitored).gr_info.gr_exit_reason
          = (OSPF_GR_TIMEOUT : Int)
      ∧ (ospf_gr_grace_period_expiry sample_run_monitored).oiflist.map (fun oi => oi.gr_state)
          = [RSM_GrResNOK, RSM_GrResNOK]
      ∧ ∀ (t : Option thread) (st : ospf),
          (ospf_gr_restart_monitor t st).ospf.gr_info.gr_expiry_t = st.gr_info.gr_expiry_t
            ∧ ∀ x, gr_effect.thread_cancel x ∉ (ospf_gr_restart_monitor t st).effects :=
  ⟨sample_run_reachable, rfl, rfl, rfl, rfl,
    restart_step.grace_period_expiry _ ⟨thread_func.ospf_gr_grace_period_expiry, 120⟩ rfl,
    rfl, rfl, restart_monitor_keeps_expiry⟩

theorem grace_period_expiry_keeps (st : ospf) :
    (ospf_gr_grace_period_expiry st).gr_info.gr_status = st.gr_info.gr_status
      ∧ (ospf_gr_grace_period_expiry st).gr_info.gr_expiry_t = st.gr_info.gr_expiry_t := by
  unfold ospf_gr_grace_period_expiry
  rw [grace_period_expiry_loop_eq]
  exact ⟨rfl, rfl⟩

theorem chk_restart_stale (st : ospf) (h : st.gr_info.gr_expiry_t ≠ none) :
    ospf_chk_restart st = (st, []) := by
  unfold ospf_chk_restart
  rw [if_neg (fun hc => h hc.2.2.2.2)]

theorem sample_armed_reachable :
    timed_reachable ⟨sample_run_created, false⟩ ⟨sample_run_armed, true⟩ := by
  have h1 : timed_step ⟨sample_run_created, false⟩
      ⟨restart_configure TRUE 120 sample_run_created, false⟩ :=
    timed_step.configure _ _ _
  have h2 : timed_step ⟨restart_configure TRUE 120 sample_run_created, false⟩
      ⟨sample_run_armed, true⟩ :=
    timed_step.chk_restart _
  exact (Relation.ReflTransGen.single h1).tail h2

/-- C18 (the code differs): the grace expiry timer is a one-shot timer, and its
handler `ospf_gr_grace_period_expiry` neither resets the status nor clears the
handle `gr_expiry_t`.  In the run shown, an instance is created with the
restart flag set, configured, and `ospf_chk_restart` adds the timer for 120 s;
when the timer fires, the status is still PlannedRestart and no grace expiry
timer is pending.  The handle still holds the fired timer, so in every state
reached from there `ospf_chk_restart` adds no timer again.  The handler of the
helper timer, by contrast, clears its handle and leaves helper status.  Before
`ospf_chk_restart` has run, right at creation, the status is PlannedRestart
with no timer added yet. -/
theorem grace_timer_gone_while_restarting :
    timed_reachable ⟨sample_run_created, false⟩ ⟨sample_run_armed, true⟩
      ∧ sample_run_armed.gr_info.gr_status = (OSPF_GR_PLANNED_RESTART : Int)
      ∧ sample_run_armed.gr_info.gr_expiry_t
          = some ⟨thread_func.ospf_gr_grace_period_expiry, 120⟩
      ∧ timed_step ⟨sample_run_armed, true⟩ ⟨ospf_gr_grace_period_expiry sample_run_armed, false⟩
      ∧ (ospf_gr_grace_period_expiry sample_run_armed).gr_info.gr_status
          = (OSPF_GR_PLANNED_RESTART : Int)
      ∧ (ospf_gr_grace_period_expiry sample_run_armed).gr_info.gr_status
          ≠ (OSPF_GR_NOT_RESTART : Int)
      ∧ (ospf_gr_grace_period_expiry sample_run_armed).gr_info.gr_expiry_t
          = some ⟨thread_func.ospf_gr_grace_period_expiry, 120⟩
      ∧ (∀ st : ospf,
          (ospf_gr_grace_period_expiry st).gr_info.gr_status = st.gr_info.gr_status
            ∧ (ospf_gr_grace_period_expiry st).gr_info.gr_expiry_t = st.gr_info.gr_expiry_t)
      ∧ (∀ s1 : ospf, restart_reachable (ospf_gr_grace_period_expiry sample_run_armed) s1 →
          ospf_chk_restart s1 = (s1, []))
      ∧ (∀ (oi : ospf_interface) (nbr : ospf_neighbor),
          (ospf_adjacency_grace_period oi nbr).1.gr_helper.helper_t = none
            ∧ (ospf_adjacency_grace_period oi nbr).1.gr_helper.helper_status
              = OSPF_GR_NOT_HELPING)
      ∧ sample_run_created.gr_info.gr_status = (OSPF_GR_PLANNED_RESTART : Int)
      ∧ sample_run_created.gr_info.gr_expiry_t = none := by
  refine ⟨sample_armed_reachable, rfl, rfl, timed_step.grace_period_expiry _ rfl, rfl,
    by decide, rfl, grace_period_expiry_keeps, ?_, fun _ _ => ⟨rfl, rfl⟩, rfl, rfl⟩
  intro s1 hr
  exact chk_restart_stale s1
    (restart_reachable_keeps_expiry _ _ hr (by
      show (some (thread.mk thread_func.ospf_gr_grace_period_expiry 120) : Option thread)
        ≠ none
      exact fun h => nomatch h))

/-! ### Interfaces that go NOK without an exit reason -/

theorem sample_lonely_reachable : restart_reachable sample_lonely_created sample_lonely_alone := by
  have h1 : restart_step sample_lonely_created
      (restart_configure TRUE 120 sample_lonely_created) :=
    restart_step.configure _ _ _
  have h2 : restart_step (restart_configure TRUE 120 sample_lonely_created)
      sample_lonely_armed :=
    restart_step.chk_restart _
  have h3 : restart_step sample_lonely_armed sample_lonely_started :=
    restart_step.ism_change _ 0 sample_up_oi2 rfl
  have h4 : restart_step sample_lonely_started sample_lonely_alone :=
    restart_step.no_nbr_monitor _ 0 (ism_started_oi sample_up_oi2) true
      ⟨thread_func.ospf_gr_no_nbr_monitor, 80⟩ rfl rfl (fun _ => rfl)
  exact (((Relation.ReflTransGen.single h1).tail h2).tail h3).tail h4

/-- C22 (the code differs): an instance is created with the restart flag set,
configured and armed; its one interface comes up and its no-neighbor watchdog
fires with the neighbor table NULL, which makes the interface NOK through event
NoNbr and writes no exit reason.  The monitor then finds every interface in
OK or NOK and sets the status to NotRestart, and the exit reason afterwards is
still InProgress; the instance-exit task that the monitor posted returns at its
first loop, makes no call into the host and leaves the restart flag set. -/
theorem monitor_exit_reason_in_progress :
    restart_reachable sample_lonely_created sample_lonely_alone
      ∧ (∀ oi ∈ sample_lonely_alone.oiflist,
          oi.gr_state = RSM_GrResOK ∨ oi.gr_state = RSM_GrResNOK)
      ∧ sample_lonely_alone.gr_info.gr_monitor_t
          = some ⟨thread_func.ospf_gr_restart_monitor, 10⟩
      ∧ sample_lonely_monitored.gr_info.gr_status = (OSPF_GR_NOT_RESTART : Int)
      ∧ sample_lonely_monitored.gr_info.gr_exit_reason = (OSPF_GR_IN_PROGRESS : Int)
      ∧ sample_lonely_master.restart_status_t = some ⟨thread_func.ospf_ins_restart_status, 0⟩
      ∧ ospf_ins_restart_status (fun _ _ => true) 1 ⟨0, 0, 0⟩ sample_lonely_master
          = ⟨{ sample_lonely_master with restart_status_t := none }, 1, []⟩
      ∧ (ospf_ins_restart_status (fun _ _ => true) 1 ⟨0, 0, 0⟩
          sample_lonely_master).m.gr_restart_in_progress = true :=
  ⟨sample_lonely_reachable, by decide, rfl, rfl, rfl, rfl, rfl, rfl⟩

/-- C23 (the code differs): `ospf_gr_ism_change` returns before its switch when
the resume state is InProgress or beyond, and its case for ISM state Down holds
no statement, so the hook changes nothing for an interface in ISM state Down
and nothing for an interface whose resume state is InProgress.  For the
interface shown, of a restarting instance, with resume state InProgress and ISM
state Down, the resume state after the hook is InProgress, not NOK. -/
theorem ism_change_down_keeps_in_progress :
    (∀ (gr_info : ospf_gr_info) (oi : ospf_interface),
        oi.gr_state = RSM_GrResInProgress → ospf_gr_ism_change gr_info oi = ⟨gr_info, oi, []⟩)
      ∧ (∀ (gr_info : ospf_gr_info) (oi : ospf_interface),
        oi.state = ism_state.ISM_Down → ospf_gr_ism_change gr_info oi = ⟨gr_info, oi, []⟩)
      ∧ sample_restart_ospf.gr_info.gr_status ≠ (OSPF_GR_NOT_RESTART : Int)
      ∧ sample_down_oi.gr_state = RSM_GrResInProgress
      ∧ sample_down_oi.state = ism_state.ISM_Down
      ∧ (ospf_gr_ism_change sample_restart_ospf.gr_info sample_down_oi).oi.gr_state
          = RSM_GrResInProgress
      ∧ (ospf_gr_ism_change sample_restart_ospf.gr_info sample_down_oi).oi.gr_state
          ≠ RSM_GrResNOK := by
  refine ⟨?_, ?_, by decide, rfl, rfl, rfl, by decide⟩
  · intro gr_info oi h
    unfold ospf_gr_ism_change
    have hge : oi.gr_state ≥ RSM_GrResInProgress := by rw [h]
    rw [if_pos hge]
    split <;> rfl
  · intro gr_info oi h
    unfold ospf_gr_ism_change
    rw [h]
    split_ifs <;> rfl

/-- C24 (the code differs): `ospf_gr_no_nbr_monitor` tests whether the pointer
`oi->nbrs` is NULL, not whether the table holds a neighbor.  When the table
exists the watchdog changes nothing and raises no event, whatever the table
holds; for the interface shown, whose table exists and is empty and whose
resume state is InProgress, the resume state stays InProgress.  Only with the
pointer NULL is NoNbr raised and the resume state NOK. -/
theorem no_nbr_monitor_empty_table :
    (∀ (gr_info : ospf_gr_info) (oi : ospf_interface),
        ospf_gr_no_nbr_monitor false gr_info oi = ⟨gr_info, oi, []⟩)
      ∧ (ism_started_oi sample_up_oi2).nbrs = []
      ∧ (ism_started_oi sample_up_oi2).gr_state = RSM_GrResInProgress
      ∧ (ospf_gr_no_nbr_monitor false sample_lonely_started.gr_info
          (ism_started_oi sample_up_oi2)).oi.gr_state = RSM_GrResInProgress
      ∧ (ospf_gr_no_nbr_monitor false sample_lonely_started.gr_info
          (ism_started_oi sample_up_oi2)).events = []
      ∧ (∀ (gr_info : ospf_gr_info) (oi : ospf_interface),
        (ospf_gr_no_nbr_monitor true gr_info oi).oi.gr_state = RSM_GrResNOK
          ∧ (ospf_gr_no_nbr_monitor true gr_info oi).events = [ospf_gr_event.RSM_GrNoNbr]) :=
  ⟨fun _ _ => rfl, rfl, rfl, rfl, rfl, fun _ _ => ⟨rfl, rfl⟩⟩

/-! ### The delete hook and an absent neighbor -/

/-- C26 (the code differs): `ospf_gr_hlpr_del_lsa` loads
`nbr->gr_helper.helper_status` through the pointer that the lookup returns,
without a NULL test.  For a Grace-LSA that passes the type tests and parses,
when the lookup under the parsed interface address finds no neighbor on the
receiving interface the call is a NULL dereference and returns nothing.  Shown
for a Grace-LSA whose interface address 10.0.0.39 is no neighbor of the
interface, and for a Grace-LSA without an interface-address TLV, where the
lookup key is the content of the uninitialised local `if_addr`. -/
theorem hlpr_del_lsa_unknown_nbr_faults :
    (∀ (locals out : grace_lsa_out) (lsa : ospf_lsa) (lsah : List Nat) (id : Nat)
        (oi : ospf_interface),
        lsa.data = some lsah → rd8 lsah 3 = .ok OSPF_OPAQUE_LINK_LSA →
        rd32 lsah 4 = .ok id → GET_OPAQUE_TYPE id = OPAQUE_TYPE_GRACE_LSA →
        ospf_gr_parse_grace_lsa (some lsah) locals = .ok out →
        ospf_nbr_lookup_by_addr oi.nbrs out.if_addr = none →
        ospf_gr_hlpr_del_lsa locals (some lsa) oi = .error gr_fault.null_deref)
      ∧ ospf_nbr_lookup_by_addr sample_oi.nbrs 167772199 = none
      ∧ ospf_gr_parse_grace_lsa (sample_grace_lsa 120 167772199 1 3600).data ⟨0, 0, 0⟩
          = .ok ⟨120, 167772199, 1⟩
      ∧ ospf_gr_hlpr_del_lsa ⟨0, 0, 0⟩ (some (sample_grace_lsa 120 167772199 1 3600)) sample_oi
          = .error gr_fault.null_deref
      ∧ ospf_gr_parse_grace_lsa (sample_grace_lsa_no_addr 120 1 3600).data ⟨0, 7, 0⟩
          = .ok ⟨120, 7, 1⟩
      ∧ ospf_gr_hlpr_del_lsa ⟨0, 7, 0⟩ (some (sample_grace_lsa_no_addr 120 1 3600)) sample_oi
          = .error gr_fault.null_deref := by
  refine ⟨?_, rfl, rfl, rfl, rfl, rfl⟩
  intro locals out lsa lsah id oi hdata htype hid hgrace hparse hnbr
  simp only [ospf_gr_hlpr_del_lsa, hdata, bind, Except.bind, htype, hid, hgrace, hparse,
    hnbr, ne_eq, not_true_eq_false, if_false]

/-! ### The Router-LSA test -/

theorem network_lsa_while_error (object : List Nat) (nbrs : List ospf_neighbor)
    (nbr : ospf_neighbor) :
    ∀ (fuel k cnt match_count match_found : Nat),
      ∃ e, ospf_gr_examine_network_lsa_while object nbrs nbr fuel k cnt match_count match_found
        = .error e := by
  intro fuel
  induction fuel with
  | zero => intro k cnt mc mf; exact ⟨_, rfl⟩
  | succ fuel ih =>
    intro k cnt mc mf
    unfold ospf_gr_examine_network_lsa_while
    cases hn : ospf_gr_examine_network_lsa_nbrs object k nbr nbrs mc mf with
    | error e => exact ⟨e, rfl⟩
    | ok r =>
      obtain ⟨mc1, mf1⟩ := r
      exact ih (k + 1) (cnt + 1) mc1 mf1

theorem network_lsa_while_empty (object : List Nat) (nbr : ospf_neighbor) :
    ∀ (fuel k cnt match_count match_found : Nat),
      ospf_gr_examine_network_lsa_while object [] nbr fuel k cnt match_count match_found
        = .error gr_fault.loop_bound := by
  intro fuel
  induction fuel with
  | zero => intro k cnt mc mf; rfl
  | succ fuel ih =>
    intro k cnt mc mf
    unfold ospf_gr_examine_network_lsa_while
    simp only [ospf_gr_examine_network_lsa_nbrs]
    exact ih (k + 1) (cnt + 1) mc mf

theorem network_lsa_nbrs_ok (object : List Nat) (k : Nat) (nbr : ospf_neighbor) (r : Nat)
    (hr : rd32 object (NETWORK_LSA_ROUTERS + 4 * k) = .ok r) :
    ∀ (l : List ospf_neighbor) (match_count match_found : Nat),
      ∃ v, ospf_gr_examine_network_lsa_nbrs object k nbr l match_count match_found = .ok v := by
  intro l
  induction l with
  | nil => intro mc mf; exact ⟨_, rfl⟩
  | cons n rest ih =>
    intro mc mf
    simp only [ospf_gr_examine_network_lsa_nbrs, hr]
    exact ih _ _

theorem network_lsa_while_past_end (object : List Nat) (n : ospf_neighbor)
    (rest : List ospf_neighbor) (nbr : ospf_neighbor) (last : Nat) (e : gr_fault)
    (hread : ∀ j, j < last → ∃ v, rd32 object (NETWORK_LSA_ROUTERS + 4 * j) = .ok v)
    (hend : rd32 object (NETWORK_LSA_ROUTERS + 4 * last) = .error e) :
    ∀ (fuel k cnt match_count match_found : Nat), k ≤ last → last - k < fuel →
      ospf_gr_examine_network_lsa_while object (n :: rest) nbr fuel k cnt match_count
          match_found
        = .error e := by
  intro fuel
  induction fuel with
  | zero => intro k cnt mc mf _ h; omega
  | succ fuel ih =>
    intro k cnt mc mf hk hf
    unfold ospf_gr_examine_network_lsa_while
    by_cases hlt : k < last
    · obtain ⟨r, hr⟩ := hread k hlt
      obtain ⟨v, hv⟩ := network_lsa_nbrs_ok object k nbr r hr (n :: rest) mc mf
      rw [hv]
      obtain ⟨mc1, mf1⟩ := v
      exact ih (k + 1) (cnt + 1) mc1 mf1 hlt (by omega)
    · have hkl : k = last := by omega
      subst hkl
      simp only [ospf_gr_examine_network_lsa_nbrs, hend]

theorem network_lsa_loop_head (fuel : Nat) (o : ospf) (oi : ospf_interface)
    (nbr : ospf_neighbor) (lsa : network_lsdb_entry) (rest : List network_lsdb_entry)
    (cnt match_count match_found : Nat) (e : gr_fault)
    (hid : rd32 lsa.object LSA_HEADER_ID = .ok o.router_id)
    (hw : ospf_gr_examine_network_lsa_while lsa.object oi.nbrs nbr fuel 0 cnt match_count
      match_found = .error e) :
    ospf_gr_examine_network_lsa_loop fuel o oi nbr (lsa :: rest) cnt match_count match_found
      = .error e := by
  unfold ospf_gr_examine_network_lsa_loop
  rw [hid]
  dsimp only
  rw [if_pos rfl, hw]

theorem network_lsa_loop_no_match (fuel : Nat) (o : ospf) (oi : ospf_interface)
    (nbr : ospf_neighbor) :
    ∀ (lsdb : List network_lsdb_entry), no_network_object_matches o lsdb →
      ∀ (cnt match_count match_found : Nat),
        ospf_gr_examine_network_lsa_loop fuel o oi nbr lsdb cnt match_count match_found
          = .ok OSPF_GR_ADJ_INPRGRESS := by
  intro lsdb
  induction lsdb with
  | nil => intro _ _ _ _; rfl
  | cons e rest ih =>
    intro h cnt mc mf
    obtain ⟨v, hv, hne⟩ := h e (List.mem_cons_self _ _)
    unfold ospf_gr_examine_network_lsa_loop
    rw [hv]
    dsimp only
    rw [if_neg hne]
    exact ih (fun x hx => h x (List.mem_cons_of_mem _ hx)) cnt mc mf

theorem network_lsa_loop_value (fuel : Nat) (o : ospf) (oi : ospf_interface)
    (nbr : ospf_neighbor) :
    ∀ (lsdb : List network_lsdb_entry) (cnt match_count match_found v : Nat),
      ospf_gr_examine_network_lsa_loop fuel o oi nbr lsdb cnt match_count match_found = .ok v →
      v = OSPF_GR_ADJ_INPRGRESS := by
  intro lsdb
  induction lsdb with
  | nil =>
    intro cnt mc mf v h
    have h1 : (Except.ok OSPF_GR_ADJ_INPRGRESS : Except gr_fault Nat) = .ok v := h
    exact (Except.ok.inj h1).symm
  | cons e rest ih =>
    intro cnt mc mf v h
    unfold ospf_gr_examine_network_lsa_loop at h
    cases hid : rd32 e.object LSA_HEADER_ID with
    | error x => rw [hid] at h; cases h
    | ok id =>
      rw [hid] at h
      dsimp only at h
      by_cases hm : id = o.router_id
      · rw [if_pos hm] at h
        obtain ⟨x, hx⟩ := network_lsa_while_error e.object oi.nbrs nbr fuel 0 cnt mc mf
        rw [hx] at h
        cases h
      · rw [if_neg hm] at h
        exact ih cnt mc mf v h

theorem sample_net_no_match :
    no_network_object_matches sample_restart_ospf sample_net_oi.area.network_lsdb := by
  intro e he
  have h2 : e = ⟨sample_lsa_object 64, ⟨33686018, [16843009]⟩⟩ := by
    simpa [sample_net_oi, sample_net_area] using he
  subst h2
  exact ⟨0, rfl, by decide⟩

/-- C21 (the code differs): `ospf_gr_examine_network_lsa` casts the pointer to
the `struct ospf_lsa` object of the LSDB itself to `struct network_lsa *`, so it
compares our router ID with bytes of that object, not with the link-state ID of
the Network-LSA that the object holds.  Whenever no object shows our router ID
at the offset of the link-state ID, the function returns AdjInProgress,
whatever the Network-LSAs contain; and it never returns AdjOK or AdjNOK at all,
since the walk that an object with our router ID at that offset starts has no
exit.  In the LSDB shown the Network-LSA has our router ID as link-state ID and
its one attached router is the router ID of the neighbor in the table, so the
test of the specification gives AdjOK; the C function returns AdjInProgress. -/
theorem examine_network_lsa_reads_container :
    (∀ (fuel : Nat) (o : ospf) (oi : ospf_interface) (n : ospf_neighbor),
        no_network_object_matches o oi.area.network_lsdb →
        ospf_gr_examine_network_lsa fuel o oi (some n) = .ok OSPF_GR_ADJ_INPRGRESS)
      ∧ (∀ (fuel : Nat) (o : ospf) (oi : ospf_interface) (n : ospf_neighbor) (v : Nat),
          ospf_gr_examine_network_lsa fuel o oi (some n) = .ok v →
          v = OSPF_GR_ADJ_INPRGRESS)
      ∧ sample_net_oi.area.network_lsdb.map (fun e => e.lsa)
          = [⟨sample_restart_ospf.router_id, [16843009]⟩]
      ∧ network_lsa_test [16843009] sample_net_oi.nbrs sample_check_nbr = OSPF_GR_ADJ_OK
      ∧ no_network_object_matches sample_restart_ospf sample_net_oi.area.network_lsdb
      ∧ (∀ fuel, ospf_gr_examine_network_lsa fuel sample_restart_ospf sample_net_oi
            (some sample_check_nbr)
          = .ok OSPF_GR_ADJ_INPRGRESS) := by
  have hgen : ∀ (fuel : Nat) (o : ospf) (oi : ospf_interface) (n : ospf_neighbor),
      no_network_object_matches o oi.area.network_lsdb →
      ospf_gr_examine_network_lsa fuel o oi (some n) = .ok OSPF_GR_ADJ_INPRGRESS :=
    fun fuel o oi n h => network_lsa_loop_no_match fuel o oi n oi.area.network_lsdb h 0 0 0
  refine ⟨hgen, ?_, rfl, by decide, sample_net_no_match, ?_⟩
  · intro fuel o oi n v h
    exact network_lsa_loop_value fuel o oi n oi.area.network_lsdb 0 0 0 v h
  · intro fuel
    exact hgen fuel sample_restart_ospf sample_net_oi sample_check_nbr sample_net_no_match

/-- C25 (the code differs): the loop `while (routers_id)` of
`ospf_gr_examine_network_lsa` has no exit: its condition tests a pointer that
is never NULL and its body holds no `break` and no `return`.  Whatever bound is
put on it, the walk ends in a fault and never hands its counters to the code
behind the loop.  With an empty neighbor table it loads nothing and uses up
every bound, so the function does not terminate once an object shows our
router ID at the offset of the link-state ID; with a neighbor in the table it
loads entry after entry until a load faults.  Shown for an instance whose
router ID is 0.0.0.0 and an object whose padding octets at that offset are
zero. -/
theorem examine_network_lsa_walk_never_stops :
    (∀ (object : List Nat) (nbrs : List ospf_neighbor) (nbr : ospf_neighbor)
        (fuel k cnt match_count match_found : Nat),
        ∃ e, ospf_gr_examine_network_lsa_while object nbrs nbr fuel k cnt match_count
          match_found = .error e)
      ∧ (∀ (object : List Nat) (nbr : ospf_neighbor)
          (fuel k cnt match_count match_found : Nat),
          ospf_gr_examine_network_lsa_while object [] nbr fuel k cnt match_count match_found
            = .error gr_fault.loop_bound)
      ∧ (∀ (object : List Nat) (n : ospf_neighbor) (rest : List ospf_neighbor)
          (nbr : ospf_neighbor) (last : Nat) (e : gr_fault) (fuel cnt match_count
          match_found : Nat),
          (∀ j, j < last → ∃ v, rd32 object (NETWORK_LSA_ROUTERS + 4 * j) = .ok v) →
          rd32 object (NETWORK_LSA_ROUTERS + 4 * last) = .error e → last < fuel →
          ospf_gr_examine_network_lsa_while object (n :: rest) nbr fuel 0 cnt match_count
              match_found
            = .error e)
      ∧ (∀ (fuel : Nat) (o : ospf) (oi : ospf_interface) (n : ospf_neighbor)
          (lsa : network_lsdb_entry) (rest : List network_lsdb_entry),
          oi.area.network_lsdb = lsa :: rest →
          rd32 lsa.object LSA_HEADER_ID = .ok o.router_id →
          (oi.nbrs = [] →
            ospf_gr_examine_network_lsa fuel o oi (some n) = .error gr_fault.loop_bound)
          ∧ ∃ e, ospf_gr_examine_network_lsa fuel o oi (some n) = .error e)
      ∧ sample_unset_ospf.router_id = 0
      ∧ rd32 (sample_lsa_object 64) LSA_HEADER_ID = .ok sample_unset_ospf.router_id
      ∧ sample_net_oi_empty.nbrs = []
      ∧ (∀ fuel, ospf_gr_examine_network_lsa fuel sample_unset_ospf sample_net_oi_empty
            (some sample_check_nbr)
          = .error gr_fault.loop_bound)
      ∧ (∀ fuel, ∃ e, ospf_gr_examine_network_lsa fuel sample_unset_ospf sample_net_oi
            (some sample_check_nbr)
          = .error e) := by
  have hmatch : ∀ (fuel : Nat) (o : ospf) (oi : ospf_interface) (n : ospf_neighbor)
      (lsa : network_lsdb_entry) (rest : List network_lsdb_entry),
      oi.area.network_lsdb = lsa :: rest →
      rd32 lsa.object LSA_HEADER_ID = .ok o.router_id →
      (oi.nbrs = [] →
        ospf_gr_examine_network_lsa fuel o oi (some n) = .error gr_fault.loop_bound)
      ∧ ∃ e, ospf_gr_examine_network_lsa fuel o oi (some n) = .error e := by
    intro fuel o oi n lsa rest hl hid
    constructor
    · intro hn
      show ospf_gr_examine_network_lsa_loop fuel o oi n oi.area.network_lsdb 0 0 0 = _
      rw [hl]
      apply network_lsa_loop_head fuel o oi n lsa rest 0 0 0 _ hid
      rw [hn]
      exact network_lsa_while_empty lsa.object n fuel 0 0 0 0
    · obtain ⟨e, he⟩ := network_lsa_while_error lsa.object oi.nbrs n fuel 0 0 0 0
      refine ⟨e, ?_⟩
      show ospf_gr_examine_network_lsa_loop fuel o oi n oi.area.network_lsdb 0 0 0 = _
      rw [hl]
      exact network_lsa_loop_head fuel o oi n lsa rest 0 0 0 e hid he
  refine ⟨network_lsa_while_error, network_lsa_while_empty, ?_, hmatch, rfl, rfl, rfl, ?_, ?_⟩
  · intro object n rest nbr last e fuel cnt mc mf hread hend hf
    exact network_lsa_while_past_end object n rest nbr last e hread hend fuel 0 cnt mc mf
      (Nat.zero_le _) (by omega)
  · intro fuel
    exact (hmatch fuel sample_unset_ospf sample_net_oi_empty sample_check_nbr
      ⟨sample_lsa_object 64, ⟨33686018, [16843009]⟩⟩ [] rfl rfl).1 rfl
  · intro fuel
    exact (hmatch fuel sample_unset_ospf sample_net_oi sample_check_nbr
      ⟨sample_lsa_object 64, ⟨33686018, [16843009]⟩⟩ [] rfl rfl).2

end OspfGr
